import Mathlib

/-!
Shallow embedding of the Subsocial `blogs` runtime module
(src/src/social/blogs.rs) and verification of its specification claims.

Modelling conventions:
* `AccountId`, `BlogId`, `PostId`, `CommentId`, `ReactionId` are `Nat`
  (the runtime instantiates them with unsigned integers starting at 1).
* Byte strings (`Vec<u8>`) are `List Nat`.
* `u16`/`u32` storage values are `Nat` with explicit checked arithmetic
  (`checked_add`/`checked_sub` return `Option`), `i16`/`i32` are `Int`
  with explicit range checks, exactly as the source's checked operations.
  The source's few *unchecked* `+= / -=` operations on `u16` counters are
  modelled as wrapping modulo 2^16, the semantics of a release-mode wasm
  runtime build.
* Substrate storage maps become function-typed fields of `St`
  (`key → Option value`); `::exists` is `Option.isSome`, getters of maps
  with a default value use `Option.getD`.
* A dispatchable or internal `Result`-returning function becomes a value
  of monad `M α = St → Except String α × St`.  Crucially, a returned
  error does NOT roll back earlier writes (the keyed store supplies no
  transactional rollback), so the state component is threaded through
  error returns unchanged from the point of failure.
* `ensure_signed(origin)` always succeeds; each operation takes the
  already-authenticated caller as its first argument.
* `deposit_event` appends to an `events` list in the state.
* The block number / timestamp consumed by `new_change` are read from
  `curBlock` / `curTime` fields of the state (the external clock adapter).
-/

namespace Subsocial

/-- Error message constants, verbatim from the source. -/
def MSG_BLOG_NOT_FOUND : String := "Blog was not found by id"

def MSG_BLOG_SLUG_IS_TOO_SHORT : String := "Blog slug is too short"

def MSG_BLOG_SLUG_IS_TOO_LONG : String := "Blog slug is too long"

def MSG_BLOG_SLUG_IS_NOT_UNIQUE : String := "Blog slug is not unique"

def MSG_NOTHING_TO_UPDATE_IN_BLOG : String := "Nothing to update in a blog"

def MSG_ONLY_BLOG_OWNER_CAN_UPDATE_BLOG : String := "Only a blog owner can update their blog"

def MSG_POST_NOT_FOUND : String := "Post was not found by id"

def MSG_NOTHING_TO_UPDATE_IN_POST : String := "Nothing to update in a post"

def MSG_ONLY_POST_OWNER_CAN_UPDATE_POST : String := "Only post owner can update their post"

def MSG_OVERFLOW_ADDING_POST_ON_BLOG : String := "Overflow adding post on blog"

def MSG_COMMENT_NOT_FOUND : String := "Comment was not found by id"

def MSG_UNKNOWN_PARENT_COMMENT : String := "Unknown parent comment id"

def MSG_ONLY_COMMENT_AUTHOR_CAN_UPDATE_COMMENT : String := "Only comment author can update their comment"

def MSG_NEW_COMMENT_HASH_DO_NOT_DIFFER : String := "New comment IPFS-hash is the same as old one"

def MSG_OVERFLOW_ADDING_COMMENT_ON_POST : String := "Overflow adding comment on post"

def MSG_OVERFLOW_REPLYING_ON_COMMENT : String := "Overflow replying on comment"

def MSG_REACTION_NOT_FOUND : String := "Reaction was not found by id"

def MSG_ACCOUNT_ALREADY_REACTED_TO_POST : String := "Account has already reacted to this post. To change a kind of reaction call update_post_reaction()"

def MSG_ACCOUNT_HAS_NOT_REACTED_TO_POST : String := "Account has not reacted to this post yet. Use create_post_reaction()"

def MSG_NO_POST_REACTION_BY_ACCOUNT_TO_DELETE : String := "There is no post reaction by account that could be deleted"

def MSG_OVERFLOW_UPVOTING_POST : String := "Overflow upvoting post"

def MSG_OVERFLOW_DOWNVOTING_POST : String := "Overflow downvoting post"

def MSG_ACCOUNT_ALREADY_REACTED_TO_COMMENT : String := "Account has already reacted to this comment. To change a kind of reaction call pub update_comment_reaction()"

def MSG_ACCOUNT_HAS_NOT_REACTED_TO_COMMENT : String := "Account has not reacted to this comment yet. Use create_comment_reaction()"

def MSG_NO_COMMENT_REACTION_BY_ACCOUNT_TO_DELETE : String := "There is no comment reaction by account that could be deleted"

def MSG_OVERFLOW_UPVOTING_COMMENT : String := "Overflow upvoting comment"

def MSG_OVERFLOW_DOWNVOTING_COMMENT : String := "Overflow downvoting comment"

def MSG_ONLY_REACTION_OWNER_CAN_UPDATE_REACTION : String := "Only reaction owner can update their reaction"

def MSG_NEW_REACTION_KIND_DO_NOT_DIFFER : String := "New reaction kind is the same as old one"

def MSG_ACCOUNT_IS_FOLLOWING_BLOG : String := "Account is already following this blog"

def MSG_ACCOUNT_IS_NOT_FOLLOWING_BLOG : String := "Account is not following this blog"

def MSG_ACCOUNT_CANNOT_FOLLOW_ITSELF : String := "Account can not follow itself"

def MSG_ACCOUNT_CANNOT_UNFOLLOW_ITSELF : String := "Account can not unfollow itself"

def MSG_ACCOUNT_IS_ALREADY_FOLLOWED : String := "Account is already followed"

def MSG_ACCOUNT_IS_NOT_FOLLOWED : String := "Account is not followed by follower"

def MSG_UNDERFLOW_UNFOLLOWING_BLOG : String := "Underflow unfollowing blog"

def MSG_OVERFLOW_FOLLOWING_BLOG : String := "Overflow following blog"

def MSG_OVERFLOW_FOLLOWING_ACCOUNT : String := "Overflow following account"

def MSG_UNDERFLOW_UNFOLLOWING_ACCOUNT : String := "Overflow following account"

def MSG_SOCIAL_ACCOUNT_NOT_FOUND : String := "Social account was not found by id"

def MSG_FOLLOWER_ACCOUNT_NOT_FOUND : String := "Follower social account was not found by id"

def MSG_FOLLOWED_ACCOUNT_NOT_FOUND : String := "Followed social account was not found by id"

def MSG_IPFS_IS_INCORRECT : String := "IPFS-hash is not correct"

def MSG_OUT_OF_BOUNDS_UPDATING_BLOG_SCORE : String := "Out of bounds updating blog score"

def MSG_OUT_OF_BOUNDS_REVERTING_BLOG_SCORE : String := "Out of bounds reverting blog score"

def MSG_OUT_OF_BOUNDS_UPDATING_POST_SCORE : String := "Out of bounds updating post score"

def MSG_OUT_OF_BOUNDS_REVERTING_POST_SCORE : String := "Out of bounds reverting post score"

def MSG_OUT_OF_BOUNDS_UPDATING_COMMENT_SCORE : String := "Out of bounds updating comment score"

def MSG_OUT_OF_BOUNDS_REVERTING_COMMENT_SCORE : String := "Out of bounds reverting comment score"

def MSG_OUT_OF_BOUNDS_UPDATING_ACCOUNT_REPUTATION : String := "Out of bounds updating social account reputation"

def MSG_REPUTATION_DIFF_NOT_FOUND : String := "Scored account reputation difference by account and action not found"

def MSG_ORIGINAL_POST_NOT_FOUND : String := "Original post not found when sharing"

def MSG_OVERFLOW_TOTAL_SHARES_SHARING_POST : String := "Overflow total shares counter when sharing post"

def MSG_OVERFLOW_POST_SHARES_BY_ACCOUNT : String := "Overflow shares by account counter when sharing post"

def MSG_CANNOT_SHARE_SHARED_POST : String := "Cannot share post that is not regular post"

def MSG_ORIGINAL_COMMENT_NOT_FOUND : String := "Original comment not found when sharing"

def MSG_OVERFLOW_TOTAL_SHARES_SHARING_COMMENT : String := "Overflow total shares counter when sharing comment"

def MSG_OVERFLOW_COMMENT_SHARES_BY_ACCOUNT : String := "Overflow shares by account counter when sharing comment"

def MSG_PROFILE_ALREADY_EXISTS : String := "Profile for this account already exists"

def MSG_NOTHING_TO_UPDATE_IN_PROFILE : String := "Nothing to update in a profile"

def MSG_PROFILE_DOESNT_EXIST : String := "Account has no profile yet"

def MSG_USERNAME_IS_BUSY : String := "Profile username is busy"

def MSG_USERNAME_TOO_SHORT : String := "Username is too short"

def MSG_USERNAME_TOO_LONG : String := "Username is too long"

def MSG_USERNAME_NOT_ALPHANUMERIC : String := "Username is not alphanumeric"

/-- Default configuration constants, verbatim from the source. -/
def DEFAULT_SLUG_MAX_LEN : Nat := 50

def DEFAULT_SLUG_MIN_LEN : Nat := 5

def DEFAULT_IPFS_HASH_LEN : Nat := 46

def DEFAULT_USERNAME_MAX_LEN : Nat := 24

def DEFAULT_USERNAME_MIN_LEN : Nat := 3

def DEFAULT_BLOG_MAX_LEN : Nat := 1000

def DEFAULT_POST_MAX_LEN : Nat := 10000

def DEFAULT_COMMENT_MAX_LEN : Nat := 1000

def DEFAULT_UPVOTE_POST_ACTION_WEIGHT : Int := 5

def DEFAULT_DOWNVOTE_POST_ACTION_WEIGHT : Int := -3

def DEFAULT_SHARE_POST_ACTION_WEIGHT : Int := 5

def DEFAULT_CREATE_COMMENT_ACTION_WEIGHT : Int := 5

def DEFAULT_UPVOTE_COMMENT_ACTION_WEIGHT : Int := 4

def DEFAULT_DOWNVOTE_COMMENT_ACTION_WEIGHT : Int := -2

def DEFAULT_SHARE_COMMENT_ACTION_WEIGHT : Int := 3

def DEFAULT_FOLLOW_BLOG_ACTION_WEIGHT : Int := 7

def DEFAULT_FOLLOW_ACCOUNT_ACTION_WEIGHT : Int := 3

/-- Creation/update record: `struct Change<T>` (who, at which block, when). -/
structure Change where
  account : Nat
  block : Nat
  time : Nat
deriving DecidableEq, Repr

/-- Partial-update payload for a blog: `struct BlogUpdate<T>`. -/
structure BlogUpdate where
  writers : Option (List Nat)
  slug : Option (List Nat)
  ipfs_hash : Option (List Nat)
deriving DecidableEq, Repr

/-- Edit-history entry for a blog: `struct BlogHistoryRecord<T>`. -/
structure BlogHistoryRecord where
  edited : Change
  old_data : BlogUpdate
deriving DecidableEq, Repr

/-- The blog entity: `struct Blog<T>`. -/
structure Blog where
  id : Nat
  created : Change
  updated : Option Change
  writers : List Nat
  slug : List Nat
  ipfs_hash : List Nat
  posts_count : Nat
  followers_count : Nat
  edit_history : List BlogHistoryRecord
  score : Int
deriving DecidableEq, Repr

/-- Partial-update payload for a post: `struct PostUpdate<T>`. -/
structure PostUpdate where
  blog_id : Option Nat
  ipfs_hash : Option (List Nat)
deriving DecidableEq, Repr

/-- Edit-history entry for a post: `struct PostHistoryRecord<T>`. -/
structure PostHistoryRecord where
  edited : Change
  old_data : PostUpdate
deriving DecidableEq, Repr

/-- Tagged variant distinguishing regular posts from reshares: `enum PostExtension<T>`. -/
inductive PostExtension where
  | RegularPost : PostExtension
  | SharedPost : Nat → PostExtension
  | SharedComment : Nat → PostExtension
deriving DecidableEq, Repr

/-- The post entity: `struct Post<T>`. -/
structure Post where
  id : Nat
  blog_id : Nat
  created : Change
  updated : Option Change
  extension : PostExtension
  ipfs_hash : List Nat
  comments_count : Nat
  upvotes_count : Nat
  downvotes_count : Nat
  shares_count : Nat
  edit_history : List PostHistoryRecord
  score : Int
deriving DecidableEq, Repr

/-- Partial-update payload for a comment: `struct CommentUpdate`. -/
structure CommentUpdate where
  ipfs_hash : List Nat
deriving DecidableEq, Repr

/-- Edit-history entry for a comment: `struct CommentHistoryRecord<T>`. -/
structure CommentHistoryRecord where
  edited : Change
  old_data : CommentUpdate
deriving DecidableEq, Repr

/-- The comment entity: `struct Comment<T>`. -/
structure Comment where
  id : Nat
  parent_id : Option Nat
  post_id : Nat
  created : Change
  updated : Option Change
  ipfs_hash : List Nat
  upvotes_count : Nat
  downvotes_count : Nat
  shares_count : Nat
  direct_replies_count : Nat
  edit_history : List CommentHistoryRecord
  score : Int
deriving DecidableEq, Repr

/-- Reaction kind: `enum ReactionKind`. -/
inductive ReactionKind where
  | Upvote : ReactionKind
  | Downvote : ReactionKind
deriving DecidableEq, Repr

/-- The reaction entity: `struct Reaction<T>`. -/
structure Reaction where
  id : Nat
  created : Change
  updated : Option Change
  kind : ReactionKind
deriving DecidableEq, Repr

/-- Partial-update payload for a profile: `struct ProfileUpdate`. -/
structure ProfileUpdate where
  username : Option (List Nat)
  ipfs_hash : Option (List Nat)
deriving DecidableEq, Repr

/-- Edit-history entry for a profile: `struct ProfileHistoryRecord<T>`. -/
structure ProfileHistoryRecord where
  edited : Change
  old_data : ProfileUpdate
deriving DecidableEq, Repr

/-- The profile record: `struct Profile<T>`. -/
structure Profile where
  created : Change
  updated : Option Change
  username : List Nat
  ipfs_hash : List Nat
  edit_history : List ProfileHistoryRecord
deriving DecidableEq, Repr

/-- The per-account social record: `struct SocialAccount<T>`. -/
structure SocialAccount where
  followers_count : Nat
  following_accounts_count : Nat
  following_blogs_count : Nat
  reputation : Nat
  profile : Option Profile
deriving DecidableEq, Repr

/-- The nine weighted scoring actions: `enum ScoringAction`. -/
inductive ScoringAction where
  | UpvotePost : ScoringAction
  | DownvotePost : ScoringAction
  | SharePost : ScoringAction
  | CreateComment : ScoringAction
  | UpvoteComment : ScoringAction
  | DownvoteComment : ScoringAction
  | ShareComment : ScoringAction
  | FollowBlog : ScoringAction
  | FollowAccount : ScoringAction
deriving DecidableEq, Repr

/-- Events emitted by the module: `decl_event!`. -/
inductive Event where
  | BlogCreated : Nat → Nat → Event
  | BlogUpdated : Nat → Nat → Event
  | BlogDeleted : Nat → Nat → Event
  | BlogFollowed : Nat → Nat → Event
  | BlogUnfollowed : Nat → Nat → Event
  | AccountReputationChanged : Nat → ScoringAction → Nat → Event
  | AccountFollowed : Nat → Nat → Event
  | AccountUnfollowed : Nat → Nat → Event
  | PostCreated : Nat → Nat → Event
  | PostUpdated : Nat → Nat → Event
  | PostDeleted : Nat → Nat → Event
  | PostShared : Nat → Nat → Event
  | CommentCreated : Nat → Nat → Event
  | CommentUpdated : Nat → Nat → Event
  | CommentDeleted : Nat → Nat → Event
  | CommentShared : Nat → Nat → Event
  | PostReactionCreated : Nat → Nat → Nat → Event
  | PostReactionUpdated : Nat → Nat → Nat → Event
  | PostReactionDeleted : Nat → Nat → Nat → Event
  | CommentReactionCreated : Nat → Nat → Nat → Event
  | CommentReactionUpdated : Nat → Nat → Nat → Event
  | CommentReactionDeleted : Nat → Nat → Nat → Event
  | ProfileCreated : Nat → Event
  | ProfileUpdated : Nat → Event
deriving DecidableEq, Repr

/-- The whole storage of the module (`decl_storage!`), plus the external
clock (`curBlock`, `curTime`) and the emitted event log. -/
structure St where
  slugMinLen : Nat
  slugMaxLen : Nat
  ipfsHashLen : Nat
  usernameMinLen : Nat
  usernameMaxLen : Nat
  blogMaxLen : Nat
  postMaxLen : Nat
  commentMaxLen : Nat
  upvotePostActionWeight : Int
  downvotePostActionWeight : Int
  sharePostActionWeight : Int
  createCommentActionWeight : Int
  upvoteCommentActionWeight : Int
  downvoteCommentActionWeight : Int
  shareCommentActionWeight : Int
  followBlogActionWeight : Int
  followAccountActionWeight : Int
  blogById : Nat → Option Blog
  postById : Nat → Option Post
  commentById : Nat → Option Comment
  reactionById : Nat → Option Reaction
  socialAccountById : Nat → Option SocialAccount
  blogIdsByOwner : Nat → List Nat
  postIdsByBlogId : Nat → List Nat
  commentIdsByPostId : Nat → List Nat
  reactionIdsByPostId : Nat → List Nat
  reactionIdsByCommentId : Nat → List Nat
  postReactionIdByAccount : Nat × Nat → Option Nat
  commentReactionIdByAccount : Nat × Nat → Option Nat
  blogIdBySlug : List Nat → Option Nat
  blogsFollowedByAccount : Nat → List Nat
  blogFollowers : Nat → List Nat
  blogFollowedByAccount : Nat × Nat → Option Bool
  accountFollowedByAccount : Nat × Nat → Option Bool
  accountsFollowedByAccount : Nat → List Nat
  accountFollowers : Nat → List Nat
  nextBlogId : Nat
  nextPostId : Nat
  nextCommentId : Nat
  nextReactionId : Nat
  accountReputationDiffByAccount : Nat × Nat × ScoringAction → Option Int
  postScoreByAccount : Nat × Nat × ScoringAction → Option Int
  commentScoreByAccount : Nat × Nat × ScoringAction → Option Int
  postSharesByAccount : Nat × Nat → Option Nat
  sharedPostIdsByOriginalPostId : Nat → List Nat
  commentSharesByAccount : Nat × Nat → Option Nat
  sharedPostIdsByOriginalCommentId : Nat → List Nat
  accountByProfileUsername : List Nat → Option Nat
  events : List Event
  curBlock : Nat
  curTime : Nat

/-- Insert a key/value pair into a function-typed map. -/
def mapInsert [DecidableEq κ] (m : κ → Option υ) (k : κ) (v : υ) : κ → Option υ :=
  fun x => if x = k then some v else m x

/-- Remove a key from a function-typed map. -/
def mapRemove [DecidableEq κ] (m : κ → Option υ) (k : κ) : κ → Option υ :=
  fun x => if x = k then none else m x

/-- Mutate the (default `[]`) list stored under a key, as `::mutate` does. -/
def mapMutate [DecidableEq κ] (m : κ → List υ) (k : κ) (f : List υ → List υ) : κ → List υ :=
  fun x => if x = k then f (m x) else m x

/-- The genesis state: default config, empty maps, all id counters at 1. -/
def initSt : St where
  slugMinLen := DEFAULT_SLUG_MIN_LEN
  slugMaxLen := DEFAULT_SLUG_MAX_LEN
  ipfsHashLen := DEFAULT_IPFS_HASH_LEN
  usernameMinLen := DEFAULT_USERNAME_MIN_LEN
  usernameMaxLen := DEFAULT_USERNAME_MAX_LEN
  blogMaxLen := DEFAULT_BLOG_MAX_LEN
  postMaxLen := DEFAULT_POST_MAX_LEN
  commentMaxLen := DEFAULT_COMMENT_MAX_LEN
  upvotePostActionWeight := DEFAULT_UPVOTE_POST_ACTION_WEIGHT
  downvotePostActionWeight := DEFAULT_DOWNVOTE_POST_ACTION_WEIGHT
  sharePostActionWeight := DEFAULT_SHARE_POST_ACTION_WEIGHT
  createCommentActionWeight := DEFAULT_CREATE_COMMENT_ACTION_WEIGHT
  upvoteCommentActionWeight := DEFAULT_UPVOTE_COMMENT_ACTION_WEIGHT
  downvoteCommentActionWeight := DEFAULT_DOWNVOTE_COMMENT_ACTION_WEIGHT
  shareCommentActionWeight := DEFAULT_SHARE_COMMENT_ACTION_WEIGHT
  followBlogActionWeight := DEFAULT_FOLLOW_BLOG_ACTION_WEIGHT
  followAccountActionWeight := DEFAULT_FOLLOW_ACCOUNT_ACTION_WEIGHT
  blogById := fun _ => none
  postById := fun _ => none
  commentById := fun _ => none
  reactionById := fun _ => none
  socialAccountById := fun _ => none
  blogIdsByOwner := fun _ => []
  postIdsByBlogId := fun _ => []
  commentIdsByPostId := fun _ => []
  reactionIdsByPostId := fun _ => []
  reactionIdsByCommentId := fun _ => []
  postReactionIdByAccount := fun _ => none
  commentReactionIdByAccount := fun _ => none
  blogIdBySlug := fun _ => none
  blogsFollowedByAccount := fun _ => []
  blogFollowers := fun _ => []
  blogFollowedByAccount := fun _ => none
  accountFollowedByAccount := fun _ => none
  accountsFollowedByAccount := fun _ => []
  accountFollowers := fun _ => []
  nextBlogId := 1
  nextPostId := 1
  nextCommentId := 1
  nextReactionId := 1
  accountReputationDiffByAccount := fun _ => none
  postScoreByAccount := fun _ => none
  commentScoreByAccount := fun _ => none
  postSharesByAccount := fun _ => none
  sharedPostIdsByOriginalPostId := fun _ => []
  commentSharesByAccount := fun _ => none
  sharedPostIdsByOriginalCommentId := fun _ => []
  accountByProfileUsername := fun _ => none
  events := []
  curBlock := 0
  curTime := 0

/-- Decidable equality for operation results. -/
instance exceptDecEq [DecidableEq ε] [DecidableEq α] : DecidableEq (Except ε α) := fun a b =>
  match a, b with
  | Except.ok x, Except.ok y =>
      if h : x = y then isTrue (by rw [h]) else isFalse (by intro hc; cases hc; exact h rfl)
  | Except.error x, Except.error y =>
      if h : x = y then isTrue (by rw [h]) else isFalse (by intro hc; cases hc; exact h rfl)
  | Except.ok _, Except.error _ => isFalse (by intro hc; cases hc)
  | Except.error _, Except.ok _ => isFalse (by intro hc; cases hc)

/-- The operation monad: state passing with string errors.  An error return
keeps all state mutations made before the failure (no rollback). -/
def M (α : Type) : Type := St → Except String α × St

/-- Monadic return. -/
def M.pure (a : α) : M α := fun s => (Except.ok a, s)

/-- Monadic bind; an error short-circuits but keeps the threaded state. -/
def M.bind (x : M α) (f : α → M β) : M β := fun s =>
  match x s with
  | (Except.ok a, s') => f a s'
  | (Except.error e, s') => (Except.error e, s')

instance : Monad M where
  pure := M.pure
  bind := M.bind

/-- Abort the current operation with an error message. -/
def throwErr (msg : String) : M α := fun s => (Except.error msg, s)

/-- Read the whole state. -/
def getSt : M St := fun s => (Except.ok s, s)

/-- Replace the whole state. -/
def modifySt (f : St → St) : M Unit := fun s => (Except.ok (), f s)

/-- `ensure!(cond, msg)` from `srml_support`. -/
def ensureE (p : Prop) [Decidable p] (msg : String) : M Unit :=
  if p then M.pure () else throwErr msg

/-- `option.ok_or(msg)?`. -/
def okOr (o : Option α) (msg : String) : M α :=
  match o with
  | some a => M.pure a
  | none => throwErr msg

/-- `deposit_event`. -/
def depositEvent (e : Event) : M Unit :=
  modifySt fun s => { s with events := s.events ++ [e] }

/-- `u16::checked_add`. -/
def checkedAddU16 (x y : Nat) : Option Nat :=
  if x + y < 65536 then some (x + y) else none

/-- `u16::checked_sub`. -/
def checkedSubU16 (x y : Nat) : Option Nat :=
  if y ≤ x then some (x - y) else none

/-- `u32::checked_add`. -/
def checkedAddU32 (x y : Nat) : Option Nat :=
  if x + y < 4294967296 then some (x + y) else none

/-- `u32::checked_sub`. -/
def checkedSubU32 (x y : Nat) : Option Nat :=
  if y ≤ x then some (x - y) else none

/-- `i32::checked_add` (both arguments already in `i32` range). -/
def checkedAddI32 (x y : Int) : Option Int :=
  if -2147483648 ≤ x + y ∧ x + y < 2147483648 then some (x + y) else none

/-- Wrapping (release-mode) `u16` addition, for the source's unchecked `+= 1`. -/
def wrapAddU16 (x y : Nat) : Nat := (x + y) % 65536

/-- Wrapping (release-mode) `u16` subtraction, for the source's unchecked `-= 1`. -/
def wrapSubU16 (x y : Nat) : Nat := (x + 65536 - y % 65536) % 65536

/-- Reinterpret a `u32` value as `i16` by truncation (`as i16`). -/
def u32AsI16 (x : Nat) : Int :=
  let low := x % 65536
  if low < 32768 then (low : Int) else (low : Int) - 65536

/-- Wrap an integer into `i16` range (release-mode `i16` arithmetic). -/
def wrapI16 (x : Int) : Int := (x + 32768) % 65536 - 32768

/-- `Vec::swap_remove(i)`: move the last element to index `i` and pop. -/
def swapRemove (v : List α) (i : Nat) : List α :=
  match v.getLast? with
  | none => v
  | some last => (v.set i last).dropLast

/-- `fn vec_remove_on`: find the element and `swap_remove` it. -/
def vecRemoveOn [DecidableEq α] (v : List α) (x : α) : List α :=
  match v.findIdx? (fun e => e = x) with
  | some i => swapRemove v i
  | none => v

/-- Binary length (number of significant bits) by fuelled halving; with
`fuel` at least the bit width this equals `Nat.size`. -/
def bitLength : Nat → Nat → Nat
  | 0, _ => 0
  | fuel + 1, n => if n = 0 then 0 else bitLength fuel (n / 2) + 1

/-- `u32::leading_zeros` for a value below `2^32`. -/
def leading_zeros (x : Nat) : Nat := 32 - bitLength 32 x

/-- `fn log_2(x: u32)`: `num_bits::<u32>() - x.leading_zeros() - 1`. -/
def log_2 (x : Nat) : Nat := 32 - leading_zeros x - 1

/-- `fn weight_of_scoring_action`. -/
def weight_of_scoring_action (s : St) (action : ScoringAction) : Int :=
  match action with
  | ScoringAction.UpvotePost => s.upvotePostActionWeight
  | ScoringAction.DownvotePost => s.downvotePostActionWeight
  | ScoringAction.SharePost => s.sharePostActionWeight
  | ScoringAction.CreateComment => s.createCommentActionWeight
  | ScoringAction.UpvoteComment => s.upvoteCommentActionWeight
  | ScoringAction.DownvoteComment => s.downvoteCommentActionWeight
  | ScoringAction.ShareComment => s.shareCommentActionWeight
  | ScoringAction.FollowBlog => s.followBlogActionWeight
  | ScoringAction.FollowAccount => s.followAccountActionWeight

/-- `fn get_score_diff(reputation, action)`, with `u32` multiplication
wrapping and the final `as i16` truncation made explicit. -/
def get_score_diff (s : St) (reputation : Nat) (action : ScoringAction) : Int :=
  let r := log_2 reputation
  let d := (reputation - 2 ^ r) * 100 % 4294967296 / 2 ^ r
  let score_diff := ((r + 1) * 100 + d) / 100
  wrapI16 (u32AsI16 score_diff * weight_of_scoring_action s action)

/-- `fn get_or_new_social_account`. -/
def get_or_new_social_account (s : St) (account : Nat) : SocialAccount :=
  match s.socialAccountById account with
  | some social_account => social_account
  | none =>
      { followers_count := 0
        following_accounts_count := 0
        following_blogs_count := 0
        reputation := 1
        profile := none }

/-- `i32::checked_sub` (both arguments already in range). -/
def checkedSubI32 (x y : Int) : Option Int :=
  if -2147483648 ≤ x - y ∧ x - y < 2147483648 then some (x - y) else none

/-- `BlogById::insert`. -/
def St.putBlog (s : St) (id : Nat) (b : Blog) : St :=
  { s with blogById := mapInsert s.blogById id b }

/-- `PostById::insert`. -/
def St.putPost (s : St) (id : Nat) (p : Post) : St :=
  { s with postById := mapInsert s.postById id p }

/-- `CommentById::insert`. -/
def St.putComment (s : St) (id : Nat) (c : Comment) : St :=
  { s with commentById := mapInsert s.commentById id c }

/-- `ReactionById::insert`. -/
def St.putReaction (s : St) (id : Nat) (r : Reaction) : St :=
  { s with reactionById := mapInsert s.reactionById id r }

/-- `ReactionById::remove`. -/
def St.rmReaction (s : St) (id : Nat) : St :=
  { s with reactionById := mapRemove s.reactionById id }

/-- `SocialAccountById::insert`. -/
def St.putSocialAccount (s : St) (id : Nat) (sa : SocialAccount) : St :=
  { s with socialAccountById := mapInsert s.socialAccountById id sa }

/-- `BlogIdBySlug::insert`. -/
def St.insBlogIdBySlug (s : St) (slug : List Nat) (id : Nat) : St :=
  { s with blogIdBySlug := mapInsert s.blogIdBySlug slug id }

/-- `BlogIdBySlug::remove`. -/
def St.rmBlogIdBySlug (s : St) (slug : List Nat) : St :=
  { s with blogIdBySlug := mapRemove s.blogIdBySlug slug }

/-- `AccountByProfileUsername::insert`. -/
def St.insAccountByUsername (s : St) (u : List Nat) (a : Nat) : St :=
  { s with accountByProfileUsername := mapInsert s.accountByProfileUsername u a }

/-- `AccountByProfileUsername::remove`. -/
def St.rmAccountByUsername (s : St) (u : List Nat) : St :=
  { s with accountByProfileUsername := mapRemove s.accountByProfileUsername u }

/-- `PostReactionIdByAccount::insert`. -/
def St.insPostReactionId (s : St) (k : Nat × Nat) (v : Nat) : St :=
  { s with postReactionIdByAccount := mapInsert s.postReactionIdByAccount k v }

/-- `PostReactionIdByAccount::remove`. -/
def St.rmPostReactionId (s : St) (k : Nat × Nat) : St :=
  { s with postReactionIdByAccount := mapRemove s.postReactionIdByAccount k }

/-- `CommentReactionIdByAccount::insert`. -/
def St.insCommentReactionId (s : St) (k : Nat × Nat) (v : Nat) : St :=
  { s with commentReactionIdByAccount := mapInsert s.commentReactionIdByAccount k v }

/-- `CommentReactionIdByAccount::remove`. -/
def St.rmCommentReactionId (s : St) (k : Nat × Nat) : St :=
  { s with commentReactionIdByAccount := mapRemove s.commentReactionIdByAccount k }

/-- `BlogFollowedByAccount::insert`. -/
def St.insBlogFollowed (s : St) (k : Nat × Nat) (v : Bool) : St :=
  { s with blogFollowedByAccount := mapInsert s.blogFollowedByAccount k v }

/-- `BlogFollowedByAccount::remove`. -/
def St.rmBlogFollowed (s : St) (k : Nat × Nat) : St :=
  { s with blogFollowedByAccount := mapRemove s.blogFollowedByAccount k }

/-- `AccountFollowedByAccount::insert`. -/
def St.insAccountFollowed (s : St) (k : Nat × Nat) (v : Bool) : St :=
  { s with accountFollowedByAccount := mapInsert s.accountFollowedByAccount k v }

/-- `AccountFollowedByAccount::remove`. -/
def St.rmAccountFollowed (s : St) (k : Nat × Nat) : St :=
  { s with accountFollowedByAccount := mapRemove s.accountFollowedByAccount k }

/-- `AccountReputationDiffByAccount::insert`. -/
def St.insRepDiff (s : St) (k : Nat × Nat × ScoringAction) (v : Int) : St :=
  { s with accountReputationDiffByAccount := mapInsert s.accountReputationDiffByAccount k v }

/-- `AccountReputationDiffByAccount::remove`. -/
def St.rmRepDiff (s : St) (k : Nat × Nat × ScoringAction) : St :=
  { s with accountReputationDiffByAccount := mapRemove s.accountReputationDiffByAccount k }

/-- `PostScoreByAccount::insert`. -/
def St.insPostScore (s : St) (k : Nat × Nat × ScoringAction) (v : Int) : St :=
  { s with postScoreByAccount := mapInsert s.postScoreByAccount k v }

/-- `PostScoreByAccount::remove`. -/
def St.rmPostScore (s : St) (k : Nat × Nat × ScoringAction) : St :=
  { s with postScoreByAccount := mapRemove s.postScoreByAccount k }

/-- `CommentScoreByAccount::insert`. -/
def St.insCommentScore (s : St) (k : Nat × Nat × ScoringAction) (v : Int) : St :=
  { s with commentScoreByAccount := mapInsert s.commentScoreByAccount k v }

/-- `CommentScoreByAccount::remove`. -/
def St.rmCommentScore (s : St) (k : Nat × Nat × ScoringAction) : St :=
  { s with commentScoreByAccount := mapRemove s.commentScoreByAccount k }

/-- `PostSharesByAccount::insert`. -/
def St.insPostShares (s : St) (k : Nat × Nat) (v : Nat) : St :=
  { s with postSharesByAccount := mapInsert s.postSharesByAccount k v }

/-- `CommentSharesByAccount::insert`. -/
def St.insCommentShares (s : St) (k : Nat × Nat) (v : Nat) : St :=
  { s with commentSharesByAccount := mapInsert s.commentSharesByAccount k v }

/-- `fn new_change(account)`: stamp with the current block and time. -/
def new_change (account : Nat) : M Change := do
  let s ← getSt
  pure { account, block := s.curBlock, time := s.curTime }

/-- `fn new_reaction`: persist a fresh reaction and bump `NextReactionId`.
Note that this writes storage before its caller performs later checks. -/
def new_reaction (account : Nat) (kind : ReactionKind) : M Nat := do
  let s ← getSt
  let reaction_id := s.nextReactionId
  let created ← new_change account
  let r : Reaction := { id := reaction_id, created, updated := none, kind }
  modifySt fun s => { s.putReaction reaction_id r with nextReactionId := s.nextReactionId + 1 }
  pure reaction_id

/-- `fn ensure_blog_exists`. -/
def ensure_blog_exists (blog_id : Nat) : M Unit := do
  let s ← getSt
  ensureE ((s.blogById blog_id).isSome = true) MSG_BLOG_NOT_FOUND

/-- A byte is ASCII alphanumeric (`u8::is_ascii_alphanumeric`). -/
def is_ascii_alphanumeric (b : Nat) : Bool :=
  (decide (48 ≤ b) && decide (b ≤ 57)) ||
  (decide (65 ≤ b) && decide (b ≤ 90)) ||
  (decide (97 ≤ b) && decide (b ≤ 122))

/-- `fn is_username_valid`. -/
def is_username_valid (username : List Nat) : M Unit := do
  let s ← getSt
  ensureE ((s.accountByProfileUsername username).isNone = true) MSG_USERNAME_IS_BUSY
  ensureE (s.usernameMinLen ≤ username.length) MSG_USERNAME_TOO_SHORT
  ensureE (username.length ≤ s.usernameMaxLen) MSG_USERNAME_TOO_LONG
  ensureE (username.all is_ascii_alphanumeric = true) MSG_USERNAME_NOT_ALPHANUMERIC

/-- `fn is_ipfs_hash_valid`. -/
def is_ipfs_hash_valid (ipfs_hash : List Nat) : M Unit := do
  let s ← getSt
  ensureE (ipfs_hash.length = s.ipfsHashLen) MSG_IPFS_IS_INCORRECT

/-- `fn change_social_account_reputation(account, scorer, score_diff, action)`:
clamp at the floor 1, apply the (possibly zeroed) diff checked, toggle the
reputation-diff ledger entry, store, emit event. -/
def change_social_account_reputation (account scorer : Nat) (score_diff₀ : Int)
    (action : ScoringAction) : M Unit := do
  let s ← getSt
  let social_account := get_or_new_social_account s account
  let (social_account, score_diff) :=
    if (social_account.reputation : Int) + score_diff₀ ≤ 1 then
      ({ social_account with reputation := 1 }, (0 : Int))
    else (social_account, score_diff₀)
  let newRep ←
    if score_diff < 0 then
      okOr (checkedSubU32 social_account.reputation (score_diff * -1).toNat)
        MSG_OUT_OF_BOUNDS_UPDATING_ACCOUNT_REPUTATION
    else
      okOr (checkedAddU32 social_account.reputation score_diff.toNat)
        MSG_OUT_OF_BOUNDS_UPDATING_ACCOUNT_REPUTATION
  let social_account := { social_account with reputation := newRep }
  if (s.accountReputationDiffByAccount (scorer, account, action)).isSome then
    modifySt fun s => s.rmRepDiff (scorer, account, action)
  else
    modifySt fun s => s.insRepDiff (scorer, account, action) score_diff
  modifySt fun s => s.putSocialAccount account social_account
  depositEvent (Event.AccountReputationChanged account action social_account.reputation)

/-- `fn change_post_score(account, post, action)`.  The source recurses once
to auto-cancel the opposite vote; the `fuel` argument is the standard
termination device for that recursion (callers pass 2, which always
suffices because the recursive call takes the non-recursive reversal
branch). -/
def change_post_score : Nat → Nat → Post → ScoringAction → M Post
  | 0, _, _, _ => throwErr "change_post_score: recursion fuel exhausted"
  | fuel + 1, account, post₀, action => do
    let s ← getSt
    let social_account := get_or_new_social_account s account
    let post_id := post₀.id
    let blog ← okOr (s.blogById post₀.blog_id) MSG_BLOG_NOT_FOUND
    if post₀.created.account ≠ account then do
      let pb ←
        match s.postScoreByAccount (account, post_id, action) with
        | some score_diff => do
            let reputation_diff ← okOr
              (s.accountReputationDiffByAccount (account, post₀.created.account, action))
              MSG_REPUTATION_DIFF_NOT_FOUND
            let newPostScore ← okOr (checkedAddI32 post₀.score (score_diff * -1))
              MSG_OUT_OF_BOUNDS_REVERTING_POST_SCORE
            let post := { post₀ with score := newPostScore }
            let newBlogScore ← okOr (checkedAddI32 blog.score (score_diff * -1))
              MSG_OUT_OF_BOUNDS_REVERTING_BLOG_SCORE
            let blog := { blog with score := newBlogScore }
            change_social_account_reputation post.created.account account
              (reputation_diff * -1) action
            modifySt fun s => s.rmPostScore (account, post_id, action)
            pure (post, blog)
        | none => do
            let post ←
              match action with
              | ScoringAction.UpvotePost =>
                  if (s.postScoreByAccount (account, post_id, ScoringAction.DownvotePost)).isSome then
                    change_post_score fuel account post₀ ScoringAction.DownvotePost
                  else pure post₀
              | ScoringAction.DownvotePost =>
                  if (s.postScoreByAccount (account, post_id, ScoringAction.UpvotePost)).isSome then
                    change_post_score fuel account post₀ ScoringAction.UpvotePost
                  else pure post₀
              | _ => pure post₀
            let score_diff := get_score_diff s social_account.reputation action
            let newPostScore ← okOr (checkedAddI32 post.score score_diff)
              MSG_OUT_OF_BOUNDS_UPDATING_POST_SCORE
            let post := { post with score := newPostScore }
            let newBlogScore ← okOr (checkedAddI32 blog.score score_diff)
              MSG_OUT_OF_BOUNDS_UPDATING_BLOG_SCORE
            let blog := { blog with score := newBlogScore }
            change_social_account_reputation post.created.account account score_diff action
            modifySt fun s => s.insPostScore (account, post_id, action) score_diff
            pure (post, blog)
      modifySt fun s => (s.putPost post_id pb.1).putBlog pb.1.blog_id pb.2
      pure pb.1
    else
      pure post₀

/-- `fn change_comment_score(account, comment, action)`, with the same
`fuel` device for the opposite-vote auto-cancel recursion. -/
def change_comment_score : Nat → Nat → Comment → ScoringAction → M Comment
  | 0, _, _, _ => throwErr "change_comment_score: recursion fuel exhausted"
  | fuel + 1, account, comment₀, action => do
    let s ← getSt
    let social_account := get_or_new_social_account s account
    let comment_id := comment₀.id
    if comment₀.created.account ≠ account then do
      let comment ←
        match s.commentScoreByAccount (account, comment_id, action) with
        | some score_diff => do
            let reputation_diff ← okOr
              (s.accountReputationDiffByAccount (account, comment₀.created.account, action))
              MSG_REPUTATION_DIFF_NOT_FOUND
            let newScore ← okOr (checkedAddI32 comment₀.score (score_diff * -1))
              MSG_OUT_OF_BOUNDS_REVERTING_COMMENT_SCORE
            let comment := { comment₀ with score := newScore }
            change_social_account_reputation comment.created.account account
              (reputation_diff * -1) action
            modifySt fun s => s.rmCommentScore (account, comment_id, action)
            pure comment
        | none => do
            let comment ←
              match action with
              | ScoringAction.UpvoteComment =>
                  if (s.commentScoreByAccount (account, comment_id, ScoringAction.DownvoteComment)).isSome then
                    change_comment_score fuel account comment₀ ScoringAction.DownvoteComment
                  else pure comment₀
              | ScoringAction.DownvoteComment =>
                  if (s.commentScoreByAccount (account, comment_id, ScoringAction.UpvoteComment)).isSome then
                    change_comment_score fuel account comment₀ ScoringAction.UpvoteComment
                  else pure comment₀
              | ScoringAction.CreateComment => do
                  let s' ← getSt
                  let post ← okOr (s'.postById comment₀.post_id) MSG_POST_NOT_FOUND
                  let _ ← change_post_score fuel account post ScoringAction.CreateComment
                  pure comment₀
              | _ => pure comment₀
            let score_diff := get_score_diff s social_account.reputation action
            let newScore ← okOr (checkedAddI32 comment.score score_diff)
              MSG_OUT_OF_BOUNDS_UPDATING_COMMENT_SCORE
            let comment := { comment with score := newScore }
            change_social_account_reputation comment.created.account account score_diff action
            modifySt fun s => s.insCommentScore (account, comment_id, action) score_diff
            pure comment
      modifySt fun s => s.putComment comment_id comment
      pure comment
    else
      pure comment₀

/-- `fn add_blog_follower_and_insert_blog(follower, blog, is_new_blog)`. -/
def add_blog_follower_and_insert_blog (follower : Nat) (blog₀ : Blog)
    (is_new_blog : Bool) : M Unit := do
  let s ← getSt
  let blog_id := blog₀.id
  let social_account := get_or_new_social_account s follower
  let newFB ← okOr (checkedAddU16 social_account.following_blogs_count 1)
    MSG_OVERFLOW_FOLLOWING_BLOG
  let social_account := { social_account with following_blogs_count := newFB }
  let newFC ← okOr (checkedAddU32 blog₀.followers_count 1) MSG_OVERFLOW_FOLLOWING_BLOG
  let blog := { blog₀ with followers_count := newFC }
  let blog ←
    if blog.created.account ≠ follower then do
      let author := blog.created.account
      let score_diff := get_score_diff s social_account.reputation ScoringAction.FollowBlog
      let newScore ← okOr (checkedAddI32 blog.score score_diff)
        MSG_OUT_OF_BOUNDS_UPDATING_BLOG_SCORE
      let blog := { blog with score := newScore }
      change_social_account_reputation author follower score_diff ScoringAction.FollowBlog
      pure blog
    else pure blog
  modifySt fun s => s.putBlog blog_id blog
  modifySt fun s => s.putSocialAccount follower social_account
  modifySt fun s =>
    { s with blogsFollowedByAccount :=
        mapMutate s.blogsFollowedByAccount follower (fun ids => ids ++ [blog_id]) }
  modifySt fun s =>
    { s with blogFollowers := mapMutate s.blogFollowers blog_id (fun ids => ids ++ [follower]) }
  modifySt fun s => s.insBlogFollowed (follower, blog_id) true
  if is_new_blog then
    depositEvent (Event.BlogCreated follower blog_id)
  else pure ()
  depositEvent (Event.BlogFollowed follower blog_id)

/-- `fn share_post(account, original_post_id, shared_post_id)`. -/
def share_post (account original_post_id shared_post_id : Nat) : M Unit := do
  let s ← getSt
  let original_post ← okOr (s.postById original_post_id) MSG_ORIGINAL_POST_NOT_FOUND
  let newSC ← okOr (checkedAddU16 original_post.shares_count 1)
    MSG_OVERFLOW_TOTAL_SHARES_SHARING_POST
  let original_post := { original_post with shares_count := newSC }
  let shares_by_account ← okOr
    (checkedAddU16 ((s.postSharesByAccount (account, original_post_id)).getD 0) 1)
    MSG_OVERFLOW_POST_SHARES_BY_ACCOUNT
  let original_post ←
    if shares_by_account = 1 then
      change_post_score 2 account original_post ScoringAction.SharePost
    else pure original_post
  modifySt fun s => s.putPost original_post_id original_post
  modifySt fun s => s.insPostShares (account, original_post_id) shares_by_account
  modifySt fun s =>
    { s with sharedPostIdsByOriginalPostId :=
        mapMutate s.sharedPostIdsByOriginalPostId original_post_id (fun ids => ids ++ [shared_post_id]) }
  depositEvent (Event.PostShared account original_post_id)

/-- `fn share_comment(account, original_comment_id, shared_post_id)`.  Note
the source does not re-insert the comment itself here. -/
def share_comment (account original_comment_id shared_post_id : Nat) : M Unit := do
  let s ← getSt
  let original_comment ← okOr (s.commentById original_comment_id) MSG_ORIGINAL_COMMENT_NOT_FOUND
  let newSC ← okOr (checkedAddU16 original_comment.shares_count 1)
    MSG_OVERFLOW_TOTAL_SHARES_SHARING_COMMENT
  let original_comment := { original_comment with shares_count := newSC }
  let shares_count ← okOr
    (checkedAddU16 ((s.commentSharesByAccount (account, original_comment_id)).getD 0) 1)
    MSG_OVERFLOW_COMMENT_SHARES_BY_ACCOUNT
  let _ ←
    if shares_count = 1 then
      change_comment_score 2 account original_comment ScoringAction.ShareComment
    else pure original_comment
  modifySt fun s => s.insCommentShares (account, original_comment_id) shares_count
  modifySt fun s =>
    { s with sharedPostIdsByOriginalCommentId :=
        mapMutate s.sharedPostIdsByOriginalCommentId original_comment_id (fun ids => ids ++ [shared_post_id]) }
  depositEvent (Event.CommentShared account original_comment_id)

/-- `pub fn create_blog(origin, slug, ipfs_hash)`. -/
def create_blog (owner : Nat) (slug ipfs_hash : List Nat) : M Unit := do
  let s ← getSt
  ensureE (s.slugMinLen ≤ slug.length) MSG_BLOG_SLUG_IS_TOO_SHORT
  ensureE (slug.length ≤ s.slugMaxLen) MSG_BLOG_SLUG_IS_TOO_LONG
  ensureE ((s.blogIdBySlug slug).isNone = true) MSG_BLOG_SLUG_IS_NOT_UNIQUE
  is_ipfs_hash_valid ipfs_hash
  let blog_id := s.nextBlogId
  let created ← new_change owner
  let new_blog : Blog :=
    { id := blog_id, created, updated := none, writers := [], slug, ipfs_hash
      posts_count := 0, followers_count := 0, edit_history := [], score := 0 }
  add_blog_follower_and_insert_blog owner new_blog true
  modifySt fun s =>
    { s with blogIdsByOwner := mapMutate s.blogIdsByOwner owner (fun ids => ids ++ [blog_id]) }
  modifySt fun s => s.insBlogIdBySlug slug blog_id
  modifySt fun s => { s with nextBlogId := s.nextBlogId + 1 }

/-- `pub fn follow_blog(origin, blog_id)`. -/
def follow_blog (follower blog_id : Nat) : M Unit := do
  let s ← getSt
  let blog ← okOr (s.blogById blog_id) MSG_BLOG_NOT_FOUND
  ensureE (¬ (s.blogFollowedByAccount (follower, blog_id)).getD false = true)
    MSG_ACCOUNT_IS_FOLLOWING_BLOG
  add_blog_follower_and_insert_blog follower blog false

/-- `pub fn unfollow_blog(origin, blog_id)`.  When the reputation-diff ledger
has no entry for (follower, author, FollowBlog) the score reversal is
silently skipped (`if let Some`). -/
def unfollow_blog (follower blog_id : Nat) : M Unit := do
  let s ← getSt
  let blog ← okOr (s.blogById blog_id) MSG_BLOG_NOT_FOUND
  ensureE ((s.blogFollowedByAccount (follower, blog_id)).getD false = true)
    MSG_ACCOUNT_IS_NOT_FOLLOWING_BLOG
  let social_account ← okOr (s.socialAccountById follower) MSG_SOCIAL_ACCOUNT_NOT_FOUND
  let newFB ← okOr (checkedSubU16 social_account.following_blogs_count 1)
    MSG_UNDERFLOW_UNFOLLOWING_BLOG
  let social_account := { social_account with following_blogs_count := newFB }
  let newFC ← okOr (checkedSubU32 blog.followers_count 1) MSG_UNDERFLOW_UNFOLLOWING_BLOG
  let blog := { blog with followers_count := newFC }
  let blog ←
    if blog.created.account ≠ follower then do
      let author := blog.created.account
      match s.accountReputationDiffByAccount (follower, author, ScoringAction.FollowBlog) with
      | some score_diff => do
          let newScore ← okOr (checkedSubI32 blog.score score_diff)
            MSG_OUT_OF_BOUNDS_UPDATING_BLOG_SCORE
          let blog := { blog with score := newScore }
          change_social_account_reputation author follower (score_diff * -1)
            ScoringAction.FollowBlog
          pure blog
      | none => pure blog
    else pure blog
  modifySt fun s =>
    { s with blogsFollowedByAccount :=
        mapMutate s.blogsFollowedByAccount follower (fun ids => vecRemoveOn ids blog_id) }
  modifySt fun s =>
    { s with blogFollowers := mapMutate s.blogFollowers blog_id (fun ids => vecRemoveOn ids follower) }
  modifySt fun s => s.rmBlogFollowed (follower, blog_id)
  modifySt fun s => s.putSocialAccount follower social_account
  modifySt fun s => s.putBlog blog_id blog
  depositEvent (Event.BlogUnfollowed follower blog_id)

/-- `pub fn follow_account(origin, account)`. -/
def follow_account (follower account : Nat) : M Unit := do
  let s ← getSt
  ensureE (follower ≠ account) MSG_ACCOUNT_CANNOT_FOLLOW_ITSELF
  ensureE ((s.accountFollowedByAccount (follower, account)).isNone = true)
    MSG_ACCOUNT_IS_ALREADY_FOLLOWED
  let follower_account := get_or_new_social_account s follower
  let followed_account := get_or_new_social_account s account
  let newFA ← okOr (checkedAddU16 follower_account.following_accounts_count 1)
    MSG_OVERFLOW_FOLLOWING_ACCOUNT
  let follower_account := { follower_account with following_accounts_count := newFA }
  let newF ← okOr (checkedAddU32 followed_account.followers_count 1)
    MSG_OVERFLOW_FOLLOWING_ACCOUNT
  let followed_account := { followed_account with followers_count := newF }
  change_social_account_reputation account follower
    (get_score_diff s follower_account.reputation ScoringAction.FollowAccount)
    ScoringAction.FollowAccount
  modifySt fun s => s.putSocialAccount follower follower_account
  modifySt fun s => s.putSocialAccount account followed_account
  modifySt fun s =>
    { s with accountsFollowedByAccount :=
        mapMutate s.accountsFollowedByAccount follower (fun ids => ids ++ [account]) }
  modifySt fun s =>
    { s with accountFollowers := mapMutate s.accountFollowers account (fun ids => ids ++ [follower]) }
  modifySt fun s => s.insAccountFollowed (follower, account) true
  depositEvent (Event.AccountFollowed follower account)

/-- `pub fn unfollow_account(origin, account)`.  A missing reputation-diff
ledger entry is a hard error here, unlike in `unfollow_blog`. -/
def unfollow_account (follower account : Nat) : M Unit := do
  let s ← getSt
  ensureE (follower ≠ account) MSG_ACCOUNT_CANNOT_UNFOLLOW_ITSELF
  let follower_account ← okOr (s.socialAccountById follower) MSG_FOLLOWER_ACCOUNT_NOT_FOUND
  let followed_account ← okOr (s.socialAccountById account) MSG_FOLLOWED_ACCOUNT_NOT_FOUND
  ensureE ((s.accountFollowedByAccount (follower, account)).isSome = true)
    MSG_ACCOUNT_IS_NOT_FOLLOWED
  let newFA ← okOr (checkedSubU16 follower_account.following_accounts_count 1)
    MSG_UNDERFLOW_UNFOLLOWING_ACCOUNT
  let follower_account := { follower_account with following_accounts_count := newFA }
  let newF ← okOr (checkedSubU32 followed_account.followers_count 1)
    MSG_UNDERFLOW_UNFOLLOWING_ACCOUNT
  let followed_account := { followed_account with followers_count := newF }
  let reputation_diff ← okOr
    (s.accountReputationDiffByAccount (follower, account, ScoringAction.FollowAccount))
    MSG_REPUTATION_DIFF_NOT_FOUND
  change_social_account_reputation account follower reputation_diff ScoringAction.FollowAccount
  modifySt fun s => s.putSocialAccount follower follower_account
  modifySt fun s => s.putSocialAccount account followed_account
  modifySt fun s =>
    { s with accountsFollowedByAccount :=
        mapMutate s.accountsFollowedByAccount follower (fun ids => vecRemoveOn ids account) }
  modifySt fun s =>
    { s with accountFollowers := mapMutate s.accountFollowers account (fun ids => vecRemoveOn ids follower) }
  modifySt fun s => s.rmAccountFollowed (follower, account)
  depositEvent (Event.AccountUnfollowed follower account)

/-- `pub fn create_post(origin, blog_id, ipfs_hash, extension)`. -/
def create_post (owner blog_id : Nat) (ipfs_hash : List Nat) (ext : PostExtension) : M Unit := do
  let s ← getSt
  let blog ← okOr (s.blogById blog_id) MSG_BLOG_NOT_FOUND
  let newPC ← okOr (checkedAddU16 blog.posts_count 1) MSG_OVERFLOW_ADDING_POST_ON_BLOG
  let blog := { blog with posts_count := newPC }
  let new_post_id := s.nextPostId
  match ext with
  | PostExtension.RegularPost => is_ipfs_hash_valid ipfs_hash
  | PostExtension.SharedPost post_id => do
      let post ← okOr (s.postById post_id) MSG_ORIGINAL_POST_NOT_FOUND
      ensureE (post.extension = PostExtension.RegularPost) MSG_CANNOT_SHARE_SHARED_POST
      share_post owner post_id new_post_id
  | PostExtension.SharedComment comment_id =>
      share_comment owner comment_id new_post_id
  let created ← new_change owner
  let new_post : Post :=
    { id := new_post_id, blog_id, created, updated := none, extension := ext, ipfs_hash
      comments_count := 0, upvotes_count := 0, downvotes_count := 0, shares_count := 0
      edit_history := [], score := 0 }
  modifySt fun s => s.putPost new_post_id new_post
  modifySt fun s =>
    { s with postIdsByBlogId := mapMutate s.postIdsByBlogId blog_id (fun ids => ids ++ [new_post_id]) }
  modifySt fun s => { s with nextPostId := s.nextPostId + 1 }
  modifySt fun s => s.putBlog blog_id blog
  depositEvent (Event.PostCreated owner new_post_id)

/-- `pub fn create_comment(origin, post_id, parent_id, ipfs_hash)`.  The
post-score change runs before the parent-comment existence check. -/
def create_comment (owner post_id : Nat) (parent_id : Option Nat)
    (ipfs_hash : List Nat) : M Unit := do
  let s ← getSt
  let post ← okOr (s.postById post_id) MSG_POST_NOT_FOUND
  is_ipfs_hash_valid ipfs_hash
  let comment_id := s.nextCommentId
  let created ← new_change owner
  let new_comment : Comment :=
    { id := comment_id, parent_id, post_id, created, updated := none, ipfs_hash
      upvotes_count := 0, downvotes_count := 0, shares_count := 0
      direct_replies_count := 0, edit_history := [], score := 0 }
  let newCC ← okOr (checkedAddU16 post.comments_count 1) MSG_OVERFLOW_ADDING_COMMENT_ON_POST
  let post := { post with comments_count := newCC }
  let post ← change_post_score 2 owner post ScoringAction.CreateComment
  match parent_id with
  | some id => do
      let s' ← getSt
      let parent_comment ← okOr (s'.commentById id) MSG_UNKNOWN_PARENT_COMMENT
      let newDR ← okOr (checkedAddU16 parent_comment.direct_replies_count 1)
        MSG_OVERFLOW_REPLYING_ON_COMMENT
      modifySt fun s => s.putComment id { parent_comment with direct_replies_count := newDR }
  | none => pure ()
  modifySt fun s => s.putComment comment_id new_comment
  modifySt fun s =>
    { s with commentIdsByPostId := mapMutate s.commentIdsByPostId post_id (fun ids => ids ++ [comment_id]) }
  modifySt fun s => { s with nextCommentId := s.nextCommentId + 1 }
  modifySt fun s => s.putPost post_id post
  depositEvent (Event.CommentCreated owner comment_id)

/-- `pub fn create_post_reaction(origin, post_id, kind)`.  The reaction is
persisted by `new_reaction` before the vote-counter check can still fail. -/
def create_post_reaction (owner post_id : Nat) (kind : ReactionKind) : M Unit := do
  let s ← getSt
  ensureE ((s.postReactionIdByAccount (owner, post_id)).isNone = true)
    MSG_ACCOUNT_ALREADY_REACTED_TO_POST
  let post ← okOr (s.postById post_id) MSG_POST_NOT_FOUND
  let reaction_id ← new_reaction owner kind
  let pa ←
    match kind with
    | ReactionKind.Upvote => do
        let n ← okOr (checkedAddU16 post.upvotes_count 1) MSG_OVERFLOW_UPVOTING_POST
        pure ({ post with upvotes_count := n }, ScoringAction.UpvotePost)
    | ReactionKind.Downvote => do
        let n ← okOr (checkedAddU16 post.downvotes_count 1) MSG_OVERFLOW_DOWNVOTING_POST
        pure ({ post with downvotes_count := n }, ScoringAction.DownvotePost)
  if pa.1.created.account ≠ owner then do
    let _ ← change_post_score 2 owner pa.1 pa.2
    pure ()
  else
    modifySt fun s => s.putPost post_id pa.1
  modifySt fun s =>
    { s with reactionIdsByPostId := mapMutate s.reactionIdsByPostId post_id (fun ids => ids ++ [reaction_id]) }
  modifySt fun s => s.insPostReactionId (owner, post_id) reaction_id
  depositEvent (Event.PostReactionCreated owner post_id reaction_id)

/-- `pub fn create_comment_reaction(origin, comment_id, kind)`. -/
def create_comment_reaction (owner comment_id : Nat) (kind : ReactionKind) : M Unit := do
  let s ← getSt
  ensureE ((s.commentReactionIdByAccount (owner, comment_id)).isNone = true)
    MSG_ACCOUNT_ALREADY_REACTED_TO_COMMENT
  let comment ← okOr (s.commentById comment_id) MSG_COMMENT_NOT_FOUND
  let reaction_id ← new_reaction owner kind
  let ca ←
    match kind with
    | ReactionKind.Upvote => do
        let n ← okOr (checkedAddU16 comment.upvotes_count 1) MSG_OVERFLOW_UPVOTING_COMMENT
        pure ({ comment with upvotes_count := n }, ScoringAction.UpvoteComment)
    | ReactionKind.Downvote => do
        let n ← okOr (checkedAddU16 comment.downvotes_count 1) MSG_OVERFLOW_DOWNVOTING_COMMENT
        pure ({ comment with downvotes_count := n }, ScoringAction.DownvoteComment)
  if ca.1.created.account ≠ owner then do
    let _ ← change_comment_score 2 owner ca.1 ca.2
    pure ()
  else
    modifySt fun s => s.putComment comment_id ca.1
  modifySt fun s =>
    { s with reactionIdsByCommentId := mapMutate s.reactionIdsByCommentId comment_id (fun ids => ids ++ [reaction_id]) }
  modifySt fun s => s.insCommentReactionId (owner, comment_id) reaction_id
  depositEvent (Event.CommentReactionCreated owner comment_id reaction_id)

/-- `pub fn create_profile(origin, username, ipfs_hash)`. -/
def create_profile (owner : Nat) (username ipfs_hash : List Nat) : M Unit := do
  let s ← getSt
  let social_account := get_or_new_social_account s owner
  ensureE (social_account.profile.isNone = true) MSG_PROFILE_ALREADY_EXISTS
  is_username_valid username
  is_ipfs_hash_valid ipfs_hash
  let created ← new_change owner
  let social_account :=
    { social_account with profile := some { created, updated := none, username, ipfs_hash, edit_history := ([] : List ProfileHistoryRecord) } }
  modifySt fun s => s.insAccountByUsername username owner
  modifySt fun s => s.putSocialAccount owner social_account
  depositEvent (Event.ProfileCreated owner)

/-- `pub fn update_profile(origin, update)`.  A payload of `None` fields is
an error, but a payload equal to the current values ends as a silent no-op. -/
def update_profile (owner : Nat) (upd : ProfileUpdate) : M Unit := do
  let s ← getSt
  let has_updates := upd.username.isSome || upd.ipfs_hash.isSome
  ensureE (has_updates = true) MSG_NOTHING_TO_UPDATE_IN_PROFILE
  let social_account ← okOr (s.socialAccountById owner) MSG_SOCIAL_ACCOUNT_NOT_FOUND
  let profile ← okOr social_account.profile MSG_PROFILE_DOESNT_EXIST
  let edited ← new_change owner
  let acc₀ : Profile × ProfileHistoryRecord × Bool :=
    (profile, { edited, old_data := { username := none, ipfs_hash := none } }, false)
  let acc ←
    match upd.ipfs_hash with
    | some ipfs_hash =>
        if ipfs_hash ≠ acc₀.1.ipfs_hash then do
          is_ipfs_hash_valid ipfs_hash
          pure ({ acc₀.1 with ipfs_hash },
            { acc₀.2.1 with old_data := { acc₀.2.1.old_data with ipfs_hash := some acc₀.1.ipfs_hash } },
            true)
        else pure acc₀
    | none => pure acc₀
  let acc ←
    match upd.username with
    | some username =>
        if username ≠ acc.1.username then do
          is_username_valid username
          modifySt fun s => s.rmAccountByUsername acc.1.username
          modifySt fun s => s.insAccountByUsername username owner
          pure ({ acc.1 with username },
            { acc.2.1 with old_data := { acc.2.1.old_data with username := some acc.1.username } },
            true)
        else pure acc
    | none => pure acc
  if acc.2.2 = true then do
    let updChange ← new_change owner
    let profile := { acc.1 with updated := some updChange, edit_history := acc.1.edit_history ++ [acc.2.1] }
    let social_account := { social_account with profile := some profile }
    modifySt fun s => s.putSocialAccount owner social_account
    depositEvent (Event.ProfileUpdated owner)
  else pure ()

/-- `pub fn update_blog(origin, blog_id, update)`.  Same silent no-op path
when every given field equals the current value. -/
def update_blog (owner blog_id : Nat) (upd : BlogUpdate) : M Unit := do
  let s ← getSt
  let has_updates := upd.writers.isSome || upd.slug.isSome || upd.ipfs_hash.isSome
  ensureE (has_updates = true) MSG_NOTHING_TO_UPDATE_IN_BLOG
  let blog ← okOr (s.blogById blog_id) MSG_BLOG_NOT_FOUND
  ensureE (owner = blog.created.account) MSG_ONLY_BLOG_OWNER_CAN_UPDATE_BLOG
  let edited ← new_change owner
  let acc₀ : Blog × BlogHistoryRecord × Nat :=
    (blog, { edited, old_data := { writers := none, slug := none, ipfs_hash := none } }, 0)
  let acc :=
    match upd.writers with
    | some writers =>
        if writers ≠ acc₀.1.writers then
          ({ acc₀.1 with writers },
           { acc₀.2.1 with old_data := { acc₀.2.1.old_data with writers := some acc₀.1.writers } },
           acc₀.2.2 + 1)
        else acc₀
    | none => acc₀
  let acc ←
    match upd.ipfs_hash with
    | some ipfs_hash =>
        if ipfs_hash ≠ acc.1.ipfs_hash then do
          is_ipfs_hash_valid ipfs_hash
          pure ({ acc.1 with ipfs_hash },
            { acc.2.1 with old_data := { acc.2.1.old_data with ipfs_hash := some acc.1.ipfs_hash } },
            acc.2.2 + 1)
        else pure acc
    | none => pure acc
  let acc ←
    match upd.slug with
    | some slug =>
        if slug ≠ acc.1.slug then do
          let s' ← getSt
          ensureE (s'.slugMinLen ≤ slug.length) MSG_BLOG_SLUG_IS_TOO_SHORT
          ensureE (slug.length ≤ s'.slugMaxLen) MSG_BLOG_SLUG_IS_TOO_LONG
          ensureE ((s'.blogIdBySlug slug).isNone = true) MSG_BLOG_SLUG_IS_NOT_UNIQUE
          modifySt fun s => s.rmBlogIdBySlug acc.1.slug
          modifySt fun s => s.insBlogIdBySlug slug blog_id
          pure ({ acc.1 with slug },
            { acc.2.1 with old_data := { acc.2.1.old_data with slug := some acc.1.slug } },
            acc.2.2 + 1)
        else pure acc
    | none => pure acc
  if acc.2.2 > 0 then do
    let updChange ← new_change owner
    let blog := { acc.1 with updated := some updChange, edit_history := acc.1.edit_history ++ [acc.2.1] }
    modifySt fun s => s.putBlog blog_id blog
    depositEvent (Event.BlogUpdated owner blog_id)
  else pure ()

/-- `pub fn update_post(origin, post_id, update)`.  Same silent no-op path
when every given field equals the current value. -/
def update_post (owner post_id : Nat) (upd : PostUpdate) : M Unit := do
  let s ← getSt
  let has_updates := upd.blog_id.isSome || upd.ipfs_hash.isSome
  ensureE (has_updates = true) MSG_NOTHING_TO_UPDATE_IN_POST
  let post ← okOr (s.postById post_id) MSG_POST_NOT_FOUND
  ensureE (owner = post.created.account) MSG_ONLY_POST_OWNER_CAN_UPDATE_POST
  let edited ← new_change owner
  let acc₀ : Post × PostHistoryRecord × Nat :=
    (post, { edited, old_data := { blog_id := none, ipfs_hash := none } }, 0)
  let acc ←
    match upd.ipfs_hash with
    | some ipfs_hash =>
        if ipfs_hash ≠ acc₀.1.ipfs_hash then do
          is_ipfs_hash_valid ipfs_hash
          pure ({ acc₀.1 with ipfs_hash },
            { acc₀.2.1 with old_data := { acc₀.2.1.old_data with ipfs_hash := some acc₀.1.ipfs_hash } },
            acc₀.2.2 + 1)
        else pure acc₀
    | none => pure acc₀
  let acc ←
    match upd.blog_id with
    | some blog_id =>
        if blog_id ≠ acc.1.blog_id then do
          ensure_blog_exists blog_id
          modifySt fun s =>
            { s with postIdsByBlogId := mapMutate s.postIdsByBlogId acc.1.blog_id (fun ids => vecRemoveOn ids post_id) }
          modifySt fun s =>
            { s with postIdsByBlogId := mapMutate s.postIdsByBlogId blog_id (fun ids => ids ++ [post_id]) }
          pure ({ acc.1 with blog_id },
            { acc.2.1 with old_data := { acc.2.1.old_data with blog_id := some acc.1.blog_id } },
            acc.2.2 + 1)
        else pure acc
    | none => pure acc
  if acc.2.2 > 0 then do
    let updChange ← new_change owner
    let post := { acc.1 with updated := some updChange, edit_history := acc.1.edit_history ++ [acc.2.1] }
    modifySt fun s => s.putPost post_id post
    depositEvent (Event.PostUpdated owner post_id)
  else pure ()

/-- `pub fn update_comment(origin, comment_id, update)`. -/
def update_comment (owner comment_id : Nat) (upd : CommentUpdate) : M Unit := do
  let s ← getSt
  let comment ← okOr (s.commentById comment_id) MSG_COMMENT_NOT_FOUND
  ensureE (owner = comment.created.account) MSG_ONLY_COMMENT_AUTHOR_CAN_UPDATE_COMMENT
  let ipfs_hash := upd.ipfs_hash
  ensureE (ipfs_hash ≠ comment.ipfs_hash) MSG_NEW_COMMENT_HASH_DO_NOT_DIFFER
  is_ipfs_hash_valid ipfs_hash
  let edited ← new_change owner
  let new_history_record : CommentHistoryRecord :=
    { edited, old_data := { ipfs_hash := comment.ipfs_hash } }
  let updChange ← new_change owner
  let comment :=
    { comment with
      edit_history := comment.edit_history ++ [new_history_record]
      ipfs_hash := ipfs_hash
      updated := some updChange }
  modifySt fun s => s.putComment comment_id comment
  depositEvent (Event.CommentUpdated owner comment_id)

/-- `pub fn update_post_reaction(origin, post_id, reaction_id, new_kind)`.
The vote-counter adjustments here are UNCHECKED `+= 1` / `-= 1` in the
source; they are modelled as wrapping `u16` arithmetic. -/
def update_post_reaction (owner post_id reaction_id : Nat) (new_kind : ReactionKind) : M Unit := do
  let s ← getSt
  ensureE ((s.postReactionIdByAccount (owner, post_id)).isSome = true)
    MSG_ACCOUNT_HAS_NOT_REACTED_TO_POST
  let reaction ← okOr (s.reactionById reaction_id) MSG_REACTION_NOT_FOUND
  let post ← okOr (s.postById post_id) MSG_POST_NOT_FOUND
  ensureE (owner = reaction.created.account) MSG_ONLY_REACTION_OWNER_CAN_UPDATE_REACTION
  ensureE (reaction.kind ≠ new_kind) MSG_NEW_REACTION_KIND_DO_NOT_DIFFER
  let updChange ← new_change owner
  let reaction := { reaction with kind := new_kind, updated := some updChange }
  let post :=
    match new_kind with
    | ReactionKind.Upvote =>
        { post with upvotes_count := wrapAddU16 post.upvotes_count 1
                    downvotes_count := wrapSubU16 post.downvotes_count 1 }
    | ReactionKind.Downvote =>
        { post with downvotes_count := wrapAddU16 post.downvotes_count 1
                    upvotes_count := wrapSubU16 post.upvotes_count 1 }
  modifySt fun s => s.putReaction reaction_id reaction
  modifySt fun s => s.putPost post_id post
  depositEvent (Event.PostReactionUpdated owner post_id reaction_id)

/-- `pub fn update_comment_reaction(origin, comment_id, reaction_id, new_kind)`.
Unchecked counter arithmetic, as in `update_post_reaction`. -/
def update_comment_reaction (owner comment_id reaction_id : Nat) (new_kind : ReactionKind) : M Unit := do
  let s ← getSt
  ensureE ((s.commentReactionIdByAccount (owner, comment_id)).isSome = true)
    MSG_ACCOUNT_HAS_NOT_REACTED_TO_COMMENT
  let reaction ← okOr (s.reactionById reaction_id) MSG_REACTION_NOT_FOUND
  let comment ← okOr (s.commentById comment_id) MSG_COMMENT_NOT_FOUND
  ensureE (owner = reaction.created.account) MSG_ONLY_REACTION_OWNER_CAN_UPDATE_REACTION
  ensureE (reaction.kind ≠ new_kind) MSG_NEW_REACTION_KIND_DO_NOT_DIFFER
  let updChange ← new_change owner
  let reaction := { reaction with kind := new_kind, updated := some updChange }
  let comment :=
    match new_kind with
    | ReactionKind.Upvote =>
        { comment with upvotes_count := wrapAddU16 comment.upvotes_count 1
                       downvotes_count := wrapSubU16 comment.downvotes_count 1 }
    | ReactionKind.Downvote =>
        { comment with downvotes_count := wrapAddU16 comment.downvotes_count 1
                       upvotes_count := wrapSubU16 comment.upvotes_count 1 }
  modifySt fun s => s.putReaction reaction_id reaction
  modifySt fun s => s.putComment comment_id comment
  depositEvent (Event.CommentReactionUpdated owner comment_id reaction_id)

/-- `pub fn delete_post_reaction(origin, post_id, reaction_id)`.  The counter
decrement is UNCHECKED `-= 1` in the source (modelled as wrapping). -/
def delete_post_reaction (owner post_id reaction_id : Nat) : M Unit := do
  let s ← getSt
  ensureE ((s.postReactionIdByAccount (owner, post_id)).isSome = true)
    MSG_NO_POST_REACTION_BY_ACCOUNT_TO_DELETE
  let reaction ← okOr (s.reactionById reaction_id) MSG_REACTION_NOT_FOUND
  let post ← okOr (s.postById post_id) MSG_POST_NOT_FOUND
  ensureE (owner = reaction.created.account) MSG_ONLY_REACTION_OWNER_CAN_UPDATE_REACTION
  let post :=
    match reaction.kind with
    | ReactionKind.Upvote => { post with upvotes_count := wrapSubU16 post.upvotes_count 1 }
    | ReactionKind.Downvote => { post with downvotes_count := wrapSubU16 post.downvotes_count 1 }
  modifySt fun s => s.putPost post_id post
  modifySt fun s => s.rmReaction reaction_id
  modifySt fun s =>
    { s with reactionIdsByPostId := mapMutate s.reactionIdsByPostId post_id (fun ids => vecRemoveOn ids reaction_id) }
  modifySt fun s => s.rmPostReactionId (owner, post_id)
  depositEvent (Event.PostReactionDeleted owner post_id reaction_id)

/-- `pub fn delete_comment_reaction(origin, comment_id, reaction_id)`. -/
def delete_comment_reaction (owner comment_id reaction_id : Nat) : M Unit := do
  let s ← getSt
  ensureE ((s.commentReactionIdByAccount (owner, comment_id)).isSome = true)
    MSG_NO_COMMENT_REACTION_BY_ACCOUNT_TO_DELETE
  let reaction ← okOr (s.reactionById reaction_id) MSG_REACTION_NOT_FOUND
  let comment ← okOr (s.commentById comment_id) MSG_COMMENT_NOT_FOUND
  ensureE (owner = reaction.created.account) MSG_ONLY_REACTION_OWNER_CAN_UPDATE_REACTION
  let comment :=
    match reaction.kind with
    | ReactionKind.Upvote => { comment with upvotes_count := wrapSubU16 comment.upvotes_count 1 }
    | ReactionKind.Downvote => { comment with downvotes_count := wrapSubU16 comment.downvotes_count 1 }
  modifySt fun s => s.putComment comment_id comment
  modifySt fun s =>
    { s with reactionIdsByCommentId := mapMutate s.reactionIdsByCommentId comment_id (fun ids => vecRemoveOn ids reaction_id) }
  modifySt fun s => s.rmReaction reaction_id
  modifySt fun s => s.rmCommentReactionId (owner, comment_id)
  depositEvent (Event.CommentReactionDeleted owner comment_id reaction_id)

/-- Invoke `change_post_score` the way its callers do: load the post from
storage and pass that value (the `&mut Post` argument of the source). -/
def change_stored_post_score (account post_id : Nat) (action : ScoringAction) : M Unit := do
  let s ← getSt
  let post ← okOr (s.postById post_id) MSG_POST_NOT_FOUND
  let _ ← change_post_score 2 account post action
  pure ()

/-- One dispatchable call together with its already-authenticated caller. -/
inductive Op where
  | CreateBlog : Nat → List Nat → List Nat → Op
  | FollowBlog : Nat → Nat → Op
  | UnfollowBlog : Nat → Nat → Op
  | FollowAccount : Nat → Nat → Op
  | UnfollowAccount : Nat → Nat → Op
  | CreatePost : Nat → Nat → List Nat → PostExtension → Op
  | CreateComment : Nat → Nat → Option Nat → List Nat → Op
  | CreatePostReaction : Nat → Nat → ReactionKind → Op
  | CreateCommentReaction : Nat → Nat → ReactionKind → Op
  | CreateProfile : Nat → List Nat → List Nat → Op
  | UpdateProfile : Nat → ProfileUpdate → Op
  | UpdateBlog : Nat → Nat → BlogUpdate → Op
  | UpdatePost : Nat → Nat → PostUpdate → Op
  | UpdateComment : Nat → Nat → CommentUpdate → Op
  | UpdatePostReaction : Nat → Nat → Nat → ReactionKind → Op
  | UpdateCommentReaction : Nat → Nat → Nat → ReactionKind → Op
  | DeletePostReaction : Nat → Nat → Nat → Op
  | DeleteCommentReaction : Nat → Nat → Nat → Op

/-- Dispatch an operation to its implementation. -/
def Op.run : Op → M Unit
  | Op.CreateBlog owner slug ipfs_hash => create_blog owner slug ipfs_hash
  | Op.FollowBlog follower blog_id => follow_blog follower blog_id
  | Op.UnfollowBlog follower blog_id => unfollow_blog follower blog_id
  | Op.FollowAccount follower account => follow_account follower account
  | Op.UnfollowAccount follower account => unfollow_account follower account
  | Op.CreatePost owner blog_id ipfs_hash ext => create_post owner blog_id ipfs_hash ext
  | Op.CreateComment owner post_id parent_id ipfs_hash =>
      create_comment owner post_id parent_id ipfs_hash
  | Op.CreatePostReaction owner post_id kind => create_post_reaction owner post_id kind
  | Op.CreateCommentReaction owner comment_id kind =>
      create_comment_reaction owner comment_id kind
  | Op.CreateProfile owner username ipfs_hash => create_profile owner username ipfs_hash
  | Op.UpdateProfile owner upd => update_profile owner upd
  | Op.UpdateBlog owner blog_id upd => update_blog owner blog_id upd
  | Op.UpdatePost owner post_id upd => update_post owner post_id upd
  | Op.UpdateComment owner comment_id upd => update_comment owner comment_id upd
  | Op.UpdatePostReaction owner post_id reaction_id new_kind =>
      update_post_reaction owner post_id reaction_id new_kind
  | Op.UpdateCommentReaction owner comment_id reaction_id new_kind =>
      update_comment_reaction owner comment_id reaction_id new_kind
  | Op.DeletePostReaction owner post_id reaction_id =>
      delete_post_reaction owner post_id reaction_id
  | Op.DeleteCommentReaction owner comment_id reaction_id =>
      delete_comment_reaction owner comment_id reaction_id

/-- Execute a sequence of operations, keeping whatever state each one left
behind (also on failure: the store offers no rollback). -/
def runOps : List Op → St → St
  | [], s => s
  | op :: rest, s => runOps rest (op.run s).2

/-- Example slug (five bytes, within the [5,50] bounds). -/
def exSlug1 : List Nat := [97, 97, 97, 97, 97]

/-- A second example slug. -/
def exSlug2 : List Nat := [98, 98, 98, 98, 98]

/-- Example IPFS hash: 46 bytes, the configured fixed length. -/
def exHash : List Nat := List.replicate 46 120

/-- The state's per-action weights all carry their default values. -/
def defaultWeights (s : St) : Prop :=
  s.upvotePostActionWeight = 5 ∧ s.downvotePostActionWeight = -3 ∧
  s.sharePostActionWeight = 5 ∧ s.createCommentActionWeight = 5 ∧
  s.upvoteCommentActionWeight = 4 ∧ s.downvoteCommentActionWeight = -2 ∧
  s.shareCommentActionWeight = 3 ∧ s.followBlogActionWeight = 7 ∧
  s.followAccountActionWeight = 3

/-- Reachable state for the vote-toggle claims: account 1 created a blog with
two posts, and account 2 upvoted post 1 (leaving an in-effect reputation-diff
ledger entry keyed (2, 1, UpvotePost) that is NOT specific to post 1). -/
def exStC3 : St := runOps
  [Op.CreateBlog 1 exSlug1 exHash,
   Op.CreatePost 1 1 exHash PostExtension.RegularPost,
   Op.CreatePost 1 1 exHash PostExtension.RegularPost,
   Op.CreatePostReaction 2 1 ReactionKind.Upvote] initSt

/-- State after account 2 upvotes post 2 once in `exStC3` (by the caller-style
`change_stored_post_score` invocation). -/
def exStC3a : St := (change_stored_post_score 2 2 ScoringAction.UpvotePost exStC3).2

/-- Reachable state for the atomicity claim: a blog by account 1 holding one
regular post. -/
def exStC5 : St := runOps
  [Op.CreateBlog 1 exSlug1 exHash,
   Op.CreatePost 1 1 exHash PostExtension.RegularPost] initSt

/-- Reachable state for the unchecked-arithmetic claim: two posts by
account 1; account 2 holds reaction 1 (a Downvote on post 1) and reaction 2
(an Upvote on post 2). -/
def exStC7 : St := runOps
  [Op.CreateBlog 1 exSlug1 exHash,
   Op.CreatePost 1 1 exHash PostExtension.RegularPost,
   Op.CreatePost 1 1 exHash PostExtension.RegularPost,
   Op.CreatePostReaction 2 1 ReactionKind.Downvote,
   Op.CreatePostReaction 2 2 ReactionKind.Upvote] initSt

/-- Reachable state for the unfollow-blog claim: account 1 owns blogs 1 and 2,
account 2 follows both; the second follow toggled the reputation-diff ledger
entry (2, 1, FollowBlog) away, so account 2 follows blog 1 with no entry. -/
def exStC8 : St := runOps
  [Op.CreateBlog 1 exSlug1 exHash,
   Op.CreateBlog 1 exSlug2 exHash,
   Op.FollowBlog 2 1,
   Op.FollowBlog 2 2] initSt

/-- Reachable state for the no-op-update claim: one blog owned by account 1
with slug `exSlug1` and hash `exHash`. -/
def exStC6 : St := runOps [Op.CreateBlog 1 exSlug1 exHash] initSt

/-- A blog-update payload repeating the current values of `exStC6`'s blog. -/
def exUpdC6 : BlogUpdate := { writers := some [], slug := some exSlug1, ipfs_hash := some exHash }

/-- Reachable state for the share claims: a blog by account 1 with one
regular post. -/
def exStC9 : St := exStC5

/-- State after account 2 shares post 1 once (a `create_post` with a
`SharedPost 1` extension into blog 1). -/
def exStC9a : St := (create_post 2 1 exHash (PostExtension.SharedPost 1) exStC9).2

/-- State after account 2 shares post 1 a second time. -/
def exStC9b : St := (create_post 2 1 exHash (PostExtension.SharedPost 1) exStC9a).2

/-- The state left by `change_social_account_reputation` when the clamp at
the reputation floor does not fire: the ledger entry is toggled, the subject
account is stored with the diff applied, and the event is emitted. -/
def casrResultState (account scorer : Nat) (d : Int) (act : ScoringAction) (s : St) : St :=
  let sa₀ := get_or_new_social_account s account
  let newRep := ((sa₀.reputation : Int) + d).toNat
  let t := if (s.accountReputationDiffByAccount (scorer, account, act)).isSome
           then s.rmRepDiff (scorer, account, act)
           else s.insRepDiff (scorer, account, act) d
  let t := t.putSocialAccount account { sa₀ with reputation := newRep }
  { t with events := t.events ++ [Event.AccountReputationChanged account act newRep] }

/-- The state left by the apply branch of `change_post_score` (no prior
ledger entry, no opposite vote to auto-cancel). -/
def cpsApplyState (a : Nat) (post : Post) (act : ScoringAction) (s : St) (blog : Blog) : St :=
  let gsd := get_score_diff s (get_or_new_social_account s a).reputation act
  let t := casrResultState post.created.account a gsd act s
  let t := t.insPostScore (a, post.id, act) gsd
  (t.putPost post.id { post with score := post.score + gsd }).putBlog post.blog_id
    { blog with score := blog.score + gsd }

/-- The state left by the reversal branch of `change_post_score` (a prior
ledger entry `d` and an in-effect reputation-diff entry `rd` exist). -/
def cpsRevertState (a : Nat) (post : Post) (act : ScoringAction) (s : St) (blog : Blog)
    (d rd : Int) : St :=
  let t := casrResultState post.created.account a (rd * -1) act s
  let t := t.rmPostScore (a, post.id, act)
  (t.putPost post.id { post with score := post.score + d * -1 }).putBlog post.blog_id
    { blog with score := blog.score + d * -1 }

/-- No opposite post-vote ledger entry to auto-cancel: the condition under
which `change_post_score` takes the non-recursive path of its `none` branch. -/
def oppClear (s : St) (a pid : Nat) (act : ScoringAction) : Prop :=
  match act with
  | ScoringAction.UpvotePost =>
      s.postScoreByAccount (a, pid, ScoringAction.DownvotePost) = none
  | ScoringAction.DownvotePost =>
      s.postScoreByAccount (a, pid, ScoringAction.UpvotePost) = none
  | _ => True

/-- Placeholder change record used only as a `getD` fallback. -/
def emptyChange : Change := { account := 0, block := 0, time := 0 }

/-- Placeholder blog used only as a `getD` fallback. -/
def fallbackBlog : Blog :=
  { id := 0, created := emptyChange, updated := none, writers := [], slug := []
    ipfs_hash := [], posts_count := 0, followers_count := 0, edit_history := [], score := 0 }

/-- Placeholder post used only as a `getD` fallback. -/
def fallbackPost : Post :=
  { id := 0, blog_id := 0, created := emptyChange, updated := none
    extension := PostExtension.RegularPost, ipfs_hash := [], comments_count := 0
    upvotes_count := 0, downvotes_count := 0, shares_count := 0, edit_history := [], score := 0 }

/-- Placeholder social account used only as a `getD` fallback. -/
def fallbackSa : SocialAccount :=
  { followers_count := 0, following_accounts_count := 0, following_blogs_count := 0
    reputation := 1, profile := none }

/-- Placeholder profile used only as a `getD` fallback. -/
def fallbackProfile : Profile :=
  { created := emptyChange, updated := none, username := [], ipfs_hash := [], edit_history := [] }

/-- Example username (three alphanumeric bytes, within the [3,24] bounds). -/
def exUsername : List Nat := [97, 98, 99]

/-- Witness state for the no-op-update claim: account 1 owns a blog, a post
and a profile. -/
def exStC6w : St := runOps
  [Op.CreateBlog 1 exSlug1 exHash,
   Op.CreatePost 1 1 exHash PostExtension.RegularPost,
   Op.CreateProfile 1 exUsername exHash] initSt

/-- The blog of `exStC6w`. -/
def exBlogC6 : Blog := (exStC6w.blogById 1).getD fallbackBlog

/-- The post of `exStC6w`. -/
def exPostC6 : Post := (exStC6w.postById 1).getD fallbackPost

/-- The social account of account 1 in `exStC6w`. -/
def exSaC6 : SocialAccount := (exStC6w.socialAccountById 1).getD fallbackSa

/-- The profile of account 1 in `exStC6w`. -/
def exProfC6 : Profile := exSaC6.profile.getD fallbackProfile

/-- Witness state for the vote-toggle claims: account 1 owns a blog with one
post and has reputation 6 (account 3 upvoted the post); account 2 has no
prior interactions at all. -/
def exStC34 : St := runOps
  [Op.CreateBlog 1 exSlug1 exHash,
   Op.CreatePost 1 1 exHash PostExtension.RegularPost,
   Op.CreatePostReaction 3 1 ReactionKind.Upvote] initSt

/-- The post of `exStC34`. -/
def exPostC34 : Post := (exStC34.postById 1).getD fallbackPost

/-- The blog of `exStC34`. -/
def exBlogC34 : Blog := (exStC34.blogById 1).getD fallbackBlog

/-- The post of `exStC9`. -/
def exPostC9 : Post := (exStC9.postById 1).getD fallbackPost

/-- The blog of `exStC9`. -/
def exBlogC9 : Blog := (exStC9.blogById 1).getD fallbackBlog

/-- Witness state for the unfollow-blog claim's reversal path: account 2
follows blog 1 of account 1 (recorded diff 7) and account 3 upvoted post 1,
keeping the creator's reputation (13) above the clamp floor during the
reversal. -/
def exStC8w : St := runOps
  [Op.CreateBlog 1 exSlug1 exHash,
   Op.CreatePost 1 1 exHash PostExtension.RegularPost,
   Op.CreatePostReaction 3 1 ReactionKind.Upvote,
   Op.FollowBlog 2 1] initSt

/-- The blog of `exStC8w`. -/
def exBlogC8w : Blog := (exStC8w.blogById 1).getD fallbackBlog

/-- The social account of account 2 in `exStC8w`. -/
def exSaC8w : SocialAccount := (exStC8w.socialAccountById 2).getD fallbackSa

/-- The blog 1 of `exStC8`. -/
def exBlogC8 : Blog := (exStC8.blogById 1).getD fallbackBlog

/-- The social account of account 2 in `exStC8`. -/
def exSaC8 : SocialAccount := (exStC8.socialAccountById 2).getD fallbackSa

/-- A small social account used to extend `exStC8` by hand. -/
def exSaC8a : SocialAccount :=
  { followers_count := 1, following_accounts_count := 1, following_blogs_count := 0
    reputation := 1, profile := none }

/-- Account 2's record of `exStC8` with a nonzero following-accounts count. -/
def exSaC8ext : SocialAccount := { exSaC8 with following_accounts_count := 1 }

/-- `exStC8` extended so that account 2 also follows account 4 while the
(2, 4, FollowAccount) reputation-diff ledger entry is absent. -/
def exStC8ext : St :=
  ((exStC8.putSocialAccount 2 exSaC8ext).putSocialAccount 4
    exSaC8a).insAccountFollowed (2, 4) true

/-! ## Monad unfolding lemmas -/

theorem bind_apply (x : M α) (f : α → M β) (s : St) :
    (x >>= f) s =
      match x s with
      | (Except.ok a, s') => f a s'
      | (Except.error e, s') => (Except.error e, s') := rfl

theorem pure_apply (a : α) (s : St) : (pure a : M α) s = (Except.ok a, s) := rfl

theorem getSt_apply (s : St) : getSt s = (Except.ok s, s) := rfl

theorem modifySt_apply (f : St → St) (s : St) : modifySt f s = (Except.ok (), f s) := rfl

theorem throwErr_apply (msg : String) (s : St) :
    (throwErr msg : M α) s = (Except.error msg, s) := rfl

theorem ensureE_apply (p : Prop) [Decidable p] (msg : String) (s : St) :
    ensureE p msg s = if p then (Except.ok (), s) else (Except.error msg, s) := by
  unfold ensureE
  split <;> rfl

theorem okOr_apply (o : Option α) (msg : String) (s : St) :
    okOr o msg s =
      match o with
      | some a => (Except.ok a, s)
      | none => (Except.error msg, s) := by
  unfold okOr
  split <;> rfl

theorem depositEvent_apply (e : Event) (s : St) :
    depositEvent e s = (Except.ok (), { s with events := s.events ++ [e] }) := rfl

/-! ## The reputation invariant -/

/-- Every stored social account has reputation at least 1. -/
def RepInv (s : St) : Prop :=
  ∀ a sa, s.socialAccountById a = some sa → 1 ≤ sa.reputation

theorem repInv_initSt : RepInv initSt := by
  intro a sa h
  simp [initSt] at h

theorem getOrNew_rep_ge_one (s : St) (a : Nat) (h : RepInv s) :
    1 ≤ (get_or_new_social_account s a).reputation := by
  unfold get_or_new_social_account
  split
  case h_1 sa heq => exact h a sa heq
  case h_2 => exact Nat.le_refl 1

theorem repInv_putSocialAccount {s : St} (x : Nat) (sa : SocialAccount)
    (h : RepInv s) (hrep : 1 ≤ sa.reputation) : RepInv (s.putSocialAccount x sa) := by
  intro a sa' ha
  simp only [St.putSocialAccount, mapInsert] at ha
  split at ha
  · cases ha
    exact hrep
  · exact h a sa' ha

/-- Any state transformation that leaves `socialAccountById` unchanged
preserves the invariant. -/
theorem repInv_of_sa_eq {s t : St} (h : RepInv s)
    (he : t.socialAccountById = s.socialAccountById) : RepInv t := by
  intro a sa ha
  rw [he] at ha
  exact h a sa ha

theorem repInv_insRepDiff {s : St} (k : Nat × Nat × ScoringAction) (v : Int)
    (h : RepInv s) : RepInv (s.insRepDiff k v) :=
  repInv_of_sa_eq h rfl

theorem repInv_rmRepDiff {s : St} (k : Nat × Nat × ScoringAction)
    (h : RepInv s) : RepInv (s.rmRepDiff k) :=
  repInv_of_sa_eq h rfl

-- The rewriting lemmas used for symbolic execution are registered globally.
attribute [simp] bind_apply pure_apply getSt_apply modifySt_apply throwErr_apply
  ensureE_apply okOr_apply depositEvent_apply

theorem casr_preserves (account scorer : Nat) (d : Int) (act : ScoringAction) (s : St)
    (h : RepInv s) :
    RepInv (change_social_account_reputation account scorer d act s).2 := by
  have hrep : 1 ≤ (get_or_new_social_account s account).reputation :=
    getOrNew_rep_ge_one s account h
  unfold change_social_account_reputation
  by_cases hclamp : ((get_or_new_social_account s account).reputation : Int) + d ≤ 1
  · -- clamped: reputation forced to 1, diff zeroed
    by_cases htog : (s.accountReputationDiffByAccount (scorer, account, act)).isSome = true
    · simp [hclamp, htog, checkedAddU32, checkedSubU32]
      exact repInv_of_sa_eq
        (repInv_putSocialAccount account _ (repInv_rmRepDiff _ h) (Nat.le_refl 1)) rfl
    · simp [hclamp, htog, checkedAddU32, checkedSubU32]
      exact repInv_of_sa_eq
        (repInv_putSocialAccount account _ (repInv_insRepDiff _ _ h) (Nat.le_refl 1)) rfl
  · by_cases hd : d < 0
    · -- unclamped negative diff: subtraction cannot underflow below 2
      have hsub : -d ≤ ((get_or_new_social_account s account).reputation : Int) := by
        omega
      have hge1 : 1 ≤ (get_or_new_social_account s account).reputation - (-d).toNat := by
        omega
      by_cases htog : (s.accountReputationDiffByAccount (scorer, account, act)).isSome = true
      · simp [hclamp, hd, htog, checkedSubU32, hsub]
        exact repInv_of_sa_eq
          (repInv_putSocialAccount account _ (repInv_rmRepDiff _ h) hge1) rfl
      · simp [hclamp, hd, htog, checkedSubU32, hsub]
        exact repInv_of_sa_eq
          (repInv_putSocialAccount account _ (repInv_insRepDiff _ _ h) hge1) rfl
    · -- unclamped nonnegative diff: checked addition may overflow (error, no write)
      by_cases hov : (get_or_new_social_account s account).reputation + d.toNat < 4294967296
      · have hge1 : 1 ≤ (get_or_new_social_account s account).reputation + d.toNat := by
          omega
        by_cases htog : (s.accountReputationDiffByAccount (scorer, account, act)).isSome = true
        · simp [hclamp, hd, htog, checkedAddU32, hov]
          exact repInv_of_sa_eq
            (repInv_putSocialAccount account _ (repInv_rmRepDiff _ h) hge1) rfl
        · simp [hclamp, hd, htog, checkedAddU32, hov]
          exact repInv_of_sa_eq
            (repInv_putSocialAccount account _ (repInv_insRepDiff _ _ h) hge1) rfl
      · simp [hclamp, hd, checkedAddU32, hov]
        exact h

/-! ## Compositional preservation of the reputation invariant -/

/-- A program preserves the reputation invariant on whatever state it
leaves behind, also on failure. -/
def PreservesRI (m : M α) : Prop := ∀ s, RepInv s → RepInv (m s).2

theorem pr_pure (a : α) : PreservesRI (pure a : M α) := fun _ h => h

theorem pr_throw (msg : String) : PreservesRI (throwErr msg : M α) := fun _ h => h

theorem pr_bind {x : M α} {f : α → M β} (hx : PreservesRI x)
    (hf : ∀ a, PreservesRI (f a)) : PreservesRI (x >>= f) := by
  intro s h
  have hs' : RepInv (x s).2 := hx s h
  rcases hxs : x s with ⟨r, s'⟩
  rw [hxs] at hs'
  cases r with
  | ok a =>
      have : (x >>= f) s = f a s' := by rw [bind_apply, hxs]
      rw [this]
      exact hf a s' hs'
  | error e =>
      have : (x >>= f) s = (Except.error e, s') := by rw [bind_apply, hxs]
      rw [this]
      exact hs'

theorem pr_getSt_bind {f : St → M α} (hf : ∀ s, RepInv s → RepInv ((f s) s).2) :
    PreservesRI (getSt >>= f) := fun s h => hf s h

theorem pr_okOr_bind {o : Option α} {msg : String} {f : α → M β}
    (hf : ∀ a, o = some a → PreservesRI (f a)) : PreservesRI (okOr o msg >>= f) := by
  cases ho : o with
  | none => exact fun s h => h
  | some a => exact fun s h => hf a ho s h

theorem pr_okOr (o : Option α) (msg : String) : PreservesRI (okOr o msg) := by
  cases o with
  | none => exact fun _ h => h
  | some a => exact fun _ h => h

theorem pr_ite {c : Prop} [Decidable c] {t e : M α} (ht : PreservesRI t)
    (he : PreservesRI e) : PreservesRI (if c then t else e) := by
  split
  · exact ht
  · exact he

theorem pr_modify {f : St → St} (hf : ∀ s, RepInv s → RepInv (f s)) :
    PreservesRI (modifySt f) := fun s h => hf s h

theorem pr_modify_sa {f : St → St} (hf : ∀ s, (f s).socialAccountById = s.socialAccountById) :
    PreservesRI (modifySt f) := fun s h => repInv_of_sa_eq h (hf s)

theorem pr_event (e : Event) : PreservesRI (depositEvent e) :=
  fun _ h => repInv_of_sa_eq h rfl

theorem pr_ensure (p : Prop) [Decidable p] (msg : String) : PreservesRI (ensureE p msg) := by
  unfold ensureE
  exact pr_ite (pr_pure ()) (pr_throw msg)

theorem casr_pr (account scorer : Nat) (d : Int) (act : ScoringAction) :
    PreservesRI (change_social_account_reputation account scorer d act) :=
  fun s h => casr_preserves account scorer d act s h

theorem cps_pr : ∀ (fuel account : Nat) (post : Post) (act : ScoringAction),
    PreservesRI (change_post_score fuel account post act) := by
  intro fuel
  induction fuel with
  | zero => intro account post act; exact pr_throw _
  | succ fuel ih =>
    intro account post act
    rw [change_post_score]
    refine pr_getSt_bind ?_
    intro s hs
    refine (?_ : PreservesRI _) s hs
    refine pr_okOr_bind ?_
    intro blog _
    refine pr_ite ?_ (pr_pure _)
    cases s.postScoreByAccount (account, post.id, act) with
    | some sd =>
        exact pr_okOr_bind fun rd _ =>
          pr_okOr_bind fun nps _ =>
            pr_okOr_bind fun nbs _ =>
              pr_bind (casr_pr _ _ _ _) fun _ =>
                pr_bind (pr_modify_sa fun _ => rfl) fun _ =>
                  pr_bind (pr_pure _) fun _ =>
                    pr_bind (pr_modify_sa fun _ => rfl) fun _ => pr_pure _
    | none =>
        have tail : ∀ p : Post,
            PreservesRI (okOr (checkedAddI32 p.score (get_score_diff s
                (get_or_new_social_account s account).reputation act))
                MSG_OUT_OF_BOUNDS_UPDATING_POST_SCORE >>= fun nps =>
              okOr (checkedAddI32 blog.score (get_score_diff s
                (get_or_new_social_account s account).reputation act))
                MSG_OUT_OF_BOUNDS_UPDATING_BLOG_SCORE >>= fun nbs =>
              change_social_account_reputation p.created.account account
                (get_score_diff s (get_or_new_social_account s account).reputation act)
                act >>= fun _ =>
              (modifySt fun t => t.insPostScore (account, post.id, act)
                (get_score_diff s (get_or_new_social_account s account).reputation act))
                >>= fun _ =>
              (pure ({ p with score := nps },
                 { blog with score := nbs }) : M (Post × Blog)) >>= fun pb =>
              (modifySt fun t => (t.putPost post.id pb.1).putBlog pb.1.blog_id pb.2)
                >>= fun _ => pure pb.1) := by
          intro p
          exact pr_okOr_bind fun nps _ =>
            pr_okOr_bind fun nbs _ =>
              pr_bind (casr_pr _ _ _ _) fun _ =>
                pr_bind (pr_modify_sa fun _ => rfl) fun _ =>
                  pr_bind (pr_pure _) fun pb =>
                    pr_bind (pr_modify_sa fun _ => rfl) fun _ => pr_pure _
        cases act with
        | UpvotePost =>
            dsimp only []
            exact pr_ite (pr_bind (ih account post ScoringAction.DownvotePost) tail)
              (pr_bind (pr_pure _) tail)
        | DownvotePost =>
            dsimp only []
            exact pr_ite (pr_bind (ih account post ScoringAction.UpvotePost) tail)
              (pr_bind (pr_pure _) tail)
        | SharePost => exact pr_bind (pr_pure _) tail
        | CreateComment => exact pr_bind (pr_pure _) tail
        | UpvoteComment => exact pr_bind (pr_pure _) tail
        | DownvoteComment => exact pr_bind (pr_pure _) tail
        | ShareComment => exact pr_bind (pr_pure _) tail
        | FollowBlog => exact pr_bind (pr_pure _) tail
        | FollowAccount => exact pr_bind (pr_pure _) tail

theorem ccs_pr : ∀ (fuel account : Nat) (comment : Comment) (act : ScoringAction),
    PreservesRI (change_comment_score fuel account comment act) := by
  intro fuel
  induction fuel with
  | zero => intro account comment act; exact pr_throw _
  | succ fuel ih =>
    intro account comment act
    rw [change_comment_score]
    refine pr_getSt_bind ?_
    intro s hs
    refine (?_ : PreservesRI _) s hs
    refine pr_ite ?_ (pr_pure _)
    cases s.commentScoreByAccount (account, comment.id, act) with
    | some sd =>
        exact pr_okOr_bind fun rd _ =>
          pr_okOr_bind fun ncs _ =>
            pr_bind (casr_pr _ _ _ _) fun _ =>
              pr_bind (pr_modify_sa fun _ => rfl) fun _ =>
                pr_bind (pr_pure _) fun _ =>
                  pr_bind (pr_modify_sa fun _ => rfl) fun _ => pr_pure _
    | none =>
        have tail : ∀ c : Comment,
            PreservesRI (okOr (checkedAddI32 c.score (get_score_diff s
                (get_or_new_social_account s account).reputation act))
                MSG_OUT_OF_BOUNDS_UPDATING_COMMENT_SCORE >>= fun ncs =>
              change_social_account_reputation c.created.account account
                (get_score_diff s (get_or_new_social_account s account).reputation act)
                act >>= fun _ =>
              (modifySt fun t => t.insCommentScore (account, comment.id, act)
                (get_score_diff s (get_or_new_social_account s account).reputation act))
                >>= fun _ =>
              (pure { c with score := ncs } : M Comment) >>= fun c' =>
              (modifySt fun t => t.putComment comment.id c') >>= fun _ => pure c') := by
          intro c
          exact pr_okOr_bind fun ncs _ =>
            pr_bind (casr_pr _ _ _ _) fun _ =>
              pr_bind (pr_modify_sa fun _ => rfl) fun _ =>
                pr_bind (pr_pure _) fun c' =>
                  pr_bind (pr_modify_sa fun _ => rfl) fun _ => pr_pure _
        cases act with
        | UpvoteComment =>
            dsimp only []
            exact pr_ite (pr_bind (ih account comment ScoringAction.DownvoteComment) tail)
              (pr_bind (pr_pure _) tail)
        | DownvoteComment =>
            dsimp only []
            exact pr_ite (pr_bind (ih account comment ScoringAction.UpvoteComment) tail)
              (pr_bind (pr_pure _) tail)
        | CreateComment =>
            dsimp only []
            refine pr_getSt_bind ?_
            intro s' hs'
            refine (?_ : PreservesRI _) s' hs'
            exact pr_okOr_bind fun p _ =>
              pr_bind (cps_pr fuel account p ScoringAction.CreateComment) fun _ =>
                pr_bind (pr_pure _) tail
        | UpvotePost => exact pr_bind (pr_pure _) tail
        | DownvotePost => exact pr_bind (pr_pure _) tail
        | SharePost => exact pr_bind (pr_pure _) tail
        | ShareComment => exact pr_bind (pr_pure _) tail
        | FollowBlog => exact pr_bind (pr_pure _) tail
        | FollowAccount => exact pr_bind (pr_pure _) tail

theorem new_change_pr (account : Nat) : PreservesRI (new_change account) := by
  unfold new_change
  exact pr_getSt_bind fun s hs => hs

theorem new_reaction_pr (account : Nat) (kind : ReactionKind) :
    PreservesRI (new_reaction account kind) := by
  unfold new_reaction
  refine pr_getSt_bind ?_
  intro s hs
  refine (?_ : PreservesRI _) s hs
  exact pr_bind (new_change_pr account) fun c =>
    pr_bind (pr_modify_sa fun _ => rfl) fun _ => pr_pure _

theorem ensure_blog_exists_pr (blog_id : Nat) : PreservesRI (ensure_blog_exists blog_id) := by
  unfold ensure_blog_exists
  refine pr_getSt_bind ?_
  intro s hs
  exact pr_ensure _ _ s hs

theorem is_username_valid_pr (u : List Nat) : PreservesRI (is_username_valid u) := by
  unfold is_username_valid
  refine pr_getSt_bind ?_
  intro s hs
  refine (?_ : PreservesRI _) s hs
  exact pr_bind (pr_ensure _ _) fun _ =>
    pr_bind (pr_ensure _ _) fun _ =>
      pr_bind (pr_ensure _ _) fun _ => pr_ensure _ _

theorem is_ipfs_hash_valid_pr (h : List Nat) : PreservesRI (is_ipfs_hash_valid h) := by
  unfold is_ipfs_hash_valid
  refine pr_getSt_bind ?_
  intro s hs
  exact pr_ensure _ _ s hs

theorem abf_pr (follower : Nat) (blog : Blog) (is_new_blog : Bool) :
    PreservesRI (add_blog_follower_and_insert_blog follower blog is_new_blog) := by
  unfold add_blog_follower_and_insert_blog
  refine pr_getSt_bind ?_
  intro s hs
  refine (?_ : PreservesRI _) s hs
  have hrep : 1 ≤ (get_or_new_social_account s follower).reputation :=
    getOrNew_rep_ge_one s follower hs
  refine pr_okOr_bind ?_
  intro newFB _
  refine pr_okOr_bind ?_
  intro newFC _
  dsimp only []
  refine pr_ite ?_ ?_
  · exact pr_okOr_bind fun newScore _ =>
      pr_bind (casr_pr _ _ _ _) fun _ =>
        pr_bind (pr_pure _) fun y =>
          pr_bind (pr_modify_sa fun _ => rfl) fun _ =>
            pr_bind (pr_modify fun t ht => repInv_putSocialAccount _ _ ht hrep) fun _ =>
              pr_bind (pr_modify_sa fun _ => rfl) fun _ =>
                pr_bind (pr_modify_sa fun _ => rfl) fun _ =>
                  pr_bind (pr_modify_sa fun _ => rfl) fun _ =>
                    pr_ite (pr_bind (pr_event _) fun _ => pr_event _)
                      (pr_bind (pr_pure _) fun _ => pr_event _)
  · exact pr_bind (pr_pure _) fun y =>
      pr_bind (pr_modify_sa fun _ => rfl) fun _ =>
        pr_bind (pr_modify fun t ht => repInv_putSocialAccount _ _ ht hrep) fun _ =>
          pr_bind (pr_modify_sa fun _ => rfl) fun _ =>
            pr_bind (pr_modify_sa fun _ => rfl) fun _ =>
              pr_bind (pr_modify_sa fun _ => rfl) fun _ =>
                pr_ite (pr_bind (pr_event _) fun _ => pr_event _)
                  (pr_bind (pr_pure _) fun _ => pr_event _)

theorem share_post_pr (account original_post_id shared_post_id : Nat) :
    PreservesRI (share_post account original_post_id shared_post_id) := by
  unfold share_post
  refine pr_getSt_bind ?_
  intro s hs
  refine (?_ : PreservesRI _) s hs
  refine pr_okOr_bind ?_
  intro original_post _
  refine pr_okOr_bind ?_
  intro newSC _
  refine pr_okOr_bind ?_
  intro shares_by_account _
  dsimp only []
  refine pr_ite ?_ ?_
  · exact pr_bind (cps_pr 2 account _ ScoringAction.SharePost) fun p =>
      pr_bind (pr_modify_sa fun _ => rfl) fun _ =>
        pr_bind (pr_modify_sa fun _ => rfl) fun _ =>
          pr_bind (pr_modify_sa fun _ => rfl) fun _ => pr_event _
  · exact pr_bind (pr_pure _) fun p =>
      pr_bind (pr_modify_sa fun _ => rfl) fun _ =>
        pr_bind (pr_modify_sa fun _ => rfl) fun _ =>
          pr_bind (pr_modify_sa fun _ => rfl) fun _ => pr_event _

theorem share_comment_pr (account original_comment_id shared_post_id : Nat) :
    PreservesRI (share_comment account original_comment_id shared_post_id) := by
  unfold share_comment
  refine pr_getSt_bind ?_
  intro s hs
  refine (?_ : PreservesRI _) s hs
  refine pr_okOr_bind ?_
  intro original_comment _
  refine pr_okOr_bind ?_
  intro newSC _
  refine pr_okOr_bind ?_
  intro shares_count _
  dsimp only []
  refine pr_ite ?_ ?_
  · exact pr_bind (ccs_pr 2 account _ ScoringAction.ShareComment) fun c =>
      pr_bind (pr_modify_sa fun _ => rfl) fun _ =>
        pr_bind (pr_modify_sa fun _ => rfl) fun _ => pr_event _
  · exact pr_bind (pr_pure _) fun c =>
      pr_bind (pr_modify_sa fun _ => rfl) fun _ =>
        pr_bind (pr_modify_sa fun _ => rfl) fun _ => pr_event _

theorem pr_getSt : PreservesRI getSt := fun _ h => h

theorem create_blog_pr (owner : Nat) (slug ipfs_hash : List Nat) :
    PreservesRI (create_blog owner slug ipfs_hash) := by
  unfold create_blog
  refine pr_getSt_bind ?_
  intro s hs
  refine (?_ : PreservesRI _) s hs
  exact pr_bind (pr_ensure _ _) fun _ =>
    pr_bind (pr_ensure _ _) fun _ =>
      pr_bind (pr_ensure _ _) fun _ =>
        pr_bind (is_ipfs_hash_valid_pr _) fun _ =>
          pr_bind (new_change_pr _) fun created =>
            pr_bind (abf_pr _ _ _) fun _ =>
              pr_bind (pr_modify_sa fun _ => rfl) fun _ =>
                pr_bind (pr_modify_sa fun _ => rfl) fun _ =>
                  pr_modify_sa fun _ => rfl

theorem follow_blog_pr (follower blog_id : Nat) :
    PreservesRI (follow_blog follower blog_id) := by
  unfold follow_blog
  refine pr_getSt_bind ?_
  intro s hs
  refine (?_ : PreservesRI _) s hs
  exact pr_okOr_bind fun blog _ =>
    pr_bind (pr_ensure _ _) fun _ => abf_pr _ _ _

theorem unfollow_blog_pr (follower blog_id : Nat) :
    PreservesRI (unfollow_blog follower blog_id) := by
  unfold unfollow_blog
  refine pr_getSt_bind ?_
  intro s hs
  refine (?_ : PreservesRI _) s hs
  refine pr_okOr_bind ?_
  intro blog _
  refine pr_bind (pr_ensure _ _) ?_
  intro _
  refine pr_okOr_bind ?_
  intro sa hsa
  have hrep : 1 ≤ sa.reputation := hs follower sa hsa
  refine pr_okOr_bind ?_
  intro newFB _
  refine pr_okOr_bind ?_
  intro newFC _
  dsimp only []
  refine pr_ite ?_ ?_
  · cases s.accountReputationDiffByAccount
      (follower, blog.created.account, ScoringAction.FollowBlog) with
    | some sd =>
        exact pr_okOr_bind fun ns _ =>
          pr_bind (casr_pr _ _ _ _) fun _ =>
            pr_bind (pr_pure _) fun b =>
              pr_bind (pr_modify_sa fun _ => rfl) fun _ =>
                pr_bind (pr_modify_sa fun _ => rfl) fun _ =>
                  pr_bind (pr_modify_sa fun _ => rfl) fun _ =>
                    pr_bind (pr_modify fun t ht =>
                        repInv_putSocialAccount _ _ ht hrep) fun _ =>
                      pr_bind (pr_modify_sa fun _ => rfl) fun _ => pr_event _
    | none =>
        exact pr_bind (pr_pure _) fun b =>
          pr_bind (pr_modify_sa fun _ => rfl) fun _ =>
            pr_bind (pr_modify_sa fun _ => rfl) fun _ =>
              pr_bind (pr_modify_sa fun _ => rfl) fun _ =>
                pr_bind (pr_modify fun t ht =>
                    repInv_putSocialAccount _ _ ht hrep) fun _ =>
                  pr_bind (pr_modify_sa fun _ => rfl) fun _ => pr_event _
  · exact pr_bind (pr_pure _) fun b =>
      pr_bind (pr_modify_sa fun _ => rfl) fun _ =>
        pr_bind (pr_modify_sa fun _ => rfl) fun _ =>
          pr_bind (pr_modify_sa fun _ => rfl) fun _ =>
            pr_bind (pr_modify fun t ht =>
                repInv_putSocialAccount _ _ ht hrep) fun _ =>
              pr_bind (pr_modify_sa fun _ => rfl) fun _ => pr_event _

theorem follow_account_pr (follower account : Nat) :
    PreservesRI (follow_account follower account) := by
  unfold follow_account
  refine pr_getSt_bind ?_
  intro s hs
  refine (?_ : PreservesRI _) s hs
  have hrep1 : 1 ≤ (get_or_new_social_account s follower).reputation :=
    getOrNew_rep_ge_one s follower hs
  have hrep2 : 1 ≤ (get_or_new_social_account s account).reputation :=
    getOrNew_rep_ge_one s account hs
  exact pr_bind (pr_ensure _ _) fun _ =>
    pr_bind (pr_ensure _ _) fun _ =>
      pr_okOr_bind fun newFA _ =>
        pr_okOr_bind fun newF _ =>
          pr_bind (casr_pr _ _ _ _) fun _ =>
            pr_bind (pr_modify fun t ht => repInv_putSocialAccount _ _ ht hrep1) fun _ =>
              pr_bind (pr_modify fun t ht => repInv_putSocialAccount _ _ ht hrep2) fun _ =>
                pr_bind (pr_modify_sa fun _ => rfl) fun _ =>
                  pr_bind (pr_modify_sa fun _ => rfl) fun _ =>
                    pr_bind (pr_modify_sa fun _ => rfl) fun _ => pr_event _

theorem unfollow_account_pr (follower account : Nat) :
    PreservesRI (unfollow_account follower account) := by
  unfold unfollow_account
  refine pr_getSt_bind ?_
  intro s hs
  refine (?_ : PreservesRI _) s hs
  refine pr_bind (pr_ensure _ _) ?_
  intro _
  refine pr_okOr_bind ?_
  intro sa1 hsa1
  refine pr_okOr_bind ?_
  intro sa2 hsa2
  have hrep1 : 1 ≤ sa1.reputation := hs follower sa1 hsa1
  have hrep2 : 1 ≤ sa2.reputation := hs account sa2 hsa2
  exact pr_bind (pr_ensure _ _) fun _ =>
    pr_okOr_bind fun newFA _ =>
      pr_okOr_bind fun newF _ =>
        pr_okOr_bind fun rd _ =>
          pr_bind (casr_pr _ _ _ _) fun _ =>
            pr_bind (pr_modify fun t ht => repInv_putSocialAccount _ _ ht hrep1) fun _ =>
              pr_bind (pr_modify fun t ht => repInv_putSocialAccount _ _ ht hrep2) fun _ =>
                pr_bind (pr_modify_sa fun _ => rfl) fun _ =>
                  pr_bind (pr_modify_sa fun _ => rfl) fun _ =>
                    pr_bind (pr_modify_sa fun _ => rfl) fun _ => pr_event _

theorem create_post_pr (owner blog_id : Nat) (ipfs_hash : List Nat) (ext : PostExtension) :
    PreservesRI (create_post owner blog_id ipfs_hash ext) := by
  unfold create_post
  refine pr_getSt_bind ?_
  intro s hs
  refine (?_ : PreservesRI _) s hs
  refine pr_okOr_bind ?_
  intro blog _
  refine pr_okOr_bind ?_
  intro newPC _
  dsimp only []
  cases ext with
  | RegularPost =>
      exact pr_bind (is_ipfs_hash_valid_pr _) fun _ =>
        pr_bind (new_change_pr _) fun created =>
          pr_bind (pr_modify_sa fun _ => rfl) fun _ =>
            pr_bind (pr_modify_sa fun _ => rfl) fun _ =>
              pr_bind (pr_modify_sa fun _ => rfl) fun _ =>
                pr_bind (pr_modify_sa fun _ => rfl) fun _ => pr_event _
  | SharedPost post_id =>
      exact pr_okOr_bind fun p _ =>
        pr_bind (pr_ensure _ _) fun _ =>
          pr_bind (share_post_pr _ _ _) fun _ =>
            pr_bind (new_change_pr _) fun created =>
              pr_bind (pr_modify_sa fun _ => rfl) fun _ =>
                pr_bind (pr_modify_sa fun _ => rfl) fun _ =>
                  pr_bind (pr_modify_sa fun _ => rfl) fun _ =>
                    pr_bind (pr_modify_sa fun _ => rfl) fun _ => pr_event _
  | SharedComment comment_id =>
      exact pr_bind (share_comment_pr _ _ _) fun _ =>
        pr_bind (new_change_pr _) fun created =>
          pr_bind (pr_modify_sa fun _ => rfl) fun _ =>
            pr_bind (pr_modify_sa fun _ => rfl) fun _ =>
              pr_bind (pr_modify_sa fun _ => rfl) fun _ =>
                pr_bind (pr_modify_sa fun _ => rfl) fun _ => pr_event _

theorem create_comment_pr (owner post_id : Nat) (parent_id : Option Nat)
    (ipfs_hash : List Nat) : PreservesRI (create_comment owner post_id parent_id ipfs_hash) := by
  unfold create_comment
  refine pr_getSt_bind ?_
  intro s hs
  refine (?_ : PreservesRI _) s hs
  refine pr_okOr_bind ?_
  intro post _
  refine pr_bind (is_ipfs_hash_valid_pr _) ?_
  intro _
  refine pr_bind (new_change_pr _) ?_
  intro created
  refine pr_okOr_bind ?_
  intro newCC _
  refine pr_bind (cps_pr 2 owner _ ScoringAction.CreateComment) ?_
  intro p
  dsimp only []
  cases parent_id with
  | some pid =>
      exact pr_bind pr_getSt fun s' =>
        pr_okOr_bind fun parent _ =>
          pr_okOr_bind fun newDR _ =>
            pr_bind (pr_modify_sa fun _ => rfl) fun _ =>
              pr_bind (pr_modify_sa fun _ => rfl) fun _ =>
                pr_bind (pr_modify_sa fun _ => rfl) fun _ =>
                  pr_bind (pr_modify_sa fun _ => rfl) fun _ =>
                    pr_bind (pr_modify_sa fun _ => rfl) fun _ => pr_event _
  | none =>
      exact pr_bind (pr_pure _) fun _ =>
        pr_bind (pr_modify_sa fun _ => rfl) fun _ =>
          pr_bind (pr_modify_sa fun _ => rfl) fun _ =>
            pr_bind (pr_modify_sa fun _ => rfl) fun _ =>
              pr_bind (pr_modify_sa fun _ => rfl) fun _ => pr_event _

theorem create_post_reaction_pr (owner post_id : Nat) (kind : ReactionKind) :
    PreservesRI (create_post_reaction owner post_id kind) := by
  unfold create_post_reaction
  refine pr_getSt_bind ?_
  intro s hs
  refine (?_ : PreservesRI _) s hs
  refine pr_bind (pr_ensure _ _) ?_
  intro _
  refine pr_okOr_bind ?_
  intro post _
  refine pr_bind (new_reaction_pr _ _) ?_
  intro reaction_id
  dsimp only []
  cases kind with
  | Upvote =>
      exact pr_okOr_bind fun n _ =>
        pr_bind (pr_pure _) fun pa =>
          pr_ite
            (pr_bind (cps_pr 2 owner _ _) fun _ =>
              pr_bind (pr_pure _) fun _ =>
                pr_bind (pr_modify_sa fun _ => rfl) fun _ =>
                  pr_bind (pr_modify_sa fun _ => rfl) fun _ => pr_event _)
            (pr_bind (pr_modify_sa fun _ => rfl) fun _ =>
              pr_bind (pr_modify_sa fun _ => rfl) fun _ =>
                pr_bind (pr_modify_sa fun _ => rfl) fun _ => pr_event _)
  | Downvote =>
      exact pr_okOr_bind fun n _ =>
        pr_bind (pr_pure _) fun pa =>
          pr_ite
            (pr_bind (cps_pr 2 owner _ _) fun _ =>
              pr_bind (pr_pure _) fun _ =>
                pr_bind (pr_modify_sa fun _ => rfl) fun _ =>
                  pr_bind (pr_modify_sa fun _ => rfl) fun _ => pr_event _)
            (pr_bind (pr_modify_sa fun _ => rfl) fun _ =>
              pr_bind (pr_modify_sa fun _ => rfl) fun _ =>
                pr_bind (pr_modify_sa fun _ => rfl) fun _ => pr_event _)

theorem create_comment_reaction_pr (owner comment_id : Nat) (kind : ReactionKind) :
    PreservesRI (create_comment_reaction owner comment_id kind) := by
  unfold create_comment_reaction
  refine pr_getSt_bind ?_
  intro s hs
  refine (?_ : PreservesRI _) s hs
  refine pr_bind (pr_ensure _ _) ?_
  intro _
  refine pr_okOr_bind ?_
  intro comment _
  refine pr_bind (new_reaction_pr _ _) ?_
  intro reaction_id
  dsimp only []
  cases kind with
  | Upvote =>
      exact pr_okOr_bind fun n _ =>
        pr_bind (pr_pure _) fun ca =>
          pr_ite
            (pr_bind (ccs_pr 2 owner _ _) fun _ =>
              pr_bind (pr_pure _) fun _ =>
                pr_bind (pr_modify_sa fun _ => rfl) fun _ =>
                  pr_bind (pr_modify_sa fun _ => rfl) fun _ => pr_event _)
            (pr_bind (pr_modify_sa fun _ => rfl) fun _ =>
              pr_bind (pr_modify_sa fun _ => rfl) fun _ =>
                pr_bind (pr_modify_sa fun _ => rfl) fun _ => pr_event _)
  | Downvote =>
      exact pr_okOr_bind fun n _ =>
        pr_bind (pr_pure _) fun ca =>
          pr_ite
            (pr_bind (ccs_pr 2 owner _ _) fun _ =>
              pr_bind (pr_pure _) fun _ =>
                pr_bind (pr_modify_sa fun _ => rfl) fun _ =>
                  pr_bind (pr_modify_sa fun _ => rfl) fun _ => pr_event _)
            (pr_bind (pr_modify_sa fun _ => rfl) fun _ =>
              pr_bind (pr_modify_sa fun _ => rfl) fun _ =>
                pr_bind (pr_modify_sa fun _ => rfl) fun _ => pr_event _)

theorem create_profile_pr (owner : Nat) (username ipfs_hash : List Nat) :
    PreservesRI (create_profile owner username ipfs_hash) := by
  unfold create_profile
  refine pr_getSt_bind ?_
  intro s hs
  refine (?_ : PreservesRI _) s hs
  have hrep : 1 ≤ (get_or_new_social_account s owner).reputation :=
    getOrNew_rep_ge_one s owner hs
  exact pr_bind (pr_ensure _ _) fun _ =>
    pr_bind (is_username_valid_pr _) fun _ =>
      pr_bind (is_ipfs_hash_valid_pr _) fun _ =>
        pr_bind (new_change_pr _) fun created =>
          pr_bind (pr_modify_sa fun _ => rfl) fun _ =>
            pr_bind (pr_modify fun t ht => repInv_putSocialAccount _ _ ht hrep) fun _ =>
              pr_event _

set_option maxHeartbeats 2000000 in
theorem update_profile_pr (owner : Nat) (upd : ProfileUpdate) :
    PreservesRI (update_profile owner upd) := by
  unfold update_profile
  refine pr_getSt_bind ?_
  intro s hs
  refine (?_ : PreservesRI _) s hs
  refine pr_bind (pr_ensure _ _) ?_
  intro _
  refine pr_okOr_bind ?_
  intro sa hsa
  have hrep : 1 ≤ sa.reputation := hs owner sa hsa
  refine pr_okOr_bind ?_
  intro profile _
  refine pr_bind (new_change_pr _) ?_
  intro edited
  dsimp only []
  cases upd.ipfs_hash <;> cases upd.username <;>
    (repeat
      first
      | refine pr_bind ?_ (fun a => ?_)
      | refine pr_ite ?_ ?_
      | exact pr_modify_sa fun _ => rfl
      | exact pr_modify fun t ht => repInv_putSocialAccount _ _ ht hrep
      | exact pr_okOr _ _
      | exact pr_ensure _ _
      | exact pr_getSt
      | exact is_ipfs_hash_valid_pr _
      | exact is_username_valid_pr _
      | exact new_change_pr _
      | exact pr_event _
      | exact pr_pure _)

set_option maxHeartbeats 2000000 in
theorem update_blog_pr (owner blog_id : Nat) (upd : BlogUpdate) :
    PreservesRI (update_blog owner blog_id upd) := by
  unfold update_blog
  refine pr_getSt_bind ?_
  intro s hs
  refine (?_ : PreservesRI _) s hs
  refine pr_bind (pr_ensure _ _) ?_
  intro _
  refine pr_okOr_bind ?_
  intro blog _
  refine pr_bind (pr_ensure _ _) ?_
  intro _
  refine pr_bind (new_change_pr _) ?_
  intro edited
  dsimp only []
  cases upd.writers <;> cases upd.ipfs_hash <;> cases upd.slug <;>
    (repeat
      first
      | refine pr_bind ?_ (fun a => ?_)
      | refine pr_ite ?_ ?_
      | exact pr_modify_sa fun _ => rfl
      | exact pr_okOr _ _
      | exact pr_ensure _ _
      | exact pr_getSt
      | exact is_ipfs_hash_valid_pr _
      | exact new_change_pr _
      | exact pr_event _
      | exact pr_pure _)

set_option maxHeartbeats 2000000 in
theorem update_post_pr (owner post_id : Nat) (upd : PostUpdate) :
    PreservesRI (update_post owner post_id upd) := by
  unfold update_post
  refine pr_getSt_bind ?_
  intro s hs
  refine (?_ : PreservesRI _) s hs
  refine pr_bind (pr_ensure _ _) ?_
  intro _
  refine pr_okOr_bind ?_
  intro post _
  refine pr_bind (pr_ensure _ _) ?_
  intro _
  refine pr_bind (new_change_pr _) ?_
  intro edited
  dsimp only []
  cases upd.ipfs_hash <;> cases upd.blog_id <;>
    (repeat
      first
      | refine pr_bind ?_ (fun a => ?_)
      | refine pr_ite ?_ ?_
      | exact pr_modify_sa fun _ => rfl
      | exact pr_okOr _ _
      | exact pr_ensure _ _
      | exact pr_getSt
      | exact is_ipfs_hash_valid_pr _
      | exact ensure_blog_exists_pr _
      | exact new_change_pr _
      | exact pr_event _
      | exact pr_pure _)

theorem update_comment_pr (owner comment_id : Nat) (upd : CommentUpdate) :
    PreservesRI (update_comment owner comment_id upd) := by
  unfold update_comment
  refine pr_getSt_bind ?_
  intro s hs
  refine (?_ : PreservesRI _) s hs
  exact pr_okOr_bind fun comment _ =>
    pr_bind (pr_ensure _ _) fun _ =>
      pr_bind (pr_ensure _ _) fun _ =>
        pr_bind (is_ipfs_hash_valid_pr _) fun _ =>
          pr_bind (new_change_pr _) fun edited =>
            pr_bind (new_change_pr _) fun updChange =>
              pr_bind (pr_modify_sa fun _ => rfl) fun _ => pr_event _

theorem update_post_reaction_pr (owner post_id reaction_id : Nat) (new_kind : ReactionKind) :
    PreservesRI (update_post_reaction owner post_id reaction_id new_kind) := by
  unfold update_post_reaction
  refine pr_getSt_bind ?_
  intro s hs
  refine (?_ : PreservesRI _) s hs
  exact pr_bind (pr_ensure _ _) fun _ =>
    pr_okOr_bind fun reaction _ =>
      pr_okOr_bind fun post _ =>
        pr_bind (pr_ensure _ _) fun _ =>
          pr_bind (pr_ensure _ _) fun _ =>
            pr_bind (new_change_pr _) fun updChange =>
              pr_bind (pr_modify_sa fun _ => rfl) fun _ =>
                pr_bind (pr_modify_sa fun _ => rfl) fun _ => pr_event _

theorem update_comment_reaction_pr (owner comment_id reaction_id : Nat)
    (new_kind : ReactionKind) :
    PreservesRI (update_comment_reaction owner comment_id reaction_id new_kind) := by
  unfold update_comment_reaction
  refine pr_getSt_bind ?_
  intro s hs
  refine (?_ : PreservesRI _) s hs
  exact pr_bind (pr_ensure _ _) fun _ =>
    pr_okOr_bind fun reaction _ =>
      pr_okOr_bind fun comment _ =>
        pr_bind (pr_ensure _ _) fun _ =>
          pr_bind (pr_ensure _ _) fun _ =>
            pr_bind (new_change_pr _) fun updChange =>
              pr_bind (pr_modify_sa fun _ => rfl) fun _ =>
                pr_bind (pr_modify_sa fun _ => rfl) fun _ => pr_event _

theorem delete_post_reaction_pr (owner post_id reaction_id : Nat) :
    PreservesRI (delete_post_reaction owner post_id reaction_id) := by
  unfold delete_post_reaction
  refine pr_getSt_bind ?_
  intro s hs
  refine (?_ : PreservesRI _) s hs
  exact pr_bind (pr_ensure _ _) fun _ =>
    pr_okOr_bind fun reaction _ =>
      pr_okOr_bind fun post _ =>
        pr_bind (pr_ensure _ _) fun _ =>
          pr_bind (pr_modify_sa fun _ => rfl) fun _ =>
            pr_bind (pr_modify_sa fun _ => rfl) fun _ =>
              pr_bind (pr_modify_sa fun _ => rfl) fun _ =>
                pr_bind (pr_modify_sa fun _ => rfl) fun _ => pr_event _

theorem delete_comment_reaction_pr (owner comment_id reaction_id : Nat) :
    PreservesRI (delete_comment_reaction owner comment_id reaction_id) := by
  unfold delete_comment_reaction
  refine pr_getSt_bind ?_
  intro s hs
  refine (?_ : PreservesRI _) s hs
  exact pr_bind (pr_ensure _ _) fun _ =>
    pr_okOr_bind fun reaction _ =>
      pr_okOr_bind fun comment _ =>
        pr_bind (pr_ensure _ _) fun _ =>
          pr_bind (pr_modify_sa fun _ => rfl) fun _ =>
            pr_bind (pr_modify_sa fun _ => rfl) fun _ =>
              pr_bind (pr_modify_sa fun _ => rfl) fun _ =>
                pr_bind (pr_modify_sa fun _ => rfl) fun _ => pr_event _

theorem op_run_pr (op : Op) : PreservesRI (Op.run op) := by
  cases op with
  | CreateBlog owner slug ipfs_hash => exact create_blog_pr owner slug ipfs_hash
  | FollowBlog follower blog_id => exact follow_blog_pr follower blog_id
  | UnfollowBlog follower blog_id => exact unfollow_blog_pr follower blog_id
  | FollowAccount follower account => exact follow_account_pr follower account
  | UnfollowAccount follower account => exact unfollow_account_pr follower account
  | CreatePost owner blog_id ipfs_hash ext => exact create_post_pr owner blog_id ipfs_hash ext
  | CreateComment owner post_id parent_id ipfs_hash =>
      exact create_comment_pr owner post_id parent_id ipfs_hash
  | CreatePostReaction owner post_id kind => exact create_post_reaction_pr owner post_id kind
  | CreateCommentReaction owner comment_id kind =>
      exact create_comment_reaction_pr owner comment_id kind
  | CreateProfile owner username ipfs_hash => exact create_profile_pr owner username ipfs_hash
  | UpdateProfile owner upd => exact update_profile_pr owner upd
  | UpdateBlog owner blog_id upd => exact update_blog_pr owner blog_id upd
  | UpdatePost owner post_id upd => exact update_post_pr owner post_id upd
  | UpdateComment owner comment_id upd => exact update_comment_pr owner comment_id upd
  | UpdatePostReaction owner post_id reaction_id new_kind =>
      exact update_post_reaction_pr owner post_id reaction_id new_kind
  | UpdateCommentReaction owner comment_id reaction_id new_kind =>
      exact update_comment_reaction_pr owner comment_id reaction_id new_kind
  | DeletePostReaction owner post_id reaction_id =>
      exact delete_post_reaction_pr owner post_id reaction_id
  | DeleteCommentReaction owner comment_id reaction_id =>
      exact delete_comment_reaction_pr owner comment_id reaction_id

theorem runOps_repInv : ∀ (ops : List Op) (s : St), RepInv s → RepInv (runOps ops s) := by
  intro ops
  induction ops with
  | nil => intro s h; exact h
  | cons op rest ih =>
      intro s h
      exact ih _ (op_run_pr op s h)

theorem casr_clamp (account scorer : Nat) (d : Int) (act : ScoringAction) (s : St)
    (h : ((get_or_new_social_account s account).reputation : Int) + d ≤ 1) :
    ∃ sa, (change_social_account_reputation account scorer d act s).2.socialAccountById
        account = some sa ∧ sa.reputation = 1 := by
  unfold change_social_account_reputation
  by_cases htog : (s.accountReputationDiffByAccount (scorer, account, act)).isSome = true <;>
    simp [h, htog, checkedAddU32, St.putSocialAccount, St.insRepDiff, St.rmRepDiff,
      mapInsert, mapRemove]

/-! ## Checked-arithmetic evaluation lemmas -/

theorem checkedAddI32_some (x y : Int) (h : -2147483648 ≤ x + y ∧ x + y < 2147483648) :
    checkedAddI32 x y = some (x + y) := by
  unfold checkedAddI32
  exact if_pos h

theorem checkedSubI32_some (x y : Int) (h : -2147483648 ≤ x - y ∧ x - y < 2147483648) :
    checkedSubI32 x y = some (x - y) := by
  unfold checkedSubI32
  exact if_pos h

theorem checkedAddU16_some (x y : Nat) (h : x + y < 65536) :
    checkedAddU16 x y = some (x + y) := by
  unfold checkedAddU16
  exact if_pos h

theorem checkedSubU16_some (x y : Nat) (h : y ≤ x) :
    checkedSubU16 x y = some (x - y) := by
  unfold checkedSubU16
  exact if_pos h

theorem checkedAddU32_some (x y : Nat) (h : x + y < 4294967296) :
    checkedAddU32 x y = some (x + y) := by
  unfold checkedAddU32
  exact if_pos h

theorem checkedSubU32_some (x y : Nat) (h : y ≤ x) :
    checkedSubU32 x y = some (x - y) := by
  unfold checkedSubU32
  exact if_pos h

/-! ## Single-call evaluation of the scoring helpers -/

/-- Full evaluation of `change_social_account_reputation` when the clamp at
the floor does not fire and the applied diff stays inside `u32`. -/
theorem casr_run (account scorer : Nat) (d : Int) (act : ScoringAction) (s : St)
    (hnc : ¬ ((get_or_new_social_account s account).reputation : Int) + d ≤ 1)
    (hov : ((get_or_new_social_account s account).reputation : Int) + d < 4294967296) :
    change_social_account_reputation account scorer d act s =
      (Except.ok (), casrResultState account scorer d act s) := by
  unfold change_social_account_reputation casrResultState
  by_cases hd : d < 0
  · have hsub : -d ≤ ((get_or_new_social_account s account).reputation : Int) := by omega
    have hrep : (get_or_new_social_account s account).reputation - (-d).toNat
        = (((get_or_new_social_account s account).reputation : Int) + d).toNat := by omega
    by_cases htog : (s.accountReputationDiffByAccount (scorer, account, act)).isSome <;>
      simp [hnc, hd, htog, checkedSubU32, hsub, hrep]
  · have hadd : (((get_or_new_social_account s account).reputation : Int) + d).toNat
        < 4294967296 := by omega
    have hrep : (get_or_new_social_account s account).reputation + d.toNat
        = (((get_or_new_social_account s account).reputation : Int) + d).toNat := by omega
    by_cases htog : (s.accountReputationDiffByAccount (scorer, account, act)).isSome <;>
      simp [hnc, hd, htog, checkedAddU32, hadd, hrep]

/-- Full evaluation of the apply branch of `change_post_score`: the actor is
not the creator, there is no prior ledger entry for the action and no
opposite vote to auto-cancel, and the checked arithmetic stays in bounds. -/
theorem cps_apply (fuel a : Nat) (post : Post) (act : ScoringAction) (s : St) (blog : Blog)
    (hb : s.blogById post.blog_id = some blog)
    (hna : post.created.account ≠ a)
    (hent : s.postScoreByAccount (a, post.id, act) = none)
    (hopp : oppClear s a post.id act)
    (hps : -2147483648 ≤ post.score +
        get_score_diff s (get_or_new_social_account s a).reputation act ∧
      post.score + get_score_diff s (get_or_new_social_account s a).reputation act
        < 2147483648)
    (hbs : -2147483648 ≤ blog.score +
        get_score_diff s (get_or_new_social_account s a).reputation act ∧
      blog.score + get_score_diff s (get_or_new_social_account s a).reputation act
        < 2147483648)
    (hnc : ¬ ((get_or_new_social_account s post.created.account).reputation : Int) +
        get_score_diff s (get_or_new_social_account s a).reputation act ≤ 1)
    (hov : ((get_or_new_social_account s post.created.account).reputation : Int) +
        get_score_diff s (get_or_new_social_account s a).reputation act < 4294967296) :
    change_post_score (fuel + 1) a post act s =
      (Except.ok { post with
          score := post.score + get_score_diff s (get_or_new_social_account s a).reputation act },
        cpsApplyState a post act s blog) := by
  have hcr := casr_run post.created.account a
    (get_score_diff s (get_or_new_social_account s a).reputation act) act s hnc hov
  have e1 := checkedAddI32_some post.score
    (get_score_diff s (get_or_new_social_account s a).reputation act) hps
  have e2 := checkedAddI32_some blog.score
    (get_score_diff s (get_or_new_social_account s a).reputation act) hbs
  cases act <;> simp only [oppClear] at hopp <;>
    simp [change_post_score, cpsApplyState, hb, hna, hent, hopp, e1, e2, hcr]

/-- Full evaluation of the reversal branch of `change_post_score`: a prior
ledger entry `d` and an in-effect reputation-diff entry `rd` exist and the
checked arithmetic stays in bounds; the reversal subtracts exactly the
recorded diffs. -/
theorem cps_revert (fuel a : Nat) (post : Post) (act : ScoringAction) (s : St) (blog : Blog)
    (d rd : Int)
    (hb : s.blogById post.blog_id = some blog)
    (hna : post.created.account ≠ a)
    (hent : s.postScoreByAccount (a, post.id, act) = some d)
    (hrd : s.accountReputationDiffByAccount (a, post.created.account, act) = some rd)
    (hps : -2147483648 ≤ post.score + d * -1 ∧ post.score + d * -1 < 2147483648)
    (hbs : -2147483648 ≤ blog.score + d * -1 ∧ blog.score + d * -1 < 2147483648)
    (hnc : ¬ ((get_or_new_social_account s post.created.account).reputation : Int) + rd * -1 ≤ 1)
    (hov : ((get_or_new_social_account s post.created.account).reputation : Int) + rd * -1
        < 4294967296) :
    change_post_score (fuel + 1) a post act s =
      (Except.ok { post with score := post.score + d * -1 },
        cpsRevertState a post act s blog d rd) := by
  have hcr := casr_run post.created.account a (-rd) act s (by omega) (by omega)
  have e1 : checkedAddI32 post.score (-d) = some (post.score + -d) :=
    checkedAddI32_some post.score (-d) (by omega)
  have e2 : checkedAddI32 blog.score (-d) = some (blog.score + -d) :=
    checkedAddI32_some blog.score (-d) (by omega)
  simp [change_post_score, cpsRevertState, hb, hna, hent, hrd, e1, e2, hcr]

/-- A fresh scoring action through the caller-style wrapper
`change_stored_post_score`: characterization of everything the call leaves
in storage. -/
theorem csps_fresh (a pid : Nat) (act : ScoringAction) (s : St) (blog : Blog) (p : Post)
    (g : Int) (rc : Nat)
    (hgdef : g = get_score_diff s (get_or_new_social_account s a).reputation act)
    (hrcdef : rc = (get_or_new_social_account s p.created.account).reputation)
    (hp : s.postById pid = some p)
    (hpid : p.id = pid)
    (hb : s.blogById p.blog_id = some blog)
    (hna : p.created.account ≠ a)
    (hent : s.postScoreByAccount (a, pid, act) = none)
    (hopp : oppClear s a pid act)
    (hrd : s.accountReputationDiffByAccount (a, p.created.account, act) = none)
    (hps : -2147483648 ≤ p.score + g ∧ p.score + g < 2147483648)
    (hbs : -2147483648 ≤ blog.score + g ∧ blog.score + g < 2147483648)
    (hnc : ¬ (rc : Int) + g ≤ 1)
    (hov : (rc : Int) + g < 4294967296) :
    (change_stored_post_score a pid act s).1 = Except.ok ()
    ∧ (change_stored_post_score a pid act s).2.postById pid
        = some { p with score := p.score + g }
    ∧ (change_stored_post_score a pid act s).2.blogById p.blog_id
        = some { blog with score := blog.score + g }
    ∧ (change_stored_post_score a pid act s).2.postScoreByAccount (a, pid, act) = some g
    ∧ (∀ k, k ≠ (a, pid, act) →
        (change_stored_post_score a pid act s).2.postScoreByAccount k
          = s.postScoreByAccount k)
    ∧ (change_stored_post_score a pid act s).2.accountReputationDiffByAccount
        (a, p.created.account, act) = some g
    ∧ (∀ k, k ≠ (a, p.created.account, act) →
        (change_stored_post_score a pid act s).2.accountReputationDiffByAccount k
          = s.accountReputationDiffByAccount k)
    ∧ (change_stored_post_score a pid act s).2.socialAccountById p.created.account
        = some { get_or_new_social_account s p.created.account with
                 reputation := ((rc : Int) + g).toNat }
    ∧ (∀ x, x ≠ p.created.account →
         (change_stored_post_score a pid act s).2.socialAccountById x
           = s.socialAccountById x)
    ∧ (∀ act2, weight_of_scoring_action (change_stored_post_score a pid act s).2 act2
         = weight_of_scoring_action s act2) := by
  subst hgdef hrcdef
  subst hpid
  have hrun := cps_apply 1 a p act s blog hb hna hent hopp hps hbs hnc hov
  refine ⟨?_, ?_, ?_, ?_, ?_, ?_, ?_, ?_, ?_, ?_⟩
  · unfold change_stored_post_score
    simp [hp, hrun]
  · unfold change_stored_post_score
    simp [hp, hrun, cpsApplyState, casrResultState, hrd, St.insPostScore, St.putPost,
      St.putBlog, St.insRepDiff, St.putSocialAccount, mapInsert]
  · unfold change_stored_post_score
    simp [hp, hrun, cpsApplyState, casrResultState, hrd, St.insPostScore, St.putPost,
      St.putBlog, St.insRepDiff, St.putSocialAccount, mapInsert]
  · unfold change_stored_post_score
    simp [hp, hrun, cpsApplyState, casrResultState, hrd, St.insPostScore, St.putPost,
      St.putBlog, St.insRepDiff, St.putSocialAccount, mapInsert]
  · intro k hk
    unfold change_stored_post_score
    simp [hp, hrun, cpsApplyState, casrResultState, hrd, St.insPostScore, St.putPost,
      St.putBlog, St.insRepDiff, St.putSocialAccount, mapInsert, hk]
  · unfold change_stored_post_score
    simp [hp, hrun, cpsApplyState, casrResultState, hrd, St.insPostScore, St.putPost,
      St.putBlog, St.insRepDiff, St.putSocialAccount, mapInsert]
  · intro k hk
    unfold change_stored_post_score
    simp [hp, hrun, cpsApplyState, casrResultState, hrd, St.insPostScore, St.putPost,
      St.putBlog, St.insRepDiff, St.putSocialAccount, mapInsert, hk]
  · unfold change_stored_post_score
    simp [hp, hrun, cpsApplyState, casrResultState, hrd, St.insPostScore, St.putPost,
      St.putBlog, St.insRepDiff, St.putSocialAccount, mapInsert]
  · intro x hx
    unfold change_stored_post_score
    simp [hp, hrun, cpsApplyState, casrResultState, hrd, St.insPostScore, St.putPost,
      St.putBlog, St.insRepDiff, St.putSocialAccount, mapInsert, hx]
  · intro act2
    unfold change_stored_post_score
    cases act2 <;>
      simp [hp, hrun, cpsApplyState, casrResultState, hrd, St.insPostScore, St.putPost,
        St.putBlog, St.insRepDiff, St.putSocialAccount, mapInsert, weight_of_scoring_action]

/-- An in-effect scoring action reversed through the caller-style wrapper:
the reversal is applied from the recorded ledger diffs `d` (post and blog
score) and `rd` (reputation), not recomputed. -/
theorem csps_revert_run (a pid : Nat) (act : ScoringAction) (s : St) (blog : Blog) (p : Post)
    (d rd : Int) (rc : Nat)
    (hrcdef : rc = (get_or_new_social_account s p.created.account).reputation)
    (hp : s.postById pid = some p)
    (hpid : p.id = pid)
    (hb : s.blogById p.blog_id = some blog)
    (hna : p.created.account ≠ a)
    (hent : s.postScoreByAccount (a, pid, act) = some d)
    (hrd : s.accountReputationDiffByAccount (a, p.created.account, act) = some rd)
    (hps : -2147483648 ≤ p.score - d ∧ p.score - d < 2147483648)
    (hbs : -2147483648 ≤ blog.score - d ∧ blog.score - d < 2147483648)
    (hnc : ¬ (rc : Int) - rd ≤ 1)
    (hov : (rc : Int) - rd < 4294967296) :
    (change_stored_post_score a pid act s).1 = Except.ok ()
    ∧ (change_stored_post_score a pid act s).2.postById pid
        = some { p with score := p.score - d }
    ∧ (change_stored_post_score a pid act s).2.blogById p.blog_id
        = some { blog with score := blog.score - d }
    ∧ (change_stored_post_score a pid act s).2.postScoreByAccount (a, pid, act) = none
    ∧ (change_stored_post_score a pid act s).2.accountReputationDiffByAccount
        (a, p.created.account, act) = none
    ∧ (change_stored_post_score a pid act s).2.socialAccountById p.created.account
        = some { get_or_new_social_account s p.created.account with
                 reputation := ((rc : Int) - rd).toNat } := by
  subst hrcdef
  subst hpid
  have hrun := cps_revert 1 a p act s blog d rd hb hna hent hrd
    (by constructor <;> omega) (by constructor <;> omega) (by omega) (by omega)
  refine ⟨?_, ?_, ?_, ?_, ?_, ?_⟩ <;>
    · unfold change_stored_post_score
      simp [hp, hrun, cpsRevertState, casrResultState, hrd, St.rmPostScore, St.putPost,
        St.putBlog, St.rmRepDiff, St.putSocialAccount, mapInsert, mapRemove, sub_eq_add_neg]

/-- A stored social account is what `get_or_new_social_account` returns. -/
theorem getOrNew_of_eq {s' : St} {x : Nat} {sa : SocialAccount}
    (h : s'.socialAccountById x = some sa) : get_or_new_social_account s' x = sa := by
  unfold get_or_new_social_account
  rw [h]

/-- `get_or_new_social_account` only depends on the stored record. -/
theorem getOrNew_congr {s1 s2 : St} {x : Nat}
    (h : s1.socialAccountById x = s2.socialAccountById x) :
    get_or_new_social_account s1 x = get_or_new_social_account s2 x := by
  unfold get_or_new_social_account
  rw [h]

/-- `get_score_diff` only depends on the reputation and the action weight. -/
theorem get_score_diff_congr {s1 s2 : St} {r1 r2 : Nat} {act : ScoringAction}
    (hr : r1 = r2)
    (hw : weight_of_scoring_action s1 act = weight_of_scoring_action s2 act) :
    get_score_diff s1 r1 act = get_score_diff s2 r2 act := by
  unfold get_score_diff
  rw [hr, hw]

/-- A downvote through the caller-style wrapper while an upvote by the same
actor is in effect: the upvote is auto-cancelled from the recorded ledger
diffs, then the downvote is applied, leaving only the downvote entry and
only the downvote displacement on the post score. -/
theorem csps_down_after_up (a pid : Nat) (s : St) (blog : Blog) (p : Post)
    (d rd g2 : Int) (rc : Nat)
    (hg2def : g2 = get_score_diff s (get_or_new_social_account s a).reputation
        ScoringAction.DownvotePost)
    (hrcdef : rc = (get_or_new_social_account s p.created.account).reputation)
    (hp : s.postById pid = some p)
    (hpid : p.id = pid)
    (hb : s.blogById p.blog_id = some blog)
    (hna : p.created.account ≠ a)
    (hdn : s.postScoreByAccount (a, pid, ScoringAction.DownvotePost) = none)
    (hup : s.postScoreByAccount (a, pid, ScoringAction.UpvotePost) = some d)
    (hrdu : s.accountReputationDiffByAccount (a, p.created.account, ScoringAction.UpvotePost)
        = some rd)
    (hrdd : s.accountReputationDiffByAccount (a, p.created.account, ScoringAction.DownvotePost)
        = none)
    (hps1 : -2147483648 ≤ p.score - d ∧ p.score - d < 2147483648)
    (hbs1 : -2147483648 ≤ blog.score - d ∧ blog.score - d < 2147483648)
    (hps2 : -2147483648 ≤ p.score - d + g2 ∧ p.score - d + g2 < 2147483648)
    (hbs2 : -2147483648 ≤ blog.score + g2 ∧ blog.score + g2 < 2147483648)
    (hnc1 : ¬ (rc : Int) - rd ≤ 1) (hov1 : (rc : Int) - rd < 4294967296)
    (hnc2 : ¬ (rc : Int) - rd + g2 ≤ 1) (hov2 : (rc : Int) - rd + g2 < 4294967296) :
    (change_stored_post_score a pid ScoringAction.DownvotePost s).1 = Except.ok ()
    ∧ (change_stored_post_score a pid ScoringAction.DownvotePost s).2.postScoreByAccount
        (a, pid, ScoringAction.DownvotePost) = some g2
    ∧ (change_stored_post_score a pid ScoringAction.DownvotePost s).2.postScoreByAccount
        (a, pid, ScoringAction.UpvotePost) = none
    ∧ ((change_stored_post_score a pid ScoringAction.DownvotePost s).2.postById pid).map
        Post.score = some (p.score - d + g2) := by
  subst hg2def hrcdef
  subst hpid
  have hcr1 := casr_run p.created.account a (-rd) ScoringAction.UpvotePost s
    (by omega) (by omega)
  have e1 : checkedAddI32 p.score (-d) = some (p.score + -d) :=
    checkedAddI32_some p.score (-d) (by omega)
  have e2 : checkedAddI32 blog.score (-d) = some (blog.score + -d) :=
    checkedAddI32_some blog.score (-d) (by omega)
  have e3 : checkedAddI32 (p.score + -d)
      (get_score_diff s (get_or_new_social_account s a).reputation
        ScoringAction.DownvotePost)
      = some (p.score + -d +
        get_score_diff s (get_or_new_social_account s a).reputation
          ScoringAction.DownvotePost) :=
    checkedAddI32_some _ _ (by constructor <;> omega)
  have e4 : checkedAddI32 blog.score
      (get_score_diff s (get_or_new_social_account s a).reputation
        ScoringAction.DownvotePost)
      = some (blog.score +
        get_score_diff s (get_or_new_social_account s a).reputation
          ScoringAction.DownvotePost) :=
    checkedAddI32_some _ _ (by constructor <;> omega)
  have hsaU : ((((casrResultState p.created.account a (-rd) ScoringAction.UpvotePost
        s).rmPostScore (a, p.id, ScoringAction.UpvotePost)).putPost p.id
          { p with score := p.score + -d }).putBlog p.blog_id
            { blog with score := blog.score + -d }).socialAccountById p.created.account
      = some { get_or_new_social_account s p.created.account with
          reputation := (((get_or_new_social_account s p.created.account).reputation : Int)
            + -rd).toNat } := by
    simp [casrResultState, hrdu, St.putBlog, St.putPost, St.rmPostScore,
      St.putSocialAccount, St.rmRepDiff, mapInsert, mapRemove]
  have hcr2 := casr_run p.created.account a
    (get_score_diff s (get_or_new_social_account s a).reputation ScoringAction.DownvotePost)
    ScoringAction.DownvotePost
    ((((casrResultState p.created.account a (-rd) ScoringAction.UpvotePost
        s).rmPostScore (a, p.id, ScoringAction.UpvotePost)).putPost p.id
          { p with score := p.score + -d }).putBlog p.blog_id
            { blog with score := blog.score + -d })
    (by rw [getOrNew_of_eq hsaU]; dsimp only []; omega)
    (by rw [getOrNew_of_eq hsaU]; dsimp only []; omega)
  refine ⟨?_, ?_, ?_, ?_⟩ <;>
    · unfold change_stored_post_score
      simp only [change_post_score, bind_apply, pure_apply, getSt_apply, modifySt_apply,
        throwErr_apply, ensureE_apply, okOr_apply, depositEvent_apply, hp, hb, hna, hdn,
        hup, hrdu, e1, e2, e3, e4, hcr1, hcr2, ne_eq, not_false_iff, ite_true, ite_false,
        Option.isSome_some, mul_neg_one, if_true, if_false]
      try simp [casrResultState, hrdu, hrdd, St.insPostScore, St.rmPostScore, St.putPost,
        St.putBlog, St.putSocialAccount, St.insRepDiff, St.rmRepDiff, mapInsert, mapRemove,
        sub_eq_add_neg]

/-- First share of a regular post by an actor (`create_post` with a
`SharedPost` extension, no per-account share counter yet): both share
counters are set and the SharePost scoring effect is applied. -/
theorem create_post_shared_first (a bid opid : Nat) (ih : List Nat) (s : St)
    (blog : Blog) (p : Post) (g : Int) (rc : Nat)
    (hgdef : g = get_score_diff s (get_or_new_social_account s a).reputation
        ScoringAction.SharePost)
    (hrcdef : rc = (get_or_new_social_account s p.created.account).reputation)
    (hb : s.blogById bid = some blog)
    (hp : s.postById opid = some p)
    (hpid : p.id = opid)
    (hpb : p.blog_id = bid)
    (hreg : p.extension = PostExtension.RegularPost)
    (hna : p.created.account ≠ a)
    (hshare : s.postSharesByAccount (a, opid) = none)
    (hent : s.postScoreByAccount (a, opid, ScoringAction.SharePost) = none)
    (hrd : s.accountReputationDiffByAccount (a, p.created.account, ScoringAction.SharePost)
        = none)
    (hnp : s.nextPostId ≠ opid)
    (hpc : blog.posts_count + 1 < 65536)
    (hsc : p.shares_count + 1 < 65536)
    (hps : -2147483648 ≤ p.score + g ∧ p.score + g < 2147483648)
    (hbs : -2147483648 ≤ blog.score + g ∧ blog.score + g < 2147483648)
    (hnc : ¬ (rc : Int) + g ≤ 1)
    (hov : (rc : Int) + g < 4294967296) :
    (create_post a bid ih (PostExtension.SharedPost opid) s).1 = Except.ok ()
    ∧ (create_post a bid ih (PostExtension.SharedPost opid) s).2.blogById bid
        = some { blog with posts_count := blog.posts_count + 1 }
    ∧ (create_post a bid ih (PostExtension.SharedPost opid) s).2.postById opid
        = some { p with shares_count := p.shares_count + 1, score := p.score + g }
    ∧ (create_post a bid ih (PostExtension.SharedPost opid) s).2.postSharesByAccount (a, opid)
        = some 1
    ∧ (create_post a bid ih (PostExtension.SharedPost opid) s).2.postScoreByAccount
        (a, opid, ScoringAction.SharePost) = some g
    ∧ (create_post a bid ih (PostExtension.SharedPost opid) s).2.socialAccountById
        p.created.account
        = some { get_or_new_social_account s p.created.account with
                 reputation := ((rc : Int) + g).toNat }
    ∧ (∀ x, x ≠ p.created.account →
        (create_post a bid ih (PostExtension.SharedPost opid) s).2.socialAccountById x
          = s.socialAccountById x)
    ∧ (create_post a bid ih (PostExtension.SharedPost opid) s).2.nextPostId
        = s.nextPostId + 1 := by
  subst hgdef hrcdef
  subst hpid hpb
  have hnp2 : p.id ≠ s.nextPostId := fun h => hnp h.symm
  have ea1 : checkedAddU16 blog.posts_count 1 = some (blog.posts_count + 1) :=
    checkedAddU16_some _ _ hpc
  have ea2 : checkedAddU16 p.shares_count 1 = some (p.shares_count + 1) :=
    checkedAddU16_some _ _ hsc
  have ea0 : checkedAddU16 0 1 = some 1 := by decide
  have hrun := cps_apply 1 a
    { p with shares_count := p.shares_count + 1, extension := PostExtension.RegularPost }
    ScoringAction.SharePost s blog hb hna hent trivial hps hbs hnc hov
  refine ⟨?_, ?_, ?_, ?_, ?_, ?_, ?_, ?_⟩
  · unfold create_post share_post
    simp [hp, hb, hreg, hshare, ea0, ea1, ea2, hrun, new_change]
  · unfold create_post share_post
    simp [hp, hb, hreg, hshare, ea0, ea1, ea2, hrun, new_change, cpsApplyState,
      casrResultState, hrd, St.insPostScore, St.putPost, St.putBlog, St.insRepDiff,
      St.putSocialAccount, St.insPostShares, mapInsert, mapMutate, hnp, hnp2]
  · unfold create_post share_post
    simp [hp, hb, hreg, hshare, ea0, ea1, ea2, hrun, new_change, cpsApplyState,
      casrResultState, hrd, St.insPostScore, St.putPost, St.putBlog, St.insRepDiff,
      St.putSocialAccount, St.insPostShares, mapInsert, mapMutate, hnp, hnp2]
  · unfold create_post share_post
    simp [hp, hb, hreg, hshare, ea0, ea1, ea2, hrun, new_change, cpsApplyState,
      casrResultState, hrd, St.insPostScore, St.putPost, St.putBlog, St.insRepDiff,
      St.putSocialAccount, St.insPostShares, mapInsert, mapMutate, hnp, hnp2]
  · unfold create_post share_post
    simp [hp, hb, hreg, hshare, ea0, ea1, ea2, hrun, new_change, cpsApplyState,
      casrResultState, hrd, St.insPostScore, St.putPost, St.putBlog, St.insRepDiff,
      St.putSocialAccount, St.insPostShares, mapInsert, mapMutate, hnp, hnp2]
  · unfold create_post share_post
    simp [hp, hb, hreg, hshare, ea0, ea1, ea2, hrun, new_change, cpsApplyState,
      casrResultState, hrd, St.insPostScore, St.putPost, St.putBlog, St.insRepDiff,
      St.putSocialAccount, St.insPostShares, mapInsert, mapMutate, hnp, hnp2]
  · intro x hx
    unfold create_post share_post
    simp [hp, hb, hreg, hshare, ea0, ea1, ea2, hrun, new_change, cpsApplyState,
      casrResultState, hrd, St.insPostScore, St.putPost, St.putBlog, St.insRepDiff,
      St.putSocialAccount, St.insPostShares, mapInsert, mapMutate, hnp, hnp2, hx]
  · unfold create_post share_post
    simp [hp, hb, hreg, hshare, ea0, ea1, ea2, hrun, new_change, cpsApplyState,
      casrResultState, hrd, St.insPostScore, St.putPost, St.putBlog, St.insRepDiff,
      St.putSocialAccount, St.insPostShares, mapInsert, mapMutate, hnp, hnp2]

/-- A repeat share of the same original post by the same actor: the share
counters advance but no scoring runs (the per-account counter is already
set, so the `== 1` guard fails) — the score ledger, reputation ledger and
social accounts are untouched. -/
theorem create_post_shared_again (a bid : Nat) (ih : List Nat) (s : St)
    (blog : Blog) (p : Post) (n : Nat)
    (hb : s.blogById bid = some blog)
    (hp : s.postById p.id = some p)
    (hreg : p.extension = PostExtension.RegularPost)
    (hshare : s.postSharesByAccount (a, p.id) = some n)
    (hn : 1 ≤ n)
    (hn16 : n + 1 < 65536)
    (hpc : blog.posts_count + 1 < 65536)
    (hsc : p.shares_count + 1 < 65536)
    (hnp : s.nextPostId ≠ p.id) :
    (create_post a bid ih (PostExtension.SharedPost p.id) s).1 = Except.ok ()
    ∧ (create_post a bid ih (PostExtension.SharedPost p.id) s).2.postById p.id
        = some { p with shares_count := p.shares_count + 1 }
    ∧ (create_post a bid ih (PostExtension.SharedPost p.id) s).2.postSharesByAccount (a, p.id)
        = some (n + 1)
    ∧ (create_post a bid ih (PostExtension.SharedPost p.id) s).2.postScoreByAccount
        = s.postScoreByAccount
    ∧ (create_post a bid ih (PostExtension.SharedPost p.id) s).2.socialAccountById
        = s.socialAccountById
    ∧ (create_post a bid ih (PostExtension.SharedPost p.id) s).2.accountReputationDiffByAccount
        = s.accountReputationDiffByAccount := by
  have hnp2 : p.id ≠ s.nextPostId := fun h => hnp h.symm
  have ea1 : checkedAddU16 blog.posts_count 1 = some (blog.posts_count + 1) :=
    checkedAddU16_some _ _ hpc
  have ea2 : checkedAddU16 p.shares_count 1 = some (p.shares_count + 1) :=
    checkedAddU16_some _ _ hsc
  have ea0 : checkedAddU16 n 1 = some (n + 1) := checkedAddU16_some _ _ hn16
  have hne1 : ¬ (n + 1 = 1) := by omega
  refine ⟨?_, ?_, ?_, ?_, ?_, ?_⟩ <;>
    · unfold create_post share_post
      simp [hp, hb, hreg, hshare, ea0, ea1, ea2, hne1, new_change, St.putPost, St.putBlog,
        St.insPostShares, mapInsert, mapMutate, hnp, hnp2]

/-! ## The claims -/

/-- **C1**: starting from the initial state, any sequence of operations
leaves every account's reputation at least 1 (a missing account reads as a
fresh account, which carries reputation exactly 1), and
`change_social_account_reputation` clamps to exactly 1 whenever the
requested diff would reach or cross the floor. -/
theorem claim_C1_reputation_floor :
    (∀ (ops : List Op) (a : Nat),
        1 ≤ (get_or_new_social_account (runOps ops initSt) a).reputation)
    ∧ (∀ (s : St) (a : Nat), s.socialAccountById a = none →
        (get_or_new_social_account s a).reputation = 1)
    ∧ (∀ (s : St) (account scorer : Nat) (d : Int) (act : ScoringAction),
        ((get_or_new_social_account s account).reputation : Int) + d ≤ 1 →
        ∃ sa, (change_social_account_reputation account scorer d act s).2.socialAccountById
            account = some sa ∧ sa.reputation = 1) := by
  refine ⟨?_, ?_, ?_⟩
  · intro ops a
    exact getOrNew_rep_ge_one _ a (runOps_repInv ops initSt repInv_initSt)
  · intro s a h
    unfold get_or_new_social_account
    rw [h]
  · intro s account scorer d act h
    exact casr_clamp account scorer d act s h

/-- **C1 witness**: the floor theorem applied at concrete inputs (one
follow-account operation; the empty account 0; a clamping diff of −5 on a
fresh account). -/
theorem claim_C1_reputation_floor_witness :
    1 ≤ (get_or_new_social_account (runOps [Op.FollowAccount 2 1] initSt) 1).reputation
    ∧ (get_or_new_social_account initSt 0).reputation = 1
    ∧ ∃ sa, (change_social_account_reputation 1 2 (-5) ScoringAction.FollowAccount
        initSt).2.socialAccountById 1 = some sa ∧ sa.reputation = 1 :=
  ⟨claim_C1_reputation_floor.1 [Op.FollowAccount 2 1] 1,
   claim_C1_reputation_floor.2.1 initSt 0 rfl,
   claim_C1_reputation_floor.2.2 initSt 1 2 (-5) ScoringAction.FollowAccount (by decide)⟩

/-- **C5** (code-bug evidence): in the reachable state `exStC5` (one regular
post with score 0, creator reputation 1), `create_comment` by account 2 with
the unknown parent id 99 fails with the unknown-parent error, yet the
score/reputation/ledger mutations made by `change_post_score` before the
failing check remain persisted — the operation is not atomic. -/
theorem claim_C5_no_atomic_abort :
    (create_comment 2 1 (some 99) exHash exStC5).1 = Except.error MSG_UNKNOWN_PARENT_COMMENT
    ∧ (exStC5.postById 1).map Post.score = some 0
    ∧ ((create_comment 2 1 (some 99) exHash exStC5).2.postById 1).map Post.score = some 5
    ∧ (get_or_new_social_account exStC5 1).reputation = 1
    ∧ (get_or_new_social_account (create_comment 2 1 (some 99) exHash exStC5).2 1).reputation = 6
    ∧ (create_comment 2 1 (some 99) exHash exStC5).2.postScoreByAccount
        (2, 1, ScoringAction.CreateComment) = some 5 := by
  refine ⟨?_, ?_, ?_, ?_, ?_, ?_⟩ <;> decide

/-- **C7** (code-bug evidence): in the reachable state `exStC7`, account 2
deletes its Downvote reaction 1 by naming post 2 (whose `downvotes_count` is
0); the unchecked `-= 1` wraps the `u16` counter to 65535 and the call
reports success instead of an arithmetic error. -/
theorem claim_C7_unchecked_counter_wrap :
    (exStC7.postById 2).map Post.downvotes_count = some 0
    ∧ (delete_post_reaction 2 2 1 exStC7).1 = Except.ok ()
    ∧ ((delete_post_reaction 2 2 1 exStC7).2.postById 2).map Post.downvotes_count
        = some 65535 := by
  refine ⟨?_, ?_, ?_⟩ <;> decide

/-- **C3 counterexample**: in the reachable state `exStC3` the premises of
the claim hold for actor 2 on post 2 (non-creator, no vote entries for the
post, two upvote calls in succession with nothing in between), yet the state
is not restored: the first call toggles away the cross-post reputation-diff
entry (2, 1, UpvotePost), so the second call aborts with the
reputation-diff-missing error, the score-ledger entry survives and the post
score stays displaced. -/
theorem claim_C3_counterexample :
    (exStC3.postById 2).map (fun p => p.created.account) = some 1
    ∧ exStC3.postScoreByAccount (2, 2, ScoringAction.UpvotePost) = none
    ∧ exStC3.postScoreByAccount (2, 2, ScoringAction.DownvotePost) = none
    ∧ (exStC3.postById 2).map Post.score = some 0
    ∧ (change_stored_post_score 2 2 ScoringAction.UpvotePost exStC3).1 = Except.ok ()
    ∧ (change_stored_post_score 2 2 ScoringAction.UpvotePost exStC3a).1 =
        Except.error MSG_REPUTATION_DIFF_NOT_FOUND
    ∧ (change_stored_post_score 2 2 ScoringAction.UpvotePost exStC3a).2.postScoreByAccount
        (2, 2, ScoringAction.UpvotePost) = some 5
    ∧ ((change_stored_post_score 2 2 ScoringAction.UpvotePost exStC3a).2.postById 2).map
        Post.score = some 5 := by
  refine ⟨?_, ?_, ?_, ?_, ?_, ?_, ?_, ?_⟩ <;> decide

/-- **C3 (amended)**: applying `change_post_score(actor, post, UpvotePost)`
twice in succession (through the caller-style wrapper, with nothing in
between) restores the post score, the blog score and the actor's effect on
the creator's reputation, and leaves no score-ledger entry — PROVIDED the
actor starts with no vote-ledger entries on this post AND no in-effect
reputation-diff ledger entry toward the creator for UpvotePost (the premise
the original claim lacks, since that ledger is keyed per creator rather
than per post), the creator's reputation stays above the clamping floor,
and the checked arithmetic stays in bounds. -/
theorem claim_C3_amended (a pid : Nat) (s : St) (blog : Blog) (p : Post) (g : Int) (rc : Nat)
    (hgdef : g = get_score_diff s (get_or_new_social_account s a).reputation
        ScoringAction.UpvotePost)
    (hrcdef : rc = (get_or_new_social_account s p.created.account).reputation)
    (hp : s.postById pid = some p)
    (hpid : p.id = pid)
    (hb : s.blogById p.blog_id = some blog)
    (hna : p.created.account ≠ a)
    (hup : s.postScoreByAccount (a, pid, ScoringAction.UpvotePost) = none)
    (hdn : s.postScoreByAccount (a, pid, ScoringAction.DownvotePost) = none)
    (hrd : s.accountReputationDiffByAccount (a, p.created.account, ScoringAction.UpvotePost)
        = none)
    (hg : 0 < g) (hrc : 2 ≤ rc)
    (hpl : -2147483648 ≤ p.score) (hph : p.score + g < 2147483648)
    (hbl : -2147483648 ≤ blog.score) (hbh : blog.score + g < 2147483648)
    (hov : (rc : Int) + g < 4294967296) :
    (change_stored_post_score a pid ScoringAction.UpvotePost s).1 = Except.ok ()
    ∧ (change_stored_post_score a pid ScoringAction.UpvotePost
        (change_stored_post_score a pid ScoringAction.UpvotePost s).2).1 = Except.ok ()
    ∧ ((change_stored_post_score a pid ScoringAction.UpvotePost
        (change_stored_post_score a pid ScoringAction.UpvotePost s).2).2.postById pid).map
          Post.score = some p.score
    ∧ ((change_stored_post_score a pid ScoringAction.UpvotePost
        (change_stored_post_score a pid ScoringAction.UpvotePost s).2).2.blogById
          p.blog_id).map Blog.score = some blog.score
    ∧ (change_stored_post_score a pid ScoringAction.UpvotePost
        (change_stored_post_score a pid ScoringAction.UpvotePost s).2).2.postScoreByAccount
          (a, pid, ScoringAction.UpvotePost) = none
    ∧ (change_stored_post_score a pid ScoringAction.UpvotePost
        (change_stored_post_score a pid ScoringAction.UpvotePost
          s).2).2.accountReputationDiffByAccount
            (a, p.created.account, ScoringAction.UpvotePost) = none
    ∧ (get_or_new_social_account
        (change_stored_post_score a pid ScoringAction.UpvotePost
          (change_stored_post_score a pid ScoringAction.UpvotePost s).2).2
        p.created.account).reputation = rc := by
  obtain ⟨c1, c2, c3, c4, c5, c6, c7, c8, c9, c10⟩ :=
    csps_fresh a pid ScoringAction.UpvotePost s blog p g rc hgdef hrcdef hp hpid hb hna hup
      hdn hrd ⟨by omega, by omega⟩ ⟨by omega, by omega⟩ (by omega) (by omega)
  obtain ⟨r1, r2, r3, r4, r5, r6⟩ :=
    csps_revert_run a pid ScoringAction.UpvotePost
      (change_stored_post_score a pid ScoringAction.UpvotePost s).2
      { blog with score := blog.score + g } { p with score := p.score + g } g g
      (((rc : Int) + g).toNat)
      (by rw [getOrNew_of_eq c8])
      c2 hpid c3 hna c4 c6
      (by dsimp only []; constructor <;> omega)
      (by dsimp only []; constructor <;> omega)
      (by omega) (by omega)
  refine ⟨c1, r1, ?_, ?_, r4, r5, ?_⟩
  · rw [r2]
    simp
  · rw [r3]
    simp
  · rw [getOrNew_of_eq r6]
    dsimp only []
    omega

/-- **C3 amended witness**: the toggle-restoration theorem applied in the
reachable state `exStC34` (actor 2 upvotes post 1 of creator 1 twice; the
creator's reputation is 6 and the diff per upvote is 5). -/
theorem claim_C3_amended_witness :
    (change_stored_post_score 2 1 ScoringAction.UpvotePost exStC34).1 = Except.ok ()
    ∧ (change_stored_post_score 2 1 ScoringAction.UpvotePost
        (change_stored_post_score 2 1 ScoringAction.UpvotePost exStC34).2).1 = Except.ok ()
    ∧ ((change_stored_post_score 2 1 ScoringAction.UpvotePost
        (change_stored_post_score 2 1 ScoringAction.UpvotePost exStC34).2).2.postById 1).map
          Post.score = some exPostC34.score
    ∧ ((change_stored_post_score 2 1 ScoringAction.UpvotePost
        (change_stored_post_score 2 1 ScoringAction.UpvotePost exStC34).2).2.blogById
          exPostC34.blog_id).map Blog.score = some exBlogC34.score
    ∧ (change_stored_post_score 2 1 ScoringAction.UpvotePost
        (change_stored_post_score 2 1 ScoringAction.UpvotePost exStC34).2).2.postScoreByAccount
          (2, 1, ScoringAction.UpvotePost) = none
    ∧ (change_stored_post_score 2 1 ScoringAction.UpvotePost
        (change_stored_post_score 2 1 ScoringAction.UpvotePost
          exStC34).2).2.accountReputationDiffByAccount
            (2, exPostC34.created.account, ScoringAction.UpvotePost) = none
    ∧ (get_or_new_social_account
        (change_stored_post_score 2 1 ScoringAction.UpvotePost
          (change_stored_post_score 2 1 ScoringAction.UpvotePost exStC34).2).2
        exPostC34.created.account).reputation = 6 :=
  claim_C3_amended 2 1 exStC34 exBlogC34 exPostC34 5 6
    (by decide) (by decide) (by decide) (by decide) (by decide) (by decide) (by decide)
    (by decide) (by decide) (by decide) (by decide) (by decide) (by decide) (by decide)
    (by decide) (by decide)

/-- **C4 counterexample**: same reachable state `exStC3`; after the upvote on
post 2 (state `exStC3a`), the subsequent downvote call aborts with the
reputation-diff-missing error while reversing the upvote, leaving the
UpvotePost ledger entry in place and no DownvotePost entry — the opposite of
what the claim requires. -/
theorem claim_C4_counterexample :
    (change_stored_post_score 2 2 ScoringAction.UpvotePost exStC3).1 = Except.ok ()
    ∧ (change_stored_post_score 2 2 ScoringAction.DownvotePost exStC3a).1 =
        Except.error MSG_REPUTATION_DIFF_NOT_FOUND
    ∧ (change_stored_post_score 2 2 ScoringAction.DownvotePost exStC3a).2.postScoreByAccount
        (2, 2, ScoringAction.DownvotePost) = none
    ∧ (change_stored_post_score 2 2 ScoringAction.DownvotePost exStC3a).2.postScoreByAccount
        (2, 2, ScoringAction.UpvotePost) = some 5 := by
  refine ⟨?_, ?_, ?_, ?_⟩ <;> decide

/-- **C4 (amended)**: upvoting then downvoting the same post by the same
non-creator actor leaves only the downvote's effect — a DownvotePost ledger
entry, no UpvotePost entry, and the post score displaced from its
pre-upvote value by exactly the recorded downvote diff — PROVIDED the actor
starts with no vote-ledger entries on the post and no in-effect
reputation-diff entries toward the creator for either vote action (the
premise the original claim lacks, since that ledger is keyed per creator
rather than per post), the creator's reputation stays above the clamping
floor, and the checked arithmetic stays in bounds. -/
theorem claim_C4_amended (a pid : Nat) (s : St) (blog : Blog) (p : Post) (g g2 : Int)
    (rc : Nat)
    (hgdef : g = get_score_diff s (get_or_new_social_account s a).reputation
        ScoringAction.UpvotePost)
    (hg2def : g2 = get_score_diff s (get_or_new_social_account s a).reputation
        ScoringAction.DownvotePost)
    (hrcdef : rc = (get_or_new_social_account s p.created.account).reputation)
    (hp : s.postById pid = some p)
    (hpid : p.id = pid)
    (hb : s.blogById p.blog_id = some blog)
    (hna : p.created.account ≠ a)
    (hup : s.postScoreByAccount (a, pid, ScoringAction.UpvotePost) = none)
    (hdn : s.postScoreByAccount (a, pid, ScoringAction.DownvotePost) = none)
    (hrd : s.accountReputationDiffByAccount (a, p.created.account, ScoringAction.UpvotePost)
        = none)
    (hrdd : s.accountReputationDiffByAccount (a, p.created.account, ScoringAction.DownvotePost)
        = none)
    (hg : 0 < g) (hrc : 2 ≤ rc)
    (hpl : -2147483648 ≤ p.score) (hph : p.score + g < 2147483648)
    (hbl : -2147483648 ≤ blog.score) (hbh : blog.score + g < 2147483648)
    (hov : (rc : Int) + g < 4294967296)
    (hps2 : -2147483648 ≤ p.score + g2 ∧ p.score + g2 < 2147483648)
    (hbs2 : -2147483648 ≤ blog.score + g + g2 ∧ blog.score + g + g2 < 2147483648)
    (hnc2 : ¬ (rc : Int) + g2 ≤ 1) (hov2 : (rc : Int) + g2 < 4294967296) :
    (change_stored_post_score a pid ScoringAction.UpvotePost s).1 = Except.ok ()
    ∧ (change_stored_post_score a pid ScoringAction.DownvotePost
        (change_stored_post_score a pid ScoringAction.UpvotePost s).2).1 = Except.ok ()
    ∧ (change_stored_post_score a pid ScoringAction.DownvotePost
        (change_stored_post_score a pid ScoringAction.UpvotePost s).2).2.postScoreByAccount
          (a, pid, ScoringAction.UpvotePost) = none
    ∧ ∃ gd, (change_stored_post_score a pid ScoringAction.DownvotePost
          (change_stored_post_score a pid ScoringAction.UpvotePost s).2).2.postScoreByAccount
            (a, pid, ScoringAction.DownvotePost) = some gd
        ∧ ((change_stored_post_score a pid ScoringAction.DownvotePost
            (change_stored_post_score a pid ScoringAction.UpvotePost s).2).2.postById pid).map
              Post.score = some (p.score + gd) := by
  obtain ⟨c1, c2, c3, c4, c5, c6, c7, c8, c9, c10⟩ :=
    csps_fresh a pid ScoringAction.UpvotePost s blog p g rc hgdef hrcdef hp hpid hb hna hup
      hdn hrd ⟨by omega, by omega⟩ ⟨by omega, by omega⟩ (by omega) (by omega)
  have hg2eq : get_score_diff (change_stored_post_score a pid ScoringAction.UpvotePost s).2
      (get_or_new_social_account
        (change_stored_post_score a pid ScoringAction.UpvotePost s).2 a).reputation
      ScoringAction.DownvotePost = g2 := by
    rw [get_score_diff_congr
      (by rw [getOrNew_congr (c9 a (Ne.symm hna))]) (c10 ScoringAction.DownvotePost), hg2def]
  obtain ⟨r1, r2, r3, r4⟩ :=
    csps_down_after_up a pid (change_stored_post_score a pid ScoringAction.UpvotePost s).2
      { blog with score := blog.score + g } { p with score := p.score + g } g g g2
      (((rc : Int) + g).toNat)
      hg2eq.symm
      (by rw [getOrNew_of_eq c8])
      c2 hpid c3 hna
      ((c5 (a, pid, ScoringAction.DownvotePost) (by simp)).trans hdn)
      c4 c6
      ((c7 (a, p.created.account, ScoringAction.DownvotePost) (by simp)).trans hrdd)
      (by dsimp only []; exact ⟨by omega, by omega⟩)
      (by dsimp only []; exact ⟨by omega, by omega⟩)
      (by dsimp only []; exact ⟨by omega, by omega⟩)
      (by dsimp only []; exact ⟨by omega, by omega⟩)
      (by omega) (by omega) (by omega) (by omega)
  exact ⟨c1, r1, r3, g2, r2, r4.trans (congrArg some (by dsimp only []; ring))⟩

/-- **C4 amended witness**: the up-then-down theorem applied in the
reachable state `exStC34` (actor 2, post 1, upvote diff 5, downvote diff
-3, creator reputation 6). -/
theorem claim_C4_amended_witness :
    (change_stored_post_score 2 1 ScoringAction.UpvotePost exStC34).1 = Except.ok ()
    ∧ (change_stored_post_score 2 1 ScoringAction.DownvotePost
        (change_stored_post_score 2 1 ScoringAction.UpvotePost exStC34).2).1 = Except.ok ()
    ∧ (change_stored_post_score 2 1 ScoringAction.DownvotePost
        (change_stored_post_score 2 1
          ScoringAction.UpvotePost exStC34).2).2.postScoreByAccount
            (2, 1, ScoringAction.UpvotePost) = none
    ∧ ∃ gd, (change_stored_post_score 2 1 ScoringAction.DownvotePost
          (change_stored_post_score 2 1
            ScoringAction.UpvotePost exStC34).2).2.postScoreByAccount
              (2, 1, ScoringAction.DownvotePost) = some gd
        ∧ ((change_stored_post_score 2 1 ScoringAction.DownvotePost
            (change_stored_post_score 2 1
              ScoringAction.UpvotePost exStC34).2).2.postById 1).map
                Post.score = some (exPostC34.score + gd) :=
  claim_C4_amended 2 1 exStC34 exBlogC34 exPostC34 5 (-3) 6
    (by decide) (by decide) (by decide) (by decide) (by decide) (by decide) (by decide)
    (by decide) (by decide) (by decide) (by decide) (by decide) (by decide) (by decide)
    (by decide) (by decide) (by decide) (by decide) (by decide) (by decide) (by decide)
    (by decide)

/-- **C6 counterexample**: updating blog 1 of `exStC6` with a payload that
repeats exactly its current field values returns success with no state
change and no event — not the nothing-to-update error the claim requires. -/
theorem claim_C6_counterexample :
    (exStC6.blogById 1).map Blog.writers = some []
    ∧ (exStC6.blogById 1).map Blog.slug = some exSlug1
    ∧ (exStC6.blogById 1).map Blog.ipfs_hash = some exHash
    ∧ (update_blog 1 1 exUpdC6 exStC6).1 = Except.ok ()
    ∧ (update_blog 1 1 exUpdC6 exStC6).2.events = exStC6.events
    ∧ (update_blog 1 1 exUpdC6 exStC6).2.blogById 1 = exStC6.blogById 1 := by
  refine ⟨?_, ?_, ?_, ?_, ?_, ?_⟩ <;> decide

/-- **C6 (amended)**: an update payload in which EVERY optional field is
absent fails with the respective nothing-to-update error (for blogs, posts
and profiles alike); but a payload whose present fields all equal the
entity's current values is a silent success — the call returns Ok and
leaves the state entirely unchanged, with no event. -/
theorem claim_C6_amended (s : St) (owner bid pid : Nat) (blog : Blog) (post : Post)
    (sa : SocialAccount) (prof : Profile)
    (hb : s.blogById bid = some blog) (hbo : owner = blog.created.account)
    (hp : s.postById pid = some post) (hpo : owner = post.created.account)
    (hsa : s.socialAccountById owner = some sa) (hprof : sa.profile = some prof) :
    (update_blog owner bid { writers := none, slug := none, ipfs_hash := none } s).1
        = Except.error MSG_NOTHING_TO_UPDATE_IN_BLOG
    ∧ (update_post owner pid { blog_id := none, ipfs_hash := none } s).1
        = Except.error MSG_NOTHING_TO_UPDATE_IN_POST
    ∧ (update_profile owner { username := none, ipfs_hash := none } s).1
        = Except.error MSG_NOTHING_TO_UPDATE_IN_PROFILE
    ∧ update_blog owner bid
        { writers := some blog.writers, slug := some blog.slug,
          ipfs_hash := some blog.ipfs_hash } s = (Except.ok (), s)
    ∧ update_post owner pid
        { blog_id := some post.blog_id, ipfs_hash := some post.ipfs_hash } s
        = (Except.ok (), s)
    ∧ update_profile owner
        { username := some prof.username, ipfs_hash := some prof.ipfs_hash } s
        = (Except.ok (), s) := by
  refine ⟨rfl, rfl, rfl, ?_, ?_, ?_⟩
  · unfold update_blog
    simp [hb, hbo, new_change]
  · unfold update_post
    simp [hp, hpo, new_change]
  · unfold update_profile
    simp [hsa, hprof, new_change]

/-- **C6 amended witness**: the no-op-update theorem applied in the
reachable state `exStC6w`, where account 1 owns blog 1, post 1 and a
profile. -/
theorem claim_C6_amended_witness :
    (update_blog 1 1 { writers := none, slug := none, ipfs_hash := none } exStC6w).1
        = Except.error MSG_NOTHING_TO_UPDATE_IN_BLOG
    ∧ (update_post 1 1 { blog_id := none, ipfs_hash := none } exStC6w).1
        = Except.error MSG_NOTHING_TO_UPDATE_IN_POST
    ∧ (update_profile 1 { username := none, ipfs_hash := none } exStC6w).1
        = Except.error MSG_NOTHING_TO_UPDATE_IN_PROFILE
    ∧ update_blog 1 1
        { writers := some exBlogC6.writers, slug := some exBlogC6.slug,
          ipfs_hash := some exBlogC6.ipfs_hash } exStC6w = (Except.ok (), exStC6w)
    ∧ update_post 1 1
        { blog_id := some exPostC6.blog_id, ipfs_hash := some exPostC6.ipfs_hash } exStC6w
        = (Except.ok (), exStC6w)
    ∧ update_profile 1
        { username := some exProfC6.username, ipfs_hash := some exProfC6.ipfs_hash } exStC6w
        = (Except.ok (), exStC6w) :=
  claim_C6_amended exStC6w 1 1 1 exBlogC6 exPostC6 exSaC6 exProfC6
    (by decide) (by decide) (by decide) (by decide) (by decide) (by decide)

/-- **C8 counterexample**: in the reachable state `exStC8`, account 2 follows
blog 1 (created by account 1 ≠ 2) and the reputation-diff ledger holds NO
entry for (2, 1, FollowBlog); contrary to the claim, `unfollow_blog`
succeeds, silently skipping the reversal (blog score unchanged), instead of
failing with the ledger-entry-missing error. -/
theorem claim_C8_counterexample :
    (exStC8.blogFollowedByAccount (2, 1)).getD false = true
    ∧ (exStC8.blogById 1).map (fun b => b.created.account) = some 1
    ∧ exStC8.accountReputationDiffByAccount (2, 1, ScoringAction.FollowBlog) = none
    ∧ (unfollow_blog 2 1 exStC8).1 = Except.ok ()
    ∧ ((unfollow_blog 2 1 exStC8).2.blogById 1).map Blog.score =
        (exStC8.blogById 1).map Blog.score := by
  refine ⟨?_, ?_, ?_, ?_, ?_⟩ <;> decide

/-- **C9**: sharing the same regular post twice by the same actor (two
successful `create_post` calls with a `SharedPost` extension targeting it)
increments the original post's `shares_count` twice and the per-account
share counter twice, but applies the SharePost score and reputation effect
only on the first share — under the expected side conditions (the actor is
not the creator, this is the actor's first share of the post, the counters
and scores stay in bounds, and the creator's reputation stays above the
clamping floor). -/
theorem claim_C9_share_twice (a bid opid : Nat) (ih : List Nat) (s : St)
    (blog : Blog) (p : Post) (g : Int) (rc : Nat)
    (hgdef : g = get_score_diff s (get_or_new_social_account s a).reputation
        ScoringAction.SharePost)
    (hrcdef : rc = (get_or_new_social_account s p.created.account).reputation)
    (hb : s.blogById bid = some blog)
    (hp : s.postById opid = some p)
    (hpid : p.id = opid)
    (hpb : p.blog_id = bid)
    (hreg : p.extension = PostExtension.RegularPost)
    (hna : p.created.account ≠ a)
    (hshare : s.postSharesByAccount (a, opid) = none)
    (hent : s.postScoreByAccount (a, opid, ScoringAction.SharePost) = none)
    (hrd : s.accountReputationDiffByAccount (a, p.created.account, ScoringAction.SharePost)
        = none)
    (hnp : s.nextPostId ≠ opid)
    (hnp2 : s.nextPostId + 1 ≠ opid)
    (hpc2 : blog.posts_count + 2 < 65536)
    (hsc2 : p.shares_count + 2 < 65536)
    (hps : -2147483648 ≤ p.score + g ∧ p.score + g < 2147483648)
    (hbs : -2147483648 ≤ blog.score + g ∧ blog.score + g < 2147483648)
    (hnc : ¬ (rc : Int) + g ≤ 1)
    (hov : (rc : Int) + g < 4294967296) :
    (create_post a bid ih (PostExtension.SharedPost opid) s).1 = Except.ok ()
    ∧ (create_post a bid ih (PostExtension.SharedPost opid)
        (create_post a bid ih (PostExtension.SharedPost opid) s).2).1 = Except.ok ()
    ∧ ((create_post a bid ih (PostExtension.SharedPost opid)
        (create_post a bid ih (PostExtension.SharedPost opid) s).2).2.postById opid).map
          Post.shares_count = some (p.shares_count + 2)
    ∧ ((create_post a bid ih (PostExtension.SharedPost opid)
        (create_post a bid ih (PostExtension.SharedPost opid) s).2).2.postById opid).map
          Post.score = some (p.score + g)
    ∧ (create_post a bid ih (PostExtension.SharedPost opid)
        (create_post a bid ih (PostExtension.SharedPost opid) s).2).2.postSharesByAccount
          (a, opid) = some 2
    ∧ (create_post a bid ih (PostExtension.SharedPost opid)
        (create_post a bid ih (PostExtension.SharedPost opid) s).2).2.postScoreByAccount
          (a, opid, ScoringAction.SharePost) = some g
    ∧ (get_or_new_social_account
        (create_post a bid ih (PostExtension.SharedPost opid)
          (create_post a bid ih (PostExtension.SharedPost opid) s).2).2
        p.created.account).reputation = ((rc : Int) + g).toNat := by
  subst hpid hpb
  obtain ⟨k1, k2, k3, k4, k5, k6, k7, k8⟩ :=
    create_post_shared_first a p.blog_id p.id ih s blog p g rc hgdef hrcdef hb hp rfl rfl
      hreg hna hshare hent hrd hnp (by omega) (by omega) hps hbs hnc hov
  obtain ⟨m1, m2, m3, m4, m5, m6⟩ :=
    create_post_shared_again a p.blog_id ih
      (create_post a p.blog_id ih (PostExtension.SharedPost p.id) s).2
      { blog with posts_count := blog.posts_count + 1 }
      { p with shares_count := p.shares_count + 1, score := p.score + g } 1
      k2 k3 hreg k4 (Nat.le_refl 1) (by omega)
      (by dsimp only []; omega) (by dsimp only []; omega)
      (by rw [k8]; exact hnp2)
  have m2' : (create_post a p.blog_id ih (PostExtension.SharedPost p.id)
      (create_post a p.blog_id ih (PostExtension.SharedPost p.id) s).2).2.postById p.id
      = some { p with shares_count := p.shares_count + 1 + 1, score := p.score + g } := m2
  have m3' : (create_post a p.blog_id ih (PostExtension.SharedPost p.id)
      (create_post a p.blog_id ih (PostExtension.SharedPost p.id) s).2).2.postSharesByAccount
      (a, p.id) = some 2 := m3
  have m4' : (create_post a p.blog_id ih (PostExtension.SharedPost p.id)
      (create_post a p.blog_id ih (PostExtension.SharedPost p.id) s).2).2.postScoreByAccount
      = (create_post a p.blog_id ih
          (PostExtension.SharedPost p.id) s).2.postScoreByAccount := m4
  have m5' : (create_post a p.blog_id ih (PostExtension.SharedPost p.id)
      (create_post a p.blog_id ih (PostExtension.SharedPost p.id) s).2).2.socialAccountById
      = (create_post a p.blog_id ih
          (PostExtension.SharedPost p.id) s).2.socialAccountById := m5
  refine ⟨k1, m1, ?_, ?_, m3', ?_, ?_⟩
  · rw [m2']
    simp
  · rw [m2']
    simp
  · rw [m4']
    exact k5
  · rw [getOrNew_congr (congrFun m5' p.created.account), getOrNew_of_eq k6]

/-- **C9 witness**: the share-twice theorem applied in the reachable state
`exStC9` (account 2 shares post 1 of creator 1 twice; the share diff is 5
and the creator's reputation rises from 1 to 6 on the first share only). -/
theorem claim_C9_share_twice_witness :
    (create_post 2 1 exHash (PostExtension.SharedPost 1) exStC9).1 = Except.ok ()
    ∧ (create_post 2 1 exHash (PostExtension.SharedPost 1)
        (create_post 2 1 exHash (PostExtension.SharedPost 1) exStC9).2).1 = Except.ok ()
    ∧ ((create_post 2 1 exHash (PostExtension.SharedPost 1)
        (create_post 2 1 exHash (PostExtension.SharedPost 1) exStC9).2).2.postById 1).map
          Post.shares_count = some (exPostC9.shares_count + 2)
    ∧ ((create_post 2 1 exHash (PostExtension.SharedPost 1)
        (create_post 2 1 exHash (PostExtension.SharedPost 1) exStC9).2).2.postById 1).map
          Post.score = some (exPostC9.score + 5)
    ∧ (create_post 2 1 exHash (PostExtension.SharedPost 1)
        (create_post 2 1 exHash
          (PostExtension.SharedPost 1) exStC9).2).2.postSharesByAccount
            (2, 1) = some 2
    ∧ (create_post 2 1 exHash (PostExtension.SharedPost 1)
        (create_post 2 1 exHash
          (PostExtension.SharedPost 1) exStC9).2).2.postScoreByAccount
            (2, 1, ScoringAction.SharePost) = some 5
    ∧ (get_or_new_social_account
        (create_post 2 1 exHash (PostExtension.SharedPost 1)
          (create_post 2 1 exHash (PostExtension.SharedPost 1) exStC9).2).2
        exPostC9.created.account).reputation = ((1 : Int) + 5).toNat :=
  claim_C9_share_twice 2 1 1 exHash exStC9 exBlogC9 exPostC9 5 1
    (by decide) (by decide) (by decide) (by decide) (by decide) (by decide) (by decide)
    (by decide) (by decide) (by decide) (by decide) (by decide) (by decide) (by decide)
    (by decide) (by decide) (by decide) (by decide) (by decide)

/-- **C8 (amended)**: for a follower currently following a blog they did not
create, `unfollow_blog` reverses the blog score by exactly the STORED
reputation-diff ledger entry when one exists (not a recomputation); when no
entry exists it SILENTLY SKIPS the reversal and still succeeds, leaving the
blog score and the creator's account untouched. The ledger-entry-missing
error belongs to `unfollow_account`, which does fail when the
(follower, account, FollowAccount) diff entry is absent. -/
theorem claim_C8_amended (s : St) (follower bid : Nat) (blog : Blog) (sa : SocialAccount)
    (hb : s.blogById bid = some blog)
    (hf : (s.blogFollowedByAccount (follower, bid)).getD false = true)
    (hsa : s.socialAccountById follower = some sa)
    (hfb : 1 ≤ sa.following_blogs_count)
    (hfc : 1 ≤ blog.followers_count)
    (hcr : blog.created.account ≠ follower) :
    (s.accountReputationDiffByAccount (follower, blog.created.account,
        ScoringAction.FollowBlog) = none →
      (unfollow_blog follower bid s).1 = Except.ok ()
      ∧ ((unfollow_blog follower bid s).2.blogById bid).map Blog.score = some blog.score
      ∧ (unfollow_blog follower bid s).2.socialAccountById blog.created.account
          = s.socialAccountById blog.created.account)
    ∧ (∀ dv, s.accountReputationDiffByAccount (follower, blog.created.account,
          ScoringAction.FollowBlog) = some dv →
        -2147483648 ≤ blog.score - dv ∧ blog.score - dv < 2147483648 →
        ¬ ((get_or_new_social_account s blog.created.account).reputation : Int) - dv ≤ 1 →
        ((get_or_new_social_account s blog.created.account).reputation : Int) - dv
            < 4294967296 →
        (unfollow_blog follower bid s).1 = Except.ok ()
        ∧ ((unfollow_blog follower bid s).2.blogById bid).map Blog.score
            = some (blog.score - dv))
    ∧ (∀ acct sa2, follower ≠ acct → s.socialAccountById acct = some sa2 →
        (s.accountFollowedByAccount (follower, acct)).isSome = true →
        1 ≤ sa.following_accounts_count → 1 ≤ sa2.followers_count →
        s.accountReputationDiffByAccount (follower, acct, ScoringAction.FollowAccount)
          = none →
        (unfollow_account follower acct s).1 = Except.error MSG_REPUTATION_DIFF_NOT_FOUND) := by
  have es1 := checkedSubU16_some sa.following_blogs_count 1 hfb
  have es2 := checkedSubU32_some blog.followers_count 1 hfc
  refine ⟨fun hnone => ⟨?_, ?_, ?_⟩, fun dv hent hr hnc hov => ?_,
    fun acct sa2 hne hsa2 hfol hfa hfc2 hrdn => ?_⟩
  · unfold unfollow_blog
    simp [hb, hf, hsa, es1, es2, hcr, hnone]
  · unfold unfollow_blog
    simp [hb, hf, hsa, es1, es2, hcr, hnone, St.putBlog, St.putSocialAccount,
      St.rmBlogFollowed, mapInsert, mapRemove, mapMutate]
  · unfold unfollow_blog
    simp [hb, hf, hsa, es1, es2, hcr, hnone, St.putBlog, St.putSocialAccount,
      St.rmBlogFollowed, mapInsert, mapRemove, mapMutate]
  · have esi := checkedSubI32_some blog.score dv hr
    have hcr2 := casr_run blog.created.account follower (-dv) ScoringAction.FollowBlog s
      (by omega) (by omega)
    constructor <;>
      · unfold unfollow_blog
        simp [hb, hf, hsa, es1, es2, hcr, hent, esi, hcr2, casrResultState, St.putBlog,
          St.putSocialAccount, St.rmBlogFollowed, St.rmRepDiff, St.insRepDiff, mapInsert,
          mapRemove, mapMutate, sub_eq_add_neg]
  · have es3 := checkedSubU16_some sa.following_accounts_count 1 hfa
    have es4 := checkedSubU32_some sa2.followers_count 1 hfc2
    unfold unfollow_account
    simp [hne, hsa, hsa2, hfol, es3, es4, hrdn]

/-- **C8 amended witness**: the unfollow theorem applied twice — in
`exStC8ext` (no FollowBlog ledger entry: the unfollow silently succeeds and
account 2's unfollow of account 4 hits the ledger-entry-missing error) and
in `exStC8w` (entry 7: the blog score is reversed by exactly the stored
diff). -/
theorem claim_C8_amended_witness :
    ((unfollow_blog 2 1 exStC8ext).1 = Except.ok ()
      ∧ ((unfollow_blog 2 1 exStC8ext).2.blogById 1).map Blog.score = some exBlogC8.score
      ∧ (unfollow_blog 2 1 exStC8ext).2.socialAccountById exBlogC8.created.account
          = exStC8ext.socialAccountById exBlogC8.created.account)
    ∧ (unfollow_account 2 4 exStC8ext).1 = Except.error MSG_REPUTATION_DIFF_NOT_FOUND
    ∧ ((unfollow_blog 2 1 exStC8w).1 = Except.ok ()
      ∧ ((unfollow_blog 2 1 exStC8w).2.blogById 1).map Blog.score
          = some (exBlogC8w.score - 7)) :=
  have h1 := claim_C8_amended exStC8ext 2 1 exBlogC8 exSaC8ext
    (by decide) (by decide) (by decide) (by decide) (by decide) (by decide)
  have h2 := claim_C8_amended exStC8w 2 1 exBlogC8w exSaC8w
    (by decide) (by decide) (by decide) (by decide) (by decide) (by decide)
  ⟨h1.1 (by decide),
   h1.2.2 4 exSaC8a (by decide) (by decide) (by decide) (by decide) (by decide) (by decide),
   h2.2.1 7 (by decide) (by decide) (by decide) (by decide)⟩

/-! ## Characterizing the scoring formula -/

theorem bitLength_zero : ∀ fuel, bitLength fuel 0 = 0 := by
  intro fuel
  cases fuel with
  | zero => rfl
  | succ fuel => simp [bitLength]

theorem bitLength_char : ∀ (fuel n : Nat), n < 2 ^ fuel → 1 ≤ n →
    2 ^ (bitLength fuel n - 1) ≤ n ∧ n < 2 ^ bitLength fuel n ∧
      1 ≤ bitLength fuel n ∧ bitLength fuel n ≤ fuel := by
  intro fuel
  induction fuel with
  | zero =>
      intro n hlt hge
      simp at hlt
      omega
  | succ fuel ih =>
      intro n hlt hge
      have hne : ¬ n = 0 := by omega
      have hbl : bitLength (fuel + 1) n = bitLength fuel (n / 2) + 1 := by
        simp [bitLength, hne]
      by_cases hhalf : n / 2 = 0
      · have hn1 : n = 1 := by omega
        subst hn1
        rw [hbl, hhalf, bitLength_zero]
        simp
      · have hdiv : n / 2 < 2 ^ fuel := by
          have hp : 2 ^ (fuel + 1) = 2 * 2 ^ fuel := by ring
          omega
        obtain ⟨a, b, c, d⟩ := ih (n / 2) hdiv (by omega)
        rw [hbl]
        have hpow : 2 ^ (bitLength fuel (n / 2)) = 2 * 2 ^ (bitLength fuel (n / 2) - 1) := by
          conv_lhs => rw [show bitLength fuel (n / 2) = bitLength fuel (n / 2) - 1 + 1 by omega]
          rw [Nat.pow_succ]
          ring
        have hpow2 : 2 ^ (bitLength fuel (n / 2) + 1) = 2 * 2 ^ (bitLength fuel (n / 2)) := by
          ring
        refine ⟨?_, ?_, by omega, by omega⟩
        · have : bitLength fuel (n / 2) + 1 - 1 = bitLength fuel (n / 2) := by omega
          rw [this]
          omega
        · omega

theorem log_2_char (x : Nat) (h1 : 1 ≤ x) (h2 : x < 2 ^ 32) :
    2 ^ log_2 x ≤ x ∧ x < 2 ^ (log_2 x + 1) ∧ log_2 x ≤ 31 := by
  obtain ⟨a, b, c, d⟩ := bitLength_char 32 x h2 h1
  have he : log_2 x = bitLength 32 x - 1 := by
    unfold log_2 leading_zeros
    omega
  rw [he]
  have hsucc : bitLength 32 x - 1 + 1 = bitLength 32 x := by omega
  refine ⟨a, ?_, by omega⟩
  rw [hsucc]
  exact b

/-- Under the stated side conditions the fractional term of the score base is
at most 99, so the base always collapses to `log_2 rep + 1` and the score
diff is exactly `(log_2 rep + 1) * weight` — provided that product fits in
`i16`. -/
theorem gsd_formula (s : St) (rep : Nat) (act : ScoringAction)
    (h1 : 1 ≤ rep) (h2 : rep < 2 ^ 32)
    (hov : (rep - 2 ^ log_2 rep) * 100 < 2 ^ 32)
    (hwlo : -1023 ≤ weight_of_scoring_action s act)
    (hwhi : weight_of_scoring_action s act ≤ 1023) :
    get_score_diff s rep act =
      ((log_2 rep : Int) + 1) * weight_of_scoring_action s act := by
  obtain ⟨hle, hlt, hr31⟩ := log_2_char rep h1 h2
  have hpow2 : 2 ^ (log_2 rep + 1) = 2 * 2 ^ log_2 rep := by ring
  have hpos : 0 < 2 ^ log_2 rep := Nat.pos_pow_of_pos _ (by norm_num)
  unfold get_score_diff
  dsimp only []
  have hmod : (rep - 2 ^ log_2 rep) * 100 % 4294967296 = (rep - 2 ^ log_2 rep) * 100 :=
    Nat.mod_eq_of_lt (by simpa using hov)
  rw [hmod]
  have hd99 : (rep - 2 ^ log_2 rep) * 100 / 2 ^ log_2 rep ≤ 99 := by
    have hsub : rep - 2 ^ log_2 rep < 2 ^ log_2 rep := by omega
    have hlt100 : (rep - 2 ^ log_2 rep) * 100 < 100 * 2 ^ log_2 rep := by nlinarith
    have hdlt : (rep - 2 ^ log_2 rep) * 100 / 2 ^ log_2 rep < 100 :=
      (Nat.div_lt_iff_lt_mul hpos).mpr hlt100
    omega
  have hd0 : 0 ≤ (rep - 2 ^ log_2 rep) * 100 / 2 ^ log_2 rep := Nat.zero_le _
  have hbase : ((log_2 rep + 1) * 100 + (rep - 2 ^ log_2 rep) * 100 / 2 ^ log_2 rep) / 100
      = log_2 rep + 1 := by omega
  rw [hbase]
  have hsmall : log_2 rep + 1 < 32768 := by omega
  have hu : u32AsI16 (log_2 rep + 1) = (log_2 rep : Int) + 1 := by
    unfold u32AsI16
    have hm : (log_2 rep + 1) % 65536 = log_2 rep + 1 := Nat.mod_eq_of_lt (by omega)
    simp only [hm]
    rw [if_pos (by omega : log_2 rep + 1 < 32768)]
    push_cast
    ring
  rw [hu]
  have hprod_lo : -32768 ≤ ((log_2 rep : Int) + 1) * weight_of_scoring_action s act := by
    have h32 : (log_2 rep : Int) + 1 ≤ 32 := by exact_mod_cast by omega
    have h0 : (0 : Int) < (log_2 rep : Int) + 1 := by positivity
    nlinarith
  have hprod_hi : ((log_2 rep : Int) + 1) * weight_of_scoring_action s act < 32768 := by
    have h32 : (log_2 rep : Int) + 1 ≤ 32 := by exact_mod_cast by omega
    have h0 : (0 : Int) < (log_2 rep : Int) + 1 := by positivity
    nlinarith
  unfold wrapI16
  omega

/-- **C2**: with the default weight table, `get_score_diff(1, action)` equals
`weight(action)` for every scoring action, `get_score_diff(65536, UpvotePost)`
is 85 and `get_score_diff(65535, UpvotePost)` is 80. -/
theorem claim_C2_get_score_diff_values (s : St) (hw : defaultWeights s) :
    (∀ act, get_score_diff s 1 act = weight_of_scoring_action s act)
    ∧ get_score_diff s 65536 ScoringAction.UpvotePost = 85
    ∧ get_score_diff s 65535 ScoringAction.UpvotePost = 80 := by
  obtain ⟨h1, h2, h3, h4, h5, h6, h7, h8, h9⟩ := hw
  refine ⟨?_, ?_, ?_⟩
  · intro act
    cases act <;>
      simp only [get_score_diff, weight_of_scoring_action, h1, h2, h3, h4, h5, h6, h7,
        h8, h9] <;> decide
  · simp only [get_score_diff, weight_of_scoring_action, h1]
    decide
  · simp only [get_score_diff, weight_of_scoring_action, h1]
    decide

/-- **C2 witness**: the value theorem applied at the genesis state, whose
weights are the defaults. -/
theorem claim_C2_get_score_diff_values_witness :
    (∀ act, get_score_diff initSt 1 act = weight_of_scoring_action initSt act)
    ∧ get_score_diff initSt 65536 ScoringAction.UpvotePost = 85
    ∧ get_score_diff initSt 65535 ScoringAction.UpvotePost = 80 :=
  claim_C2_get_score_diff_values initSt (by unfold defaultWeights; decide)

/-- **C10**: with the default weight table, for every reputation at least 1
(and below `2^32`) whose intermediate product does not overflow `u32`,
`get_score_diff(rep, action)` equals `(log_2 rep + 1) * weight(action)` for
every action — the fractional term `d` is at most 99 and never changes the
base; here `log_2 rep` is the floor base-2 logarithm, as witnessed by the
accompanying bounds. -/
theorem claim_C10_gsd_closed_form (s : St) (rep : Nat) (act : ScoringAction)
    (hw : defaultWeights s) (h1 : 1 ≤ rep) (h2 : rep < 2 ^ 32)
    (hov : (rep - 2 ^ log_2 rep) * 100 < 2 ^ 32) :
    get_score_diff s rep act = ((log_2 rep : Int) + 1) * weight_of_scoring_action s act
    ∧ 2 ^ log_2 rep ≤ rep ∧ rep < 2 ^ (log_2 rep + 1) := by
  obtain ⟨hle, hlt, _⟩ := log_2_char rep h1 h2
  refine ⟨?_, hle, hlt⟩
  obtain ⟨w1, w2, w3, w4, w5, w6, w7, w8, w9⟩ := hw
  refine gsd_formula s rep act h1 h2 hov ?_ ?_ <;>
    cases act <;> simp [weight_of_scoring_action, w1, w2, w3, w4, w5, w6, w7, w8, w9]

/-- **C10 witness**: the closed form applied at reputation 65535 (the
power-of-two boundary) with the genesis weights. -/
theorem claim_C10_gsd_closed_form_witness :
    get_score_diff initSt 65535 ScoringAction.UpvotePost =
      ((log_2 65535 : Int) + 1) * weight_of_scoring_action initSt ScoringAction.UpvotePost
    ∧ 2 ^ log_2 65535 ≤ 65535 ∧ 65535 < 2 ^ (log_2 65535 + 1) :=
  claim_C10_gsd_closed_form initSt 65535 ScoringAction.UpvotePost
    (by unfold defaultWeights; decide) (by decide) (by decide) (by decide)

end Subsocial
